import Mathlib

/-!
# Tungsten Pay+ ROI calculator: the calculation engine

Shallow embedding of the class `ROICalculator` of `src/js/calculator.js`.

* A JavaScript number is modelled as an exact rational (`ℚ`). The methods are
  first given over exact arithmetic; the section on double-precision arithmetic
  gives the methods that the rounding claims need with every arithmetic result
  rounded to the nearest double.
* The engine's live snapshot `this.data` is the record `Data`; a method that
  mutates the snapshot is a function `Data → ... → Data`.
* A division whose divisor is computed from the snapshot and whose quotient is
  reported to the caller is modelled by `jsDiv`, which returns `none` where
  JavaScript would produce `Infinity` or `NaN` (a zero divisor).
-/

namespace ROICalculator

/-! ## Data model (`getDefaultData`) -/

/-- Field `customerInfo.paymentTypeDistribution`. -/
structure PaymentTypeDistribution where
  localPercent : ℚ
  crossBorderPercent : ℚ
  deriving DecidableEq

/-- Field `customerInfo.paymentMethodDistribution`. -/
structure PaymentMethodDistribution where
  railPercent : ℚ
  cardPercent : ℚ
  deriving DecidableEq

/-- Field `customerInfo.fxVolume.distribution`. -/
structure FXDistribution where
  tier1Percent : ℚ
  tier2Percent : ℚ
  tier3Percent : ℚ
  deriving DecidableEq

/-- Field `customerInfo.fxVolume`. -/
structure FXVolume where
  distribution : FXDistribution
  deriving DecidableEq

/-- Field `data.customerInfo`. -/
structure CustomerInfo where
  currency : String
  totalPaymentValue : ℚ
  totalPaymentCount : ℚ
  paymentTypeDistribution : PaymentTypeDistribution
  paymentMethodDistribution : PaymentMethodDistribution
  fxPercentOfCrossBorder : ℚ
  fxVolume : FXVolume
  deriving DecidableEq

/-- Field `fxMargins` of a fee schedule. -/
structure FXMargins where
  tier1 : ℚ
  tier2 : ℚ
  tier3 : ℚ
  deriving DecidableEq

/-- One provider's fee schedule, `data.fees[provider]`. -/
structure FeeSchedule where
  localRailFee : ℚ
  crossBorderFee : ℚ
  fxMargins : FXMargins
  cardRebate : ℚ
  deriving DecidableEq

/-- Field `data.fees`. -/
structure Fees where
  tungsten : FeeSchedule
  currentProvider : FeeSchedule
  deriving DecidableEq

/-- The snapshot `this.data`. -/
structure Data where
  customerInfo : CustomerInfo
  fees : Fees
  deriving DecidableEq

/-- The two keys of `data.fees` that `calculateProviderCosts` is called with. -/
inductive Provider where
  | tungsten
  | currentProvider
  deriving DecidableEq

/-- Lookup `this.data.fees[provider]`. -/
def Fees.get (f : Fees) : Provider → FeeSchedule
  | Provider.tungsten => f.tungsten
  | Provider.currentProvider => f.currentProvider

/-- The default snapshot returned by `getDefaultData()`. -/
def getDefaultData : Data :=
  { customerInfo :=
      { currency := "USD"
        totalPaymentValue := 50000000
        totalPaymentCount := 1100000
        paymentTypeDistribution := { localPercent := 60, crossBorderPercent := 40 }
        paymentMethodDistribution := { railPercent := 90, cardPercent := 10 }
        fxPercentOfCrossBorder := 50
        fxVolume := { distribution := { tier1Percent := 40, tier2Percent := 35, tier3Percent := 25 } } }
    fees :=
      { tungsten :=
          { localRailFee := 0.50
            crossBorderFee := 2.00
            fxMargins := { tier1 := 0.50, tier2 := 0.35, tier3 := 0.20 }
            cardRebate := 1.50 }
        currentProvider :=
          { localRailFee := 1.00
            crossBorderFee := 3.50
            fxMargins := { tier1 := 0.75, tier2 := 0.60, tier3 := 0.45 }
            cardRebate := 1.00 } } }

/-! ## Arithmetic primitives -/

/-- The function `Math.round`: the nearest integer, a half rounding up. -/
def mathRound (x : ℚ) : ℤ := ⌊x + 1 / 2⌋

/-- JavaScript division `n / d` of finite numbers whose divisor comes from the
snapshot: `none` stands for the non-finite result (`Infinity` or `NaN`) of a
zero divisor. -/
def jsDiv (n d : ℚ) : Option ℚ := if d = 0 then none else some (n / d)

/-! ## Derived records -/

/-- An entry `{ value, count, percent }` of `breakdown.type` or `breakdown.method`. -/
structure Segment where
  value : ℚ
  count : ℚ
  percent : ℚ
  deriving DecidableEq

/-- An entry `{ value, count }` of `breakdown.rails`. -/
structure RailSegment where
  value : ℚ
  count : ℚ
  deriving DecidableEq

/-- Field `breakdown.type` (the field `local` is spelled `local_`). -/
structure TypeSplit where
  local_ : Segment
  crossBorder : Segment
  deriving DecidableEq

/-- Field `breakdown.method`. -/
structure MethodSplit where
  rail : Segment
  card : Segment
  deriving DecidableEq

/-- Field `breakdown.rails` (the field `local` is spelled `local_`). -/
structure RailsSplit where
  local_ : RailSegment
  crossBorder : RailSegment
  deriving DecidableEq

/-- Result of `calculatePaymentBreakdown()`. -/
structure Breakdown where
  type : TypeSplit
  method : MethodSplit
  rails : RailsSplit
  deriving DecidableEq

/-- Result of `calculateFXVolumes()`. -/
structure FXVolumes where
  tier1 : ℚ
  tier2 : ℚ
  tier3 : ℚ
  total : ℚ
  deriving DecidableEq

/-- Field `fx` of a provider's costs. -/
structure FXCosts where
  tier1 : ℚ
  tier2 : ℚ
  tier3 : ℚ
  total : ℚ
  deriving DecidableEq

/-- Result of `calculateProviderCosts(provider)`. -/
structure ProviderCosts where
  localRail : ℚ
  crossBorderRail : ℚ
  rails : ℚ
  cardRebate : ℚ
  fx : FXCosts
  total : ℚ
  costPerTransaction : Option ℚ
  effectiveRate : Option ℚ
  deriving DecidableEq

/-- Object `costSavings` of `calculateSavings()`. -/
structure CostSavings where
  localRail : ℚ
  crossBorderRail : ℚ
  rails : ℚ
  fx : ℚ
  total : ℚ
  deriving DecidableEq

/-- Field `costs` of the savings data. -/
structure CostsSummary where
  current : ℚ
  tungsten : ℚ
  savings : CostSavings
  savingsPercentage : Option ℚ
  deriving DecidableEq

/-- Field `incentives` of the savings data. -/
structure IncentivesSummary where
  current : ℚ
  tungsten : ℚ
  differential : ℚ
  increasePercentage : Option ℚ
  deriving DecidableEq

/-- Result of `calculateSavings()`. -/
structure SavingsData where
  costs : CostsSummary
  incentives : IncentivesSummary
  totalAnnualBenefit : ℚ
  currentCosts : ProviderCosts
  tungstenCosts : ProviderCosts
  deriving DecidableEq

/-- Field `detailedCosts` of the results. -/
structure DetailedCosts where
  current : ProviderCosts
  tungsten : ProviderCosts
  deriving DecidableEq

/-- Result of `getResults()`. -/
structure Results where
  breakdown : Breakdown
  fxVolumes : FXVolumes
  averageTransactionSize : Option ℚ
  costs : CostsSummary
  incentives : IncentivesSummary
  totalAnnualBenefit : ℚ
  freedWorkingCapital : ℚ
  detailedCosts : DetailedCosts
  currency : String
  currencySymbol : String
  data : Data
  deriving DecidableEq

/-- Result of `validate()`. -/
structure ValidationResult where
  valid : Bool
  errors : List String
  deriving DecidableEq

/-! ## The engine -/

/-- Method `getCurrencySymbol()`: the symbol table with the fallback `$`. -/
def getCurrencySymbol (d : Data) : String :=
  if d.customerInfo.currency = "USD" then "$"
  else if d.customerInfo.currency = "GBP" then "£"
  else if d.customerInfo.currency = "EUR" then "€"
  else "$"

/-- Method `calculateAverageTransactionSize()`. -/
def calculateAverageTransactionSize (d : Data) : Option ℚ :=
  let total := d.customerInfo.totalPaymentValue
  let count := d.customerInfo.totalPaymentCount
  if count > 0 then jsDiv total count else some 0

/-- Method `calculatePaymentBreakdown()`: the method split (card or rail) comes
first, then the type split (local or cross-border) of the rails. -/
def calculatePaymentBreakdown (d : Data) : Breakdown :=
  let total := d.customerInfo.totalPaymentValue
  let count := d.customerInfo.totalPaymentCount
  let typeDist := d.customerInfo.paymentTypeDistribution
  let methodDist := d.customerInfo.paymentMethodDistribution
  let railValue := total * (methodDist.railPercent / 100)
  let cardValue := total * (methodDist.cardPercent / 100)
  let railCount : ℚ := mathRound (count * (methodDist.railPercent / 100))
  let cardCount := count - railCount
  let localRailValue := railValue * (typeDist.localPercent / 100)
  let crossBorderRailValue := railValue * (typeDist.crossBorderPercent / 100)
  let localRailCount : ℚ := mathRound (railCount * (typeDist.localPercent / 100))
  let crossBorderRailCount := railCount - localRailCount
  let localValue := localRailValue + (cardValue * (typeDist.localPercent / 100))
  let crossBorderValue := crossBorderRailValue + (cardValue * (typeDist.crossBorderPercent / 100))
  let localCount := localRailCount + (mathRound (cardCount * (typeDist.localPercent / 100)) : ℚ)
  let crossBorderCount :=
    crossBorderRailCount + (cardCount - (mathRound (cardCount * (typeDist.localPercent / 100)) : ℚ))
  { type :=
      { local_ := { value := localValue, count := localCount, percent := typeDist.localPercent }
        crossBorder :=
          { value := crossBorderValue, count := crossBorderCount, percent := typeDist.crossBorderPercent } }
    method :=
      { rail := { value := railValue, count := railCount, percent := methodDist.railPercent }
        card := { value := cardValue, count := cardCount, percent := methodDist.cardPercent } }
    rails :=
      { local_ := { value := localRailValue, count := localRailCount }
        crossBorder := { value := crossBorderRailValue, count := crossBorderRailCount } } }

/-- Method `calculateFXVolumes()`. The expression `fxPercentOfCrossBorder || 50`
takes 50 when the stored number is falsy, which for a finite number means 0. -/
def calculateFXVolumes (d : Data) : FXVolumes :=
  let breakdown := calculatePaymentBreakdown d
  let crossBorderRailValue := breakdown.rails.crossBorder.value
  let fxPercent : ℚ :=
    if d.customerInfo.fxPercentOfCrossBorder = 0 then 50 else d.customerInfo.fxPercentOfCrossBorder
  let total := crossBorderRailValue * (fxPercent / 100)
  let dist := d.customerInfo.fxVolume.distribution
  { tier1 := total * (dist.tier1Percent / 100)
    tier2 := total * (dist.tier2Percent / 100)
    tier3 := total * (dist.tier3Percent / 100)
    total := total }

/-- Method `calculateProviderCosts(provider)`. -/
def calculateProviderCosts (d : Data) (provider : Provider) : ProviderCosts :=
  let breakdown := calculatePaymentBreakdown d
  let fxVolumes := calculateFXVolumes d
  let fees := d.fees.get provider
  let localRailCost := breakdown.rails.local_.count * fees.localRailFee
  let crossBorderRailCost := breakdown.rails.crossBorder.count * fees.crossBorderFee
  let totalRailCost := localRailCost + crossBorderRailCost
  let cardRebate := breakdown.method.card.value * (fees.cardRebate / 100)
  let fxTier1Cost := fxVolumes.tier1 * (fees.fxMargins.tier1 / 100)
  let fxTier2Cost := fxVolumes.tier2 * (fees.fxMargins.tier2 / 100)
  let fxTier3Cost := fxVolumes.tier3 * (fees.fxMargins.tier3 / 100)
  let fxTotalCost := fxTier1Cost + fxTier2Cost + fxTier3Cost
  let totalCost := totalRailCost + fxTotalCost
  let totalTransactions := d.customerInfo.totalPaymentCount
  let costPerTransaction : Option ℚ :=
    if totalTransactions > 0 then jsDiv totalCost totalTransactions else some 0
  let totalVolume := d.customerInfo.totalPaymentValue
  let effectiveRate : Option ℚ :=
    if totalVolume > 0 then (jsDiv totalCost totalVolume).map (fun q => q * 100) else some 0
  { localRail := localRailCost
    crossBorderRail := crossBorderRailCost
    rails := totalRailCost
    cardRebate := cardRebate
    fx := { tier1 := fxTier1Cost, tier2 := fxTier2Cost, tier3 := fxTier3Cost, total := fxTotalCost }
    total := totalCost
    costPerTransaction := costPerTransaction
    effectiveRate := effectiveRate }

/-- Method `calculateSavings()`: costs and incentives are kept apart. -/
def calculateSavings (d : Data) : SavingsData :=
  let currentCosts := calculateProviderCosts d Provider.currentProvider
  let tungstenCosts := calculateProviderCosts d Provider.tungsten
  let costSavings : CostSavings :=
    { localRail := currentCosts.localRail - tungstenCosts.localRail
      crossBorderRail := currentCosts.crossBorderRail - tungstenCosts.crossBorderRail
      rails := currentCosts.rails - tungstenCosts.rails
      fx := currentCosts.fx.total - tungstenCosts.fx.total
      total := currentCosts.total - tungstenCosts.total }
  let incentiveDifferential := tungstenCosts.cardRebate - currentCosts.cardRebate
  let totalAnnualBenefit := costSavings.total + incentiveDifferential
  let costSavingsPercentage : Option ℚ :=
    if currentCosts.total > 0 then
      (jsDiv costSavings.total currentCosts.total).map (fun q => q * 100)
    else some 0
  let incentiveIncreasePercentage : Option ℚ :=
    if currentCosts.cardRebate > 0 then
      (jsDiv incentiveDifferential currentCosts.cardRebate).map (fun q => q * 100)
    else some 0
  { costs :=
      { current := currentCosts.total
        tungsten := tungstenCosts.total
        savings := costSavings
        savingsPercentage := costSavingsPercentage }
    incentives :=
      { current := currentCosts.cardRebate
        tungsten := tungstenCosts.cardRebate
        differential := incentiveDifferential
        increasePercentage := incentiveIncreasePercentage }
    totalAnnualBenefit := totalAnnualBenefit
    currentCosts := currentCosts
    tungstenCosts := tungstenCosts }

/-- Method `calculateFreedWorkingCapital()`: the card volume. -/
def calculateFreedWorkingCapital (d : Data) : ℚ :=
  (calculatePaymentBreakdown d).method.card.value

/-- Method `getResults()`. -/
def getResults (d : Data) : Results :=
  let breakdown := calculatePaymentBreakdown d
  let fxVolumes := calculateFXVolumes d
  let savingsData := calculateSavings d
  let avgTransactionSize := calculateAverageTransactionSize d
  let freedWorkingCapital := calculateFreedWorkingCapital d
  { breakdown := breakdown
    fxVolumes := fxVolumes
    averageTransactionSize := avgTransactionSize
    costs := savingsData.costs
    incentives := savingsData.incentives
    totalAnnualBenefit := savingsData.totalAnnualBenefit
    freedWorkingCapital := freedWorkingCapital
    detailedCosts := { current := savingsData.currentCosts, tungsten := savingsData.tungstenCosts }
    currency := d.customerInfo.currency
    currencySymbol := getCurrencySymbol d
    data := d }

/-- Read of the property `tier<t>Percent` of the distribution, for `t` among
1, 2, 3 (the only indices `adjustFXTiers` reads); any other index reads 0. -/
def getTier (dist : FXDistribution) (t : ℕ) : ℚ :=
  if t = 1 then dist.tier1Percent
  else if t = 2 then dist.tier2Percent
  else if t = 3 then dist.tier3Percent
  else 0

/-- Write of the property `tier<t>Percent` of the distribution; an index other
than 1, 2, 3 leaves the three tier fields as they are. -/
def setTier (dist : FXDistribution) (t : ℕ) (x : ℚ) : FXDistribution :=
  if t = 1 then { dist with tier1Percent := x }
  else if t = 2 then { dist with tier2Percent := x }
  else if t = 3 then { dist with tier3Percent := x }
  else dist

/-- Body of `adjustFXTiers(changedTier, newValue)` on the distribution object. -/
def adjustDistribution (dist : FXDistribution) (changedTier : ℕ) (newValue : ℚ) : FXDistribution :=
  let remaining := 100 - newValue
  let dist1 := setTier dist changedTier newValue
  let otherTiers := [1, 2, 3].filter (fun t => t ≠ changedTier)
  let tier1 := otherTiers.getD 0 0
  let tier2 := otherTiers.getD 1 0
  let currentTier1 := getTier dist1 tier1
  let currentTier2 := getTier dist1 tier2
  let currentTotal := currentTier1 + currentTier2
  let dist2 :=
    if currentTotal > 0 then
      setTier (setTier dist1 tier1 ((currentTier1 / currentTotal) * remaining)) tier2
        ((currentTier2 / currentTotal) * remaining)
    else
      setTier (setTier dist1 tier1 (remaining / 2)) tier2 (remaining / 2)
  let total := dist2.tier1Percent + dist2.tier2Percent + dist2.tier3Percent
  if |total - 100| > 0.01 then
    { dist2 with tier3Percent := dist2.tier3Percent + (100 - total) }
  else dist2

/-- Method `adjustFXTiers(changedTier, newValue)`: the FX tier percentages are
adjusted proportionally, in place in the snapshot. -/
def adjustFXTiers (d : Data) (changedTier : ℕ) (newValue : ℚ) : Data :=
  { d with
    customerInfo :=
      { d.customerInfo with
        fxVolume :=
          { d.customerInfo.fxVolume with
            distribution :=
              adjustDistribution d.customerInfo.fxVolume.distribution changedTier newValue } } }

/-- Method `validate()`. -/
def validate (d : Data) : ValidationResult :=
  let info := d.customerInfo
  let errors0 : List String := []
  let errors1 :=
    if info.totalPaymentValue < 0 then errors0 ++ ["Total payment value must be positive"]
    else errors0
  let errors2 :=
    if info.totalPaymentCount < 0 then errors1 ++ ["Total payment count must be positive"]
    else errors1
  let errors3 :=
    if info.fxPercentOfCrossBorder < 0 ∨ info.fxPercentOfCrossBorder > 100 then
      errors2 ++ ["FX percentage must be between 0 and 100"]
    else errors2
  let fxTotal :=
    info.fxVolume.distribution.tier1Percent + info.fxVolume.distribution.tier2Percent
      + info.fxVolume.distribution.tier3Percent
  let errors4 :=
    if |fxTotal - 100| > 0.01 then errors3 ++ ["FX distribution must sum to 100%"]
    else errors3
  { valid := decide (errors4.length = 0), errors := errors4 }

/-- The reference redistribution of the distribution allocator, written from
the specification: the changed tier holds the new value, and the remaining
`100 - v` is shared by the other two tiers in proportion to their previous
values `a` and `b`, or evenly when `a + b` is not positive. -/
def referenceRedistribution (dist : FXDistribution) (k : ℕ) (v : ℚ) : FXDistribution :=
  let remaining := 100 - v
  let share (a b : ℚ) : ℚ × ℚ :=
    if a + b > 0 then (a / (a + b) * remaining, b / (a + b) * remaining)
    else (remaining / 2, remaining / 2)
  if k = 1 then
    let s := share dist.tier2Percent dist.tier3Percent
    { tier1Percent := v, tier2Percent := s.1, tier3Percent := s.2 }
  else if k = 2 then
    let s := share dist.tier1Percent dist.tier3Percent
    { tier1Percent := s.1, tier2Percent := v, tier3Percent := s.2 }
  else
    let s := share dist.tier1Percent dist.tier2Percent
    { tier1Percent := s.1, tier2Percent := s.2, tier3Percent := v }

/-! ## Ranges of the data model -/

/-- A percentage field in range: between 0 and 100. -/
def IsPercent (x : ℚ) : Prop := 0 ≤ x ∧ x ≤ 100

/-- Decidability of the range of a percentage. -/
instance instDecidableIsPercent (x : ℚ) : Decidable (IsPercent x) := by
  unfold IsPercent
  infer_instance

/-- A fee schedule in range: non-negative flat fees, and FX margins and card
rebate that are percentages. -/
def FeeScheduleInRange (f : FeeSchedule) : Prop :=
  0 ≤ f.localRailFee ∧ 0 ≤ f.crossBorderFee ∧ IsPercent f.fxMargins.tier1
    ∧ IsPercent f.fxMargins.tier2 ∧ IsPercent f.fxMargins.tier3 ∧ IsPercent f.cardRebate

/-- Customer information in range: non-negative value and count, and every
percentage field between 0 and 100. -/
def CustomerInfoInRange (c : CustomerInfo) : Prop :=
  0 ≤ c.totalPaymentValue ∧ 0 ≤ c.totalPaymentCount
    ∧ IsPercent c.paymentTypeDistribution.localPercent
    ∧ IsPercent c.paymentTypeDistribution.crossBorderPercent
    ∧ IsPercent c.paymentMethodDistribution.railPercent
    ∧ IsPercent c.paymentMethodDistribution.cardPercent
    ∧ IsPercent c.fxPercentOfCrossBorder
    ∧ IsPercent c.fxVolume.distribution.tier1Percent
    ∧ IsPercent c.fxVolume.distribution.tier2Percent
    ∧ IsPercent c.fxVolume.distribution.tier3Percent

/-! ## Concrete snapshots used in the examples -/

/-- The default snapshot with the card share lowered to 5 while the rail share
stays at 90, so that the two method percentages no longer add up to 100. -/
def unbalancedMethodSnapshot : Data :=
  { getDefaultData with
    customerInfo :=
      { getDefaultData.customerInfo with
        paymentMethodDistribution := { railPercent := 90, cardPercent := 5 } } }

/-- The default snapshot with `fxPercentOfCrossBorder` set to 0. -/
def zeroFxShareSnapshot : Data :=
  { getDefaultData with
    customerInfo := { getDefaultData.customerInfo with fxPercentOfCrossBorder := 0 } }

/-- The default snapshot with `totalPaymentCount` set to 0. -/
def zeroCountSnapshot : Data :=
  { getDefaultData with
    customerInfo := { getDefaultData.customerInfo with totalPaymentCount := 0 } }

/-- The default snapshot with `totalPaymentValue` set to 0. -/
def zeroValueSnapshot : Data :=
  { getDefaultData with
    customerInfo := { getDefaultData.customerInfo with totalPaymentValue := 0 } }

/-- The default snapshot with the Tungsten card rebate raised to 3. -/
def raisedRebateSnapshot : Data :=
  { getDefaultData with
    fees :=
      { getDefaultData.fees with
        tungsten := { getDefaultData.fees.tungsten with cardRebate := 3 } } }

/-- The default snapshot with `totalPaymentCount` and `totalPaymentValue` both 0. -/
def zeroVolumeSnapshot : Data :=
  { getDefaultData with
    customerInfo :=
      { getDefaultData.customerInfo with totalPaymentValue := 0, totalPaymentCount := 0 } }

/-- The default snapshot with the two fee schedules exchanged: Tungsten charges
the higher fees and pays the lower rebate. -/
def swappedFeesSnapshot : Data :=
  { getDefaultData with
    fees :=
      { tungsten := getDefaultData.fees.currentProvider
        currentProvider := getDefaultData.fees.tungsten } }

/-- The default snapshot with `localPercent` set to 150, the cross-border
percentage staying at 40. -/
def outOfRangeTypeSnapshot : Data :=
  { getDefaultData with
    customerInfo :=
      { getDefaultData.customerInfo with
        paymentTypeDistribution := { localPercent := 150, crossBorderPercent := 40 } } }

/-! ## Currency conversion -/

/-- The table `this.exchangeRates` set by the constructor; a code that is not
in the table has no rate (`undefined`). -/
def exchangeRates (c : String) : Option ℚ :=
  if c = "USD" then some 1.00
  else if c = "GBP" then some 0.79
  else if c = "EUR" then some 0.92
  else none

/-- The expression `Math.round(x * conversionFactor * 100) / 100` that
`changeCurrency` applies to each monetary field. -/
def convertAmount (x conversionFactor : ℚ) : ℚ :=
  (mathRound (x * conversionFactor * 100) : ℚ) / 100

/-- The assignments of `changeCurrency` once the conversion factor is known:
the total payment value and the four flat fees are converted, and the currency
is updated. -/
def convertSnapshot (d : Data) (newCurrency : String) (conversionFactor : ℚ) : Data :=
  { customerInfo :=
      { d.customerInfo with
        totalPaymentValue := convertAmount d.customerInfo.totalPaymentValue conversionFactor
        currency := newCurrency }
    fees :=
      { tungsten :=
          { d.fees.tungsten with
            localRailFee := convertAmount d.fees.tungsten.localRailFee conversionFactor
            crossBorderFee := convertAmount d.fees.tungsten.crossBorderFee conversionFactor }
        currentProvider :=
          { d.fees.currentProvider with
            localRailFee := convertAmount d.fees.currentProvider.localRailFee conversionFactor
            crossBorderFee :=
              convertAmount d.fees.currentProvider.crossBorderFee conversionFactor } } }

/-- Method `changeCurrency(newCurrency)`: nothing happens when the currency is
the current one; otherwise the conversion factor is `newRate / oldRate` and
every monetary value is converted. The result `none` stands for a snapshot
whose monetary fields are `NaN`, which is what a currency code without a rate
produces. -/
def changeCurrency (d : Data) (newCurrency : String) : Option Data :=
  let oldCurrency := d.customerInfo.currency
  if oldCurrency = newCurrency then some d
  else
    (exchangeRates oldCurrency).bind fun oldRate =>
    (exchangeRates newCurrency).bind fun newRate =>
    (jsDiv newRate oldRate).map fun conversionFactor =>
      convertSnapshot d newCurrency conversionFactor

/-- The rate table of the specification: USD 1.00, GBP 0.79, EUR 0.92 (0 for
any other code). -/
def referenceRate (c : String) : ℚ :=
  if c = "USD" then 1
  else if c = "GBP" then 79 / 100
  else if c = "EUR" then 92 / 100
  else 0

/-- Rounding to 2 decimal places with halves rounded away from zero, written
from the specification. -/
def roundHalfAwayFromZero2 (y : ℚ) : ℚ :=
  if 0 ≤ y then (⌊y * 100 + 1 / 2⌋ : ℚ) / 100 else -((⌊-y * 100 + 1 / 2⌋ : ℚ) / 100)

/-! ## Fee updates -/

/-- Splitting of a list of characters at each dot, the current key being
accumulated in reverse. -/
def splitKeysAux : List Char → List Char → List (List Char)
  | [], cur => [cur.reverse]
  | c :: cs, cur =>
    if c = '.' then cur.reverse :: splitKeysAux cs [] else splitKeysAux cs (c :: cur)

/-- The call `field.split('.')`: the keys of a dotted path. -/
def splitPath (field : String) : List String :=
  (splitKeysAux field.data []).map String.mk

/-- The legacy table `fieldMap` of `updateFee`. -/
def fieldMap (k : String) : Option String :=
  if k = "localRail" then some "localRailFee"
  else if k = "crossBorder" then some "crossBorderFee"
  else none

/-- The keys after the legacy remapping of `updateFee`: a single key that the
table knows is replaced by its current name. -/
def remapFeeKeys (keys : List String) : List String :=
  match keys with
  | [k] =>
    match fieldMap k with
    | some k' => [k']
    | none => [k]
  | _ => keys

/-- Assignment of a number through a key list into a fee schedule. The result
`none` stands for a path that names no numeric field of the schedule, where
JavaScript creates or overwrites some other property or throws. -/
def assignFeePath (obj : FeeSchedule) (keys : List String) (x : ℚ) : Option FeeSchedule :=
  if keys = ["localRailFee"] then some { obj with localRailFee := x }
  else if keys = ["crossBorderFee"] then some { obj with crossBorderFee := x }
  else if keys = ["cardRebate"] then some { obj with cardRebate := x }
  else if keys = ["fxMargins", "tier1"] then
    some { obj with fxMargins := { obj.fxMargins with tier1 := x } }
  else if keys = ["fxMargins", "tier2"] then
    some { obj with fxMargins := { obj.fxMargins with tier2 := x } }
  else if keys = ["fxMargins", "tier3"] then
    some { obj with fxMargins := { obj.fxMargins with tier3 := x } }
  else none

/-- Replacement of the fee schedule `this.data.fees[provider]`. -/
def Fees.set (f : Fees) (provider : Provider) (obj : FeeSchedule) : Fees :=
  match provider with
  | Provider.tungsten => { f with tungsten := obj }
  | Provider.currentProvider => { f with currentProvider := obj }

/-- Method `updateFee(provider, field, value)`. The argument `value` is the
result of `parseFloat(value)`, with `none` for `NaN`, so that
`parseFloat(value) || 0` is `value.getD 0`. -/
def updateFee (d : Data) (provider : Provider) (field : String) (value : Option ℚ) :
    Option Data :=
  let keys := remapFeeKeys (splitPath field)
  (assignFeePath (d.fees.get provider) keys (value.getD 0)).map fun obj =>
    { d with fees := d.fees.set provider obj }

/-! ## The two steps of the distribution allocator -/

/-- The first part of `adjustFXTiers` (up to the computation of `total`): the
changed tier takes the new value and the other two share the remainder. -/
def proportionalStep (dist : FXDistribution) (changedTier : ℕ) (newValue : ℚ) : FXDistribution :=
  let remaining := 100 - newValue
  let dist1 := setTier dist changedTier newValue
  let otherTiers := [1, 2, 3].filter (fun t => t ≠ changedTier)
  let tier1 := otherTiers.getD 0 0
  let tier2 := otherTiers.getD 1 0
  let currentTier1 := getTier dist1 tier1
  let currentTier2 := getTier dist1 tier2
  let currentTotal := currentTier1 + currentTier2
  if currentTotal > 0 then
    setTier (setTier dist1 tier1 ((currentTier1 / currentTotal) * remaining)) tier2
      ((currentTier2 / currentTotal) * remaining)
  else
    setTier (setTier dist1 tier1 (remaining / 2)) tier2 (remaining / 2)

/-- The last part of `adjustFXTiers`, the residual correction, with the slot
that receives the residual as a parameter; the source adds it to slot 3. -/
def residualCorrection (slot : ℕ) (dist2 : FXDistribution) : FXDistribution :=
  let total := dist2.tier1Percent + dist2.tier2Percent + dist2.tier3Percent
  if |total - 100| > 0.01 then setTier dist2 slot (getTier dist2 slot + (100 - total))
  else dist2

/-- The default snapshot with the Tungsten fee schedule replaced by the current
provider's, so that the two schedules are identical. -/
def identicalFeesSnapshot : Data :=
  { getDefaultData with
    fees :=
      { tungsten := getDefaultData.fees.currentProvider
        currentProvider := getDefaultData.fees.currentProvider } }

/-! ## Export and import

`exportData` and `importData` copy the snapshot with
`JSON.parse(JSON.stringify(...))`. The object that `importData` receives need
not have the shape of a snapshot, so this part works on untyped JavaScript
values; `Data.toJs` and `readData` relate them to the typed snapshot. -/

mutual
/-- A JavaScript value of the kinds a snapshot is built of: `undefined`, `null`,
a finite number, a non-finite number (`NaN` or an infinity), a string, or an
object. -/
inductive JsValue where
  | undefined
  | null
  | num (q : ℚ)
  | nonFinite
  | str (s : String)
  | obj (fields : JsFields)
/-- The properties of an object, in order, with distinct keys. -/
inductive JsFields where
  | nil
  | cons (key : String) (value : JsValue) (rest : JsFields)
end

mutual
/-- The JSON copy of a value that has a JSON text: a non-finite number becomes
`null` and an object is copied property by property. -/
def cloneValue : JsValue → JsValue
  | JsValue.undefined => JsValue.undefined
  | JsValue.null => JsValue.null
  | JsValue.num q => JsValue.num q
  | JsValue.nonFinite => JsValue.null
  | JsValue.str s => JsValue.str s
  | JsValue.obj fields => JsValue.obj (cloneFields fields)
/-- The JSON copy of the properties of an object: a property whose value is
`undefined` is left out. -/
def cloneFields : JsFields → JsFields
  | JsFields.nil => JsFields.nil
  | JsFields.cons key value rest =>
    match value with
    | JsValue.undefined => cloneFields rest
    | _ => JsFields.cons key (cloneValue value) (cloneFields rest)
end

/-- The expression `JSON.parse(JSON.stringify(x))`: `JSON.stringify(undefined)`
is `undefined`, on which `JSON.parse` throws (`none`). -/
def jsonClone (x : JsValue) : Option JsValue :=
  match x with
  | JsValue.undefined => none
  | _ => some (cloneValue x)

/-- Method `exportData()` on the live snapshot. -/
def exportData (live : JsValue) : Option JsValue := jsonClone live

/-- Method `importData(data)`: the new live snapshot, or `none` when the call
throws before the assignment to `this.data`. -/
def importData (data : JsValue) : Option JsValue := jsonClone data

/-- The live snapshot after the call `importData(data)`: the imported copy, or
the previous snapshot when the call throws. -/
def liveAfterImport (live data : JsValue) : JsValue := (importData data).getD live

/-- The object with the listed properties. -/
def JsFields.ofList : List (String × JsValue) → JsFields
  | [] => JsFields.nil
  | (key, value) :: rest => JsFields.cons key value (JsFields.ofList rest)

/-- The value of the property `key` among the properties, `undefined` when
there is none. -/
def JsFields.lookup : JsFields → String → JsValue
  | JsFields.nil, _ => JsValue.undefined
  | JsFields.cons key value rest, k => if key = k then value else JsFields.lookup rest k

/-- The read `x[key]` of a property of an object; `none` where `x` is no object. -/
def JsValue.field (x : JsValue) (key : String) : Option JsValue :=
  match x with
  | JsValue.obj fields => some (fields.lookup key)
  | _ => none

/-- The read of a property that holds a finite number. -/
def JsValue.numField (x : JsValue) (key : String) : Option ℚ :=
  match x.field key with
  | some (JsValue.num q) => some q
  | _ => none

/-- The read of a property that holds a string. -/
def JsValue.strField (x : JsValue) (key : String) : Option String :=
  match x.field key with
  | some (JsValue.str s) => some s
  | _ => none

/-- The JavaScript object of a fee schedule. -/
def FeeSchedule.toJs (f : FeeSchedule) : JsValue :=
  JsValue.obj (JsFields.ofList
    [("localRailFee", JsValue.num f.localRailFee),
     ("crossBorderFee", JsValue.num f.crossBorderFee),
     ("fxMargins", JsValue.obj (JsFields.ofList
        [("tier1", JsValue.num f.fxMargins.tier1),
         ("tier2", JsValue.num f.fxMargins.tier2),
         ("tier3", JsValue.num f.fxMargins.tier3)])),
     ("cardRebate", JsValue.num f.cardRebate)])

/-- The JavaScript object of the customer information. -/
def CustomerInfo.toJs (c : CustomerInfo) : JsValue :=
  JsValue.obj (JsFields.ofList
    [("currency", JsValue.str c.currency),
     ("totalPaymentValue", JsValue.num c.totalPaymentValue),
     ("totalPaymentCount", JsValue.num c.totalPaymentCount),
     ("paymentTypeDistribution", JsValue.obj (JsFields.ofList
        [("localPercent", JsValue.num c.paymentTypeDistribution.localPercent),
         ("crossBorderPercent", JsValue.num c.paymentTypeDistribution.crossBorderPercent)])),
     ("paymentMethodDistribution", JsValue.obj (JsFields.ofList
        [("railPercent", JsValue.num c.paymentMethodDistribution.railPercent),
         ("cardPercent", JsValue.num c.paymentMethodDistribution.cardPercent)])),
     ("fxPercentOfCrossBorder", JsValue.num c.fxPercentOfCrossBorder),
     ("fxVolume", JsValue.obj (JsFields.ofList
        [("distribution", JsValue.obj (JsFields.ofList
          [("tier1Percent", JsValue.num c.fxVolume.distribution.tier1Percent),
           ("tier2Percent", JsValue.num c.fxVolume.distribution.tier2Percent),
           ("tier3Percent", JsValue.num c.fxVolume.distribution.tier3Percent)]))]))])

/-- The JavaScript object of a well-formed snapshot, with the property names
of `getDefaultData()`. -/
def Data.toJs (d : Data) : JsValue :=
  JsValue.obj (JsFields.ofList
    [("customerInfo", d.customerInfo.toJs),
     ("fees", JsValue.obj (JsFields.ofList
        [("tungsten", d.fees.tungsten.toJs),
         ("currentProvider", d.fees.currentProvider.toJs)]))])

/-- The fee schedule read from a JavaScript object. -/
def readFeeSchedule (x : JsValue) : Option FeeSchedule :=
  (x.numField "localRailFee").bind fun localRailFee =>
  (x.numField "crossBorderFee").bind fun crossBorderFee =>
  (x.field "fxMargins").bind fun margins =>
  (margins.numField "tier1").bind fun tier1 =>
  (margins.numField "tier2").bind fun tier2 =>
  (margins.numField "tier3").bind fun tier3 =>
  (x.numField "cardRebate").map fun cardRebate =>
    { localRailFee := localRailFee
      crossBorderFee := crossBorderFee
      fxMargins := { tier1 := tier1, tier2 := tier2, tier3 := tier3 }
      cardRebate := cardRebate }

/-- The customer information read from a JavaScript object. -/
def readCustomerInfo (x : JsValue) : Option CustomerInfo :=
  (x.strField "currency").bind fun currency =>
  (x.numField "totalPaymentValue").bind fun totalPaymentValue =>
  (x.numField "totalPaymentCount").bind fun totalPaymentCount =>
  (x.field "paymentTypeDistribution").bind fun typeDist =>
  (typeDist.numField "localPercent").bind fun localPercent =>
  (typeDist.numField "crossBorderPercent").bind fun crossBorderPercent =>
  (x.field "paymentMethodDistribution").bind fun methodDist =>
  (methodDist.numField "railPercent").bind fun railPercent =>
  (methodDist.numField "cardPercent").bind fun cardPercent =>
  (x.numField "fxPercentOfCrossBorder").bind fun fxPercentOfCrossBorder =>
  (x.field "fxVolume").bind fun fxVolume =>
  (fxVolume.field "distribution").bind fun dist =>
  (dist.numField "tier1Percent").bind fun tier1Percent =>
  (dist.numField "tier2Percent").bind fun tier2Percent =>
  (dist.numField "tier3Percent").map fun tier3Percent =>
    { currency := currency
      totalPaymentValue := totalPaymentValue
      totalPaymentCount := totalPaymentCount
      paymentTypeDistribution :=
        { localPercent := localPercent, crossBorderPercent := crossBorderPercent }
      paymentMethodDistribution := { railPercent := railPercent, cardPercent := cardPercent }
      fxPercentOfCrossBorder := fxPercentOfCrossBorder
      fxVolume :=
        { distribution :=
            { tier1Percent := tier1Percent
              tier2Percent := tier2Percent
              tier3Percent := tier3Percent } } }

/-- The typed snapshot that the engine's methods read from the live object:
`some d` when every field they read is there, as a finite number (the currency
as a string); `none` when a field is missing or holds another kind of value,
where the methods throw a `TypeError` or compute with `undefined`. -/
def readData (live : JsValue) : Option Data :=
  (live.field "customerInfo").bind fun ci =>
  (readCustomerInfo ci).bind fun customerInfo =>
  (live.field "fees").bind fun fees =>
  (fees.field "tungsten").bind fun t =>
  (readFeeSchedule t).bind fun tungsten =>
  (fees.field "currentProvider").bind fun c =>
  (readFeeSchedule c).map fun currentProvider =>
    { customerInfo := customerInfo
      fees := { tungsten := tungsten, currentProvider := currentProvider } }

/-- Method `getResults()` on the live object: the results computed from the
snapshot read from it, and `none` where no snapshot can be read. -/
def getResultsOfLive (live : JsValue) : Option Results := (readData live).map getResults

/-- An imported object without any property, `customerInfo` included. -/
def emptyImport : JsValue := JsValue.obj JsFields.nil

/-- An imported object with the default customer information whose `fees`
object has no `tungsten` property. -/
def missingTungstenImport : JsValue :=
  JsValue.obj (JsFields.ofList
    [("customerInfo", getDefaultData.customerInfo.toJs),
     ("fees", JsValue.obj (JsFields.ofList
        [("currentProvider", getDefaultData.fees.currentProvider.toJs)]))])

/-! ## Double-precision arithmetic

The engine computes in IEEE 754 double precision. The definitions above take
every arithmetic operation exactly. The definitions of this section are the
same methods with the result of every arithmetic operation passed through a
rounding function `rnd`: with `rnd = id` they are the exact methods, and with
`rnd = roundToDouble` they compute what the doubles of the engine compute, on a
snapshot whose numbers are doubles (see `roundFields`). -/

/-- Rounding of a rational to the nearest integer, a tie going to the even
neighbour. -/
def roundHalfEven (y : ℚ) : ℤ :=
  if y - ⌊y⌋ < 1 / 2 then ⌊y⌋
  else if 1 / 2 < y - ⌊y⌋ then ⌊y⌋ + 1
  else if ⌊y⌋ % 2 = 0 then ⌊y⌋ else ⌊y⌋ + 1

/-- Rounding of a rational to the nearest double (53 significant bits, a tie
going to the even significand), as every arithmetic operation of the engine
rounds its exact result. Overflow and subnormal numbers are not modelled: the
definition is that of the normal range, which holds every amount, count and
percentage of a snapshot. -/
def roundToDouble (x : ℚ) : ℚ :=
  if x = 0 then 0
  else
    (roundHalfEven (x / (2 : ℚ) ^ (Int.log 2 |x| - 52)) : ℚ) * (2 : ℚ) ^ (Int.log 2 |x| - 52)

/-- The fee schedule as the engine holds it: each decimal replaced by the
number that `rnd` makes of it. -/
def roundFeeSchedule (rnd : ℚ → ℚ) (f : FeeSchedule) : FeeSchedule :=
  { localRailFee := rnd f.localRailFee
    crossBorderFee := rnd f.crossBorderFee
    fxMargins :=
      { tier1 := rnd f.fxMargins.tier1, tier2 := rnd f.fxMargins.tier2
        tier3 := rnd f.fxMargins.tier3 }
    cardRebate := rnd f.cardRebate }

/-- The snapshot as the engine holds it: each decimal replaced by the number
that `rnd` makes of it. -/
def roundFields (rnd : ℚ → ℚ) (d : Data) : Data :=
  { customerInfo :=
      { currency := d.customerInfo.currency
        totalPaymentValue := rnd d.customerInfo.totalPaymentValue
        totalPaymentCount := rnd d.customerInfo.totalPaymentCount
        paymentTypeDistribution :=
          { localPercent := rnd d.customerInfo.paymentTypeDistribution.localPercent
            crossBorderPercent := rnd d.customerInfo.paymentTypeDistribution.crossBorderPercent }
        paymentMethodDistribution :=
          { railPercent := rnd d.customerInfo.paymentMethodDistribution.railPercent
            cardPercent := rnd d.customerInfo.paymentMethodDistribution.cardPercent }
        fxPercentOfCrossBorder := rnd d.customerInfo.fxPercentOfCrossBorder
        fxVolume :=
          { distribution :=
              { tier1Percent := rnd d.customerInfo.fxVolume.distribution.tier1Percent
                tier2Percent := rnd d.customerInfo.fxVolume.distribution.tier2Percent
                tier3Percent := rnd d.customerInfo.fxVolume.distribution.tier3Percent } } }
    fees :=
      { tungsten := roundFeeSchedule rnd d.fees.tungsten
        currentProvider := roundFeeSchedule rnd d.fees.currentProvider } }

/-- Body of `adjustFXTiers(changedTier, newValue)` with each arithmetic result
rounded by `rnd`. -/
def adjustDistributionWith (rnd : ℚ → ℚ) (dist : FXDistribution) (changedTier : ℕ)
    (newValue : ℚ) : FXDistribution :=
  let remaining := rnd (100 - newValue)
  let dist1 := setTier dist changedTier newValue
  let otherTiers := [1, 2, 3].filter (fun t => t ≠ changedTier)
  let tier1 := otherTiers.getD 0 0
  let tier2 := otherTiers.getD 1 0
  let currentTier1 := getTier dist1 tier1
  let currentTier2 := getTier dist1 tier2
  let currentTotal := rnd (currentTier1 + currentTier2)
  let dist2 :=
    if currentTotal > 0 then
      setTier (setTier dist1 tier1 (rnd (rnd (currentTier1 / currentTotal) * remaining))) tier2
        (rnd (rnd (currentTier2 / currentTotal) * remaining))
    else
      setTier (setTier dist1 tier1 (rnd (remaining / 2))) tier2 (rnd (remaining / 2))
  let total := rnd (rnd (dist2.tier1Percent + dist2.tier2Percent) + dist2.tier3Percent)
  if |rnd (total - 100)| > rnd 0.01 then
    { dist2 with tier3Percent := rnd (dist2.tier3Percent + rnd (100 - total)) }
  else dist2

/-- Method `adjustFXTiers(changedTier, newValue)` with each arithmetic result
rounded by `rnd`. -/
def adjustFXTiersWith (rnd : ℚ → ℚ) (d : Data) (changedTier : ℕ) (newValue : ℚ) : Data :=
  { d with
    customerInfo :=
      { d.customerInfo with
        fxVolume :=
          { d.customerInfo.fxVolume with
            distribution :=
              adjustDistributionWith rnd d.customerInfo.fxVolume.distribution changedTier
                newValue } } }

/-- The table `this.exchangeRates`, each decimal literal read through `rnd`. -/
def exchangeRatesWith (rnd : ℚ → ℚ) (c : String) : Option ℚ :=
  if c = "USD" then some (rnd 1.00)
  else if c = "GBP" then some (rnd 0.79)
  else if c = "EUR" then some (rnd 0.92)
  else none

/-- The expression `Math.round(x * conversionFactor * 100) / 100` with each
arithmetic result rounded by `rnd`; `Math.round` itself is exact on its
argument. -/
def convertAmountWith (rnd : ℚ → ℚ) (x conversionFactor : ℚ) : ℚ :=
  rnd ((mathRound (rnd (rnd (x * conversionFactor) * 100)) : ℚ) / 100)

/-- The assignments of `changeCurrency` with each arithmetic result rounded by
`rnd`. -/
def convertSnapshotWith (rnd : ℚ → ℚ) (d : Data) (newCurrency : String)
    (conversionFactor : ℚ) : Data :=
  { customerInfo :=
      { d.customerInfo with
        totalPaymentValue :=
          convertAmountWith rnd d.customerInfo.totalPaymentValue conversionFactor
        currency := newCurrency }
    fees :=
      { tungsten :=
          { d.fees.tungsten with
            localRailFee := convertAmountWith rnd d.fees.tungsten.localRailFee conversionFactor
            crossBorderFee :=
              convertAmountWith rnd d.fees.tungsten.crossBorderFee conversionFactor }
        currentProvider :=
          { d.fees.currentProvider with
            localRailFee :=
              convertAmountWith rnd d.fees.currentProvider.localRailFee conversionFactor
            crossBorderFee :=
              convertAmountWith rnd d.fees.currentProvider.crossBorderFee conversionFactor } } }

/-- Method `changeCurrency(newCurrency)` with each arithmetic result rounded by
`rnd`: the conversion factor is the rounded quotient of the two rates. -/
def changeCurrencyWith (rnd : ℚ → ℚ) (d : Data) (newCurrency : String) : Option Data :=
  let oldCurrency := d.customerInfo.currency
  if oldCurrency = newCurrency then some d
  else
    (exchangeRatesWith rnd oldCurrency).bind fun oldRate =>
    (exchangeRatesWith rnd newCurrency).bind fun newRate =>
    (jsDiv newRate oldRate).map fun conversionFactor =>
      convertSnapshotWith rnd d newCurrency (rnd conversionFactor)

/-- Method `calculatePaymentBreakdown()` with each arithmetic result rounded by
`rnd`. -/
def calculatePaymentBreakdownWith (rnd : ℚ → ℚ) (d : Data) : Breakdown :=
  let total := d.customerInfo.totalPaymentValue
  let count := d.customerInfo.totalPaymentCount
  let typeDist := d.customerInfo.paymentTypeDistribution
  let methodDist := d.customerInfo.paymentMethodDistribution
  let railValue := rnd (total * rnd (methodDist.railPercent / 100))
  let cardValue := rnd (total * rnd (methodDist.cardPercent / 100))
  let railCount : ℚ := mathRound (rnd (count * rnd (methodDist.railPercent / 100)))
  let cardCount := rnd (count - railCount)
  let localRailValue := rnd (railValue * rnd (typeDist.localPercent / 100))
  let crossBorderRailValue := rnd (railValue * rnd (typeDist.crossBorderPercent / 100))
  let localRailCount : ℚ := mathRound (rnd (railCount * rnd (typeDist.localPercent / 100)))
  let crossBorderRailCount := rnd (railCount - localRailCount)
  let localValue := rnd (localRailValue + rnd (cardValue * rnd (typeDist.localPercent / 100)))
  let crossBorderValue :=
    rnd (crossBorderRailValue + rnd (cardValue * rnd (typeDist.crossBorderPercent / 100)))
  let localCount :=
    rnd (localRailCount + (mathRound (rnd (cardCount * rnd (typeDist.localPercent / 100))) : ℚ))
  let crossBorderCount :=
    rnd (crossBorderRailCount
      + rnd (cardCount - (mathRound (rnd (cardCount * rnd (typeDist.localPercent / 100))) : ℚ)))
  { type :=
      { local_ := { value := localValue, count := localCount, percent := typeDist.localPercent }
        crossBorder :=
          { value := crossBorderValue, count := crossBorderCount, percent := typeDist.crossBorderPercent } }
    method :=
      { rail := { value := railValue, count := railCount, percent := methodDist.railPercent }
        card := { value := cardValue, count := cardCount, percent := methodDist.cardPercent } }
    rails :=
      { local_ := { value := localRailValue, count := localRailCount }
        crossBorder := { value := crossBorderRailValue, count := crossBorderRailCount } } }

/-- Method `calculateFXVolumes()` with each arithmetic result rounded by `rnd`. -/
def calculateFXVolumesWith (rnd : ℚ → ℚ) (d : Data) : FXVolumes :=
  let breakdown := calculatePaymentBreakdownWith rnd d
  let crossBorderRailValue := breakdown.rails.crossBorder.value
  let fxPercent : ℚ :=
    if d.customerInfo.fxPercentOfCrossBorder = 0 then 50 else d.customerInfo.fxPercentOfCrossBorder
  let total := rnd (crossBorderRailValue * rnd (fxPercent / 100))
  let dist := d.customerInfo.fxVolume.distribution
  { tier1 := rnd (total * rnd (dist.tier1Percent / 100))
    tier2 := rnd (total * rnd (dist.tier2Percent / 100))
    tier3 := rnd (total * rnd (dist.tier3Percent / 100))
    total := total }

/-- Method `calculateProviderCosts(provider)` with each arithmetic result
rounded by `rnd`. -/
def calculateProviderCostsWith (rnd : ℚ → ℚ) (d : Data) (provider : Provider) : ProviderCosts :=
  let breakdown := calculatePaymentBreakdownWith rnd d
  let fxVolumes := calculateFXVolumesWith rnd d
  let fees := d.fees.get provider
  let localRailCost := rnd (breakdown.rails.local_.count * fees.localRailFee)
  let crossBorderRailCost := rnd (breakdown.rails.crossBorder.count * fees.crossBorderFee)
  let totalRailCost := rnd (localRailCost + crossBorderRailCost)
  let cardRebate := rnd (breakdown.method.card.value * rnd (fees.cardRebate / 100))
  let fxTier1Cost := rnd (fxVolumes.tier1 * rnd (fees.fxMargins.tier1 / 100))
  let fxTier2Cost := rnd (fxVolumes.tier2 * rnd (fees.fxMargins.tier2 / 100))
  let fxTier3Cost := rnd (fxVolumes.tier3 * rnd (fees.fxMargins.tier3 / 100))
  let fxTotalCost := rnd (rnd (fxTier1Cost + fxTier2Cost) + fxTier3Cost)
  let totalCost := rnd (totalRailCost + fxTotalCost)
  let totalTransactions := d.customerInfo.totalPaymentCount
  let costPerTransaction : Option ℚ :=
    if totalTransactions > 0 then (jsDiv totalCost totalTransactions).map rnd else some 0
  let totalVolume := d.customerInfo.totalPaymentValue
  let effectiveRate : Option ℚ :=
    if totalVolume > 0 then (jsDiv totalCost totalVolume).map (fun q => rnd (rnd q * 100))
    else some 0
  { localRail := localRailCost
    crossBorderRail := crossBorderRailCost
    rails := totalRailCost
    cardRebate := cardRebate
    fx := { tier1 := fxTier1Cost, tier2 := fxTier2Cost, tier3 := fxTier3Cost, total := fxTotalCost }
    total := totalCost
    costPerTransaction := costPerTransaction
    effectiveRate := effectiveRate }

/-- Method `calculateSavings()` with each arithmetic result rounded by `rnd`. -/
def calculateSavingsWith (rnd : ℚ → ℚ) (d : Data) : SavingsData :=
  let currentCosts := calculateProviderCostsWith rnd d Provider.currentProvider
  let tungstenCosts := calculateProviderCostsWith rnd d Provider.tungsten
  let costSavings : CostSavings :=
    { localRail := rnd (currentCosts.localRail - tungstenCosts.localRail)
      crossBorderRail := rnd (currentCosts.crossBorderRail - tungstenCosts.crossBorderRail)
      rails := rnd (currentCosts.rails - tungstenCosts.rails)
      fx := rnd (currentCosts.fx.total - tungstenCosts.fx.total)
      total := rnd (currentCosts.total - tungstenCosts.total) }
  let incentiveDifferential := rnd (tungstenCosts.cardRebate - currentCosts.cardRebate)
  let totalAnnualBenefit := rnd (costSavings.total + incentiveDifferential)
  let costSavingsPercentage : Option ℚ :=
    if currentCosts.total > 0 then
      (jsDiv costSavings.total currentCosts.total).map (fun q => rnd (rnd q * 100))
    else some 0
  let incentiveIncreasePercentage : Option ℚ :=
    if currentCosts.cardRebate > 0 then
      (jsDiv incentiveDifferential currentCosts.cardRebate).map (fun q => rnd (rnd q * 100))
    else some 0
  { costs :=
      { current := currentCosts.total
        tungsten := tungstenCosts.total
        savings := costSavings
        savingsPercentage := costSavingsPercentage }
    incentives :=
      { current := currentCosts.cardRebate
        tungsten := tungstenCosts.cardRebate
        differential := incentiveDifferential
        increasePercentage := incentiveIncreasePercentage }
    totalAnnualBenefit := totalAnnualBenefit
    currentCosts := currentCosts
    tungstenCosts := tungstenCosts }

/-- The default snapshot with a total payment value of 1,234,567.89 in 4,321
payments. -/
def decimalVolumeSnapshot : Data :=
  { getDefaultData with
    customerInfo :=
      { getDefaultData.customerInfo with
        totalPaymentValue := 1234567.89, totalPaymentCount := 4321 } }

/-- The default snapshot in GBP with a total payment value of 2.46875. -/
def sterlingSnapshot : Data :=
  { getDefaultData with
    customerInfo :=
      { getDefaultData.customerInfo with currency := "GBP", totalPaymentValue := 2.46875 } }

/-- The default snapshot with the method split 33 rail to 67 card. -/
def oneThirdRailSnapshot : Data :=
  { getDefaultData with
    customerInfo :=
      { getDefaultData.customerInfo with
        paymentMethodDistribution := { railPercent := 33, cardPercent := 67 } } }

/-! ## Validation of the live object

The comparisons of `validate()` are false on a field that is missing or not a
number, which a typed snapshot cannot hold; `validateLive` is the method on the
untyped live object. -/

/-- The number that a comparison or an addition makes of a field value: a
finite number, or `NaN`. -/
inductive JsNumber where
  | finite (q : ℚ)
  | nan

/-- The conversion `ToNumber` of a field value: `undefined` gives `NaN` and
`null` gives 0; `none` for the values whose conversion is not modelled (a
string, an object, a non-finite number). -/
def JsValue.toNumber (x : JsValue) : Option JsNumber :=
  match x with
  | JsValue.undefined => some JsNumber.nan
  | JsValue.null => some (JsNumber.finite 0)
  | JsValue.num q => some (JsNumber.finite q)
  | _ => none

/-- The comparison `a < b`, false on `NaN`. -/
def JsNumber.lt (a : JsNumber) (b : ℚ) : Bool :=
  match a with
  | JsNumber.finite q => decide (q < b)
  | JsNumber.nan => false

/-- The comparison `a > b`, false on `NaN`. -/
def JsNumber.gt (a : JsNumber) (b : ℚ) : Bool :=
  match a with
  | JsNumber.finite q => decide (q > b)
  | JsNumber.nan => false

/-- The sum `a + b`, `NaN` when an operand is. -/
def JsNumber.add (a b : JsNumber) : JsNumber :=
  match a, b with
  | JsNumber.finite p, JsNumber.finite q => JsNumber.finite (p + q)
  | _, _ => JsNumber.nan

/-- The test `Math.abs(a - c) > tol`, false on `NaN`. -/
def JsNumber.absSubGt (a : JsNumber) (c tol : ℚ) : Bool :=
  match a with
  | JsNumber.finite q => decide (|q - c| > tol)
  | JsNumber.nan => false

/-- Method `validate()` on the live object: `none` where the call throws a
`TypeError` (no `customerInfo`, `fxVolume` or `distribution` object) or reads a
value whose conversion to a number is not modelled. -/
def validateLive (live : JsValue) : Option ValidationResult :=
  (live.field "customerInfo").bind fun info =>
  ((info.field "totalPaymentValue").bind JsValue.toNumber).bind fun totalPaymentValue =>
  ((info.field "totalPaymentCount").bind JsValue.toNumber).bind fun totalPaymentCount =>
  ((info.field "fxPercentOfCrossBorder").bind JsValue.toNumber).bind fun fxPercent =>
  (info.field "fxVolume").bind fun fxVolume =>
  (fxVolume.field "distribution").bind fun dist =>
  ((dist.field "tier1Percent").bind JsValue.toNumber).bind fun tier1 =>
  ((dist.field "tier2Percent").bind JsValue.toNumber).bind fun tier2 =>
  ((dist.field "tier3Percent").bind JsValue.toNumber).map fun tier3 =>
    let errors0 : List String := []
    let errors1 :=
      if totalPaymentValue.lt 0 then errors0 ++ ["Total payment value must be positive"]
      else errors0
    let errors2 :=
      if totalPaymentCount.lt 0 then errors1 ++ ["Total payment count must be positive"]
      else errors1
    let errors3 :=
      if fxPercent.lt 0 || fxPercent.gt 100 then
        errors2 ++ ["FX percentage must be between 0 and 100"]
      else errors2
    let fxTotal := (tier1.add tier2).add tier3
    let errors4 :=
      if fxTotal.absSubGt 100 0.01 then errors3 ++ ["FX distribution must sum to 100%"]
      else errors3
    { valid := decide (errors4.length = 0), errors := errors4 }

/-- A legacy snapshot: the default customer information without the properties
`totalPaymentValue` and `fxPercentOfCrossBorder`, and a distribution without
`tier3Percent`. -/
def legacyImport : JsValue :=
  JsValue.obj (JsFields.ofList
    [("customerInfo", JsValue.obj (JsFields.ofList
        [("currency", JsValue.str "USD"),
         ("totalPaymentCount", JsValue.num 1100000),
         ("fxVolume", JsValue.obj (JsFields.ofList
            [("distribution", JsValue.obj (JsFields.ofList
              [("tier1Percent", JsValue.num 40),
               ("tier2Percent", JsValue.num 35)]))]))])),
     ("fees", JsValue.obj (JsFields.ofList
        [("tungsten", getDefaultData.fees.tungsten.toJs),
         ("currentProvider", getDefaultData.fees.currentProvider.toJs)]))])

/-! ## The distribution allocator -/

/-- Two proportional shares of a positive total add up to the amount shared. -/
theorem proportional_shares_add (a b r : ℚ) (h : 0 < a + b) :
    a / (a + b) * r + b / (a + b) * r = r := by
  have hne : a + b ≠ 0 := ne_of_gt h
  field_simp
  ring

/-- The residual test of `adjustFXTiers` fails on a total of exactly 100. -/
theorem residual_guard_false (t : ℚ) (h : t = 100) : ¬ (|t - 100| > (0.01 : ℚ)) := by
  subst h
  norm_num

/-- The allocator computes the reference redistribution for each tier index. -/
theorem adjustDistribution_eq_reference (dist : FXDistribution) (k : ℕ) (v : ℚ)
    (hk : k = 1 ∨ k = 2 ∨ k = 3) :
    adjustDistribution dist k v = referenceRedistribution dist k v := by
  rcases hk with rfl | rfl | rfl
  · by_cases h : 0 < dist.tier2Percent + dist.tier3Percent
    · have e := proportional_shares_add dist.tier2Percent dist.tier3Percent (100 - v) h
      have g := residual_guard_false (v + dist.tier2Percent / (dist.tier2Percent + dist.tier3Percent) * (100 - v)
        + dist.tier3Percent / (dist.tier2Percent + dist.tier3Percent) * (100 - v)) (by linarith)
      simp [adjustDistribution, referenceRedistribution, setTier, getTier, h]
      intro h'
      exact absurd h' (by simpa using g)
    · have g := residual_guard_false (v + (100 - v) / 2 + (100 - v) / 2) (by ring)
      simp [adjustDistribution, referenceRedistribution, setTier, getTier, h]
      intro h'
      exact absurd h' (by simpa using g)
  · by_cases h : 0 < dist.tier1Percent + dist.tier3Percent
    · have e := proportional_shares_add dist.tier1Percent dist.tier3Percent (100 - v) h
      have g := residual_guard_false (dist.tier1Percent / (dist.tier1Percent + dist.tier3Percent) * (100 - v)
        + v + dist.tier3Percent / (dist.tier1Percent + dist.tier3Percent) * (100 - v)) (by linarith)
      simp [adjustDistribution, referenceRedistribution, setTier, getTier, h]
      intro h'
      exact absurd h' (by simpa using g)
    · have g := residual_guard_false ((100 - v) / 2 + v + (100 - v) / 2) (by ring)
      simp [adjustDistribution, referenceRedistribution, setTier, getTier, h]
      intro h'
      exact absurd h' (by simpa using g)
  · by_cases h : 0 < dist.tier1Percent + dist.tier2Percent
    · have e := proportional_shares_add dist.tier1Percent dist.tier2Percent (100 - v) h
      have g := residual_guard_false (dist.tier1Percent / (dist.tier1Percent + dist.tier2Percent) * (100 - v)
        + dist.tier2Percent / (dist.tier1Percent + dist.tier2Percent) * (100 - v) + v) (by linarith)
      simp [adjustDistribution, referenceRedistribution, setTier, getTier, h]
      intro h'
      exact absurd h' (by simpa using g)
    · simp [adjustDistribution, referenceRedistribution, setTier, getTier, h]

/-- The reference redistribution sums to exactly 100. -/
theorem referenceRedistribution_sum (dist : FXDistribution) (k : ℕ) (v : ℚ) :
    (referenceRedistribution dist k v).tier1Percent + (referenceRedistribution dist k v).tier2Percent
      + (referenceRedistribution dist k v).tier3Percent = 100 := by
  unfold referenceRedistribution
  split_ifs
  · by_cases h : 0 < dist.tier2Percent + dist.tier3Percent
    · have e := proportional_shares_add _ _ (100 - v) h
      simp only [gt_iff_lt, h, if_true]
      linarith
    · simp only [gt_iff_lt, h, if_false]
      ring
  · by_cases h : 0 < dist.tier1Percent + dist.tier3Percent
    · have e := proportional_shares_add _ _ (100 - v) h
      simp only [gt_iff_lt, h, if_true]
      linarith
    · simp only [gt_iff_lt, h, if_false]
      ring
  · by_cases h : 0 < dist.tier1Percent + dist.tier2Percent
    · have e := proportional_shares_add _ _ (100 - v) h
      simp only [gt_iff_lt, h, if_true]
      linarith
    · simp only [gt_iff_lt, h, if_false]
      ring

/-- Claim C1: for a tier index k among 1, 2, 3, a new value v in [0,100] and a
current FX distribution with non-negative tiers, after `adjustFXTiers(k, v)`
the three tier percentages sum to within 0.01 of 100, and `validate()` does
not report the error "FX distribution must sum to 100%". -/
theorem adjustFXTiers_sum_within_tolerance (d : Data) (k : ℕ) (v : ℚ)
    (hk : k = 1 ∨ k = 2 ∨ k = 3) (_hv0 : 0 ≤ v) (_hv100 : v ≤ 100)
    (_h1 : 0 ≤ d.customerInfo.fxVolume.distribution.tier1Percent)
    (_h2 : 0 ≤ d.customerInfo.fxVolume.distribution.tier2Percent)
    (_h3 : 0 ≤ d.customerInfo.fxVolume.distribution.tier3Percent) :
    |(adjustFXTiers d k v).customerInfo.fxVolume.distribution.tier1Percent
        + (adjustFXTiers d k v).customerInfo.fxVolume.distribution.tier2Percent
        + (adjustFXTiers d k v).customerInfo.fxVolume.distribution.tier3Percent - 100| ≤ 0.01
      ∧ "FX distribution must sum to 100%" ∉ (validate (adjustFXTiers d k v)).errors := by
  have hsum : (adjustFXTiers d k v).customerInfo.fxVolume.distribution.tier1Percent
        + (adjustFXTiers d k v).customerInfo.fxVolume.distribution.tier2Percent
        + (adjustFXTiers d k v).customerInfo.fxVolume.distribution.tier3Percent = 100 := by
    simp only [adjustFXTiers]
    rw [adjustDistribution_eq_reference _ _ _ hk]
    exact referenceRedistribution_sum _ _ _
  have hg := residual_guard_false _ hsum
  refine ⟨le_of_not_gt hg, ?_⟩
  unfold validate
  simp only [if_neg hg]
  split_ifs <;> simp

/-- Witness of claim C1: the default snapshot with tier 1 moved to 60. -/
theorem adjustFXTiers_sum_within_tolerance_witness :
    |(adjustFXTiers getDefaultData 1 60).customerInfo.fxVolume.distribution.tier1Percent
        + (adjustFXTiers getDefaultData 1 60).customerInfo.fxVolume.distribution.tier2Percent
        + (adjustFXTiers getDefaultData 1 60).customerInfo.fxVolume.distribution.tier3Percent - 100| ≤ 0.01
      ∧ "FX distribution must sum to 100%" ∉ (validate (adjustFXTiers getDefaultData 1 60)).errors :=
  adjustFXTiers_sum_within_tolerance getDefaultData 1 60 (Or.inl rfl) (by norm_num) (by norm_num)
    (by norm_num [getDefaultData]) (by norm_num [getDefaultData]) (by norm_num [getDefaultData])

/-- Claim C2: `adjustFXTiers(k, v)` equals the reference redistribution: the
changed tier holds exactly v, and with a, b the previous values of the other
two tiers and remaining = 100 - v, the others become a/(a+b)*remaining and
b/(a+b)*remaining when a + b > 0, and remaining/2 each otherwise. -/
theorem adjustFXTiers_eq_reference (d : Data) (k : ℕ) (v : ℚ) (hk : k = 1 ∨ k = 2 ∨ k = 3) :
    (adjustFXTiers d k v).customerInfo.fxVolume.distribution
        = referenceRedistribution d.customerInfo.fxVolume.distribution k v
      ∧ getTier (adjustFXTiers d k v).customerInfo.fxVolume.distribution k = v := by
  have e : (adjustFXTiers d k v).customerInfo.fxVolume.distribution
      = referenceRedistribution d.customerInfo.fxVolume.distribution k v := by
    simp only [adjustFXTiers]
    exact adjustDistribution_eq_reference _ _ _ hk
  refine ⟨e, ?_⟩
  rw [e]
  rcases hk with rfl | rfl | rfl <;> simp [referenceRedistribution, getTier]

/-- Witness of claim C2: the default snapshot with tier 2 moved to 10. -/
theorem adjustFXTiers_eq_reference_witness :
    (adjustFXTiers getDefaultData 2 10).customerInfo.fxVolume.distribution
        = referenceRedistribution getDefaultData.customerInfo.fxVolume.distribution 2 10
      ∧ getTier (adjustFXTiers getDefaultData 2 10).customerInfo.fxVolume.distribution 2 = 10 :=
  adjustFXTiers_eq_reference getDefaultData 2 10 (Or.inr (Or.inl rfl))

/-! ## The payment breakdown -/

/-- Claim C3: `calculatePaymentBreakdown` conserves counts exactly: the rail and
card counts add up to `totalPaymentCount` and the local and cross-border rail
counts add up to the rail count; only the rail share and the local share are
rounded, the card and cross-border counts are remainders. -/
theorem calculatePaymentBreakdown_count_conservation (d : Data) :
    (calculatePaymentBreakdown d).method.rail.count + (calculatePaymentBreakdown d).method.card.count
        = d.customerInfo.totalPaymentCount
      ∧ (calculatePaymentBreakdown d).rails.local_.count
          + (calculatePaymentBreakdown d).rails.crossBorder.count
        = (calculatePaymentBreakdown d).method.rail.count
      ∧ (calculatePaymentBreakdown d).method.rail.count
        = mathRound (d.customerInfo.totalPaymentCount
            * (d.customerInfo.paymentMethodDistribution.railPercent / 100))
      ∧ (calculatePaymentBreakdown d).method.card.count
        = d.customerInfo.totalPaymentCount - (calculatePaymentBreakdown d).method.rail.count
      ∧ (calculatePaymentBreakdown d).rails.local_.count
        = mathRound ((calculatePaymentBreakdown d).method.rail.count
            * (d.customerInfo.paymentTypeDistribution.localPercent / 100))
      ∧ (calculatePaymentBreakdown d).rails.crossBorder.count
        = (calculatePaymentBreakdown d).method.rail.count
            - (calculatePaymentBreakdown d).rails.local_.count := by
  simp [calculatePaymentBreakdown]

/-- Counterexample to claim C4 as stated: with railPercent 90 and cardPercent 5
on a total of 50,000,000 the card value is 2,500,000, not the remainder
5,000,000 of the total after the rail share. -/
theorem card_value_not_remainder :
    (calculatePaymentBreakdown unbalancedMethodSnapshot).method.card.value = 2500000
      ∧ unbalancedMethodSnapshot.customerInfo.totalPaymentValue
          - (calculatePaymentBreakdown unbalancedMethodSnapshot).method.rail.value = 5000000
      ∧ (calculatePaymentBreakdown unbalancedMethodSnapshot).method.card.value
          ≠ unbalancedMethodSnapshot.customerInfo.totalPaymentValue
            - (calculatePaymentBreakdown unbalancedMethodSnapshot).method.rail.value := by
  norm_num [calculatePaymentBreakdown, unbalancedMethodSnapshot, getDefaultData]

/-- Claim C4, amended: `calculatePaymentBreakdown` returns the rail value
`totalPaymentValue * railPercent/100` and the card value
`totalPaymentValue * cardPercent/100`; over exact arithmetic the card value is
the remainder of the total after the rail share when railPercent +
cardPercent = 100 (in double precision the two can differ in the last place,
see `card_value_not_remainder_in_doubles`). -/
theorem calculatePaymentBreakdown_method_values (d : Data) :
    (calculatePaymentBreakdown d).method.rail.value
        = d.customerInfo.totalPaymentValue
            * (d.customerInfo.paymentMethodDistribution.railPercent / 100)
      ∧ (calculatePaymentBreakdown d).method.card.value
        = d.customerInfo.totalPaymentValue
            * (d.customerInfo.paymentMethodDistribution.cardPercent / 100)
      ∧ (d.customerInfo.paymentMethodDistribution.railPercent
            + d.customerInfo.paymentMethodDistribution.cardPercent = 100 →
          (calculatePaymentBreakdown d).method.card.value
            = d.customerInfo.totalPaymentValue - (calculatePaymentBreakdown d).method.rail.value) := by
  refine ⟨rfl, rfl, fun h => ?_⟩
  have hc : d.customerInfo.paymentMethodDistribution.cardPercent
      = 100 - d.customerInfo.paymentMethodDistribution.railPercent := by linarith
  simp only [calculatePaymentBreakdown, hc]
  ring

/-- Witness of the amended claim C4 on the default snapshot (90 + 10 = 100),
over exact arithmetic. -/
theorem calculatePaymentBreakdown_method_values_witness :
    getDefaultData.customerInfo.paymentMethodDistribution.railPercent
        + getDefaultData.customerInfo.paymentMethodDistribution.cardPercent = 100
      ∧ (calculatePaymentBreakdown getDefaultData).method.card.value
        = getDefaultData.customerInfo.totalPaymentValue
            - (calculatePaymentBreakdown getDefaultData).method.rail.value :=
  ⟨by norm_num [getDefaultData],
    (calculatePaymentBreakdown_method_values getDefaultData).2.2 (by norm_num [getDefaultData])⟩

/-- Claim C5: when railPercent + cardPercent = 100 and localPercent +
crossBorderPercent = 100, `calculatePaymentBreakdown` leaks no value: the rail
and card values add up to `totalPaymentValue`, and the local and cross-border
rail values add up to the rail value. -/
theorem calculatePaymentBreakdown_value_conservation (d : Data)
    (hm : d.customerInfo.paymentMethodDistribution.railPercent
      + d.customerInfo.paymentMethodDistribution.cardPercent = 100)
    (ht : d.customerInfo.paymentTypeDistribution.localPercent
      + d.customerInfo.paymentTypeDistribution.crossBorderPercent = 100) :
    (calculatePaymentBreakdown d).method.rail.value + (calculatePaymentBreakdown d).method.card.value
        = d.customerInfo.totalPaymentValue
      ∧ (calculatePaymentBreakdown d).rails.local_.value
          + (calculatePaymentBreakdown d).rails.crossBorder.value
        = (calculatePaymentBreakdown d).method.rail.value := by
  have hc : d.customerInfo.paymentMethodDistribution.cardPercent
      = 100 - d.customerInfo.paymentMethodDistribution.railPercent := by linarith
  have hx : d.customerInfo.paymentTypeDistribution.crossBorderPercent
      = 100 - d.customerInfo.paymentTypeDistribution.localPercent := by linarith
  simp only [calculatePaymentBreakdown, hc, hx]
  constructor <;> ring

/-- Witness of claim C5 on the default snapshot. -/
theorem calculatePaymentBreakdown_value_conservation_witness :
    (calculatePaymentBreakdown getDefaultData).method.rail.value
          + (calculatePaymentBreakdown getDefaultData).method.card.value
        = getDefaultData.customerInfo.totalPaymentValue
      ∧ (calculatePaymentBreakdown getDefaultData).rails.local_.value
          + (calculatePaymentBreakdown getDefaultData).rails.crossBorder.value
        = (calculatePaymentBreakdown getDefaultData).method.rail.value :=
  calculatePaymentBreakdown_value_conservation getDefaultData
    (by norm_num [getDefaultData]) (by norm_num [getDefaultData])

/-! ## FX volumes -/

/-- The FX volume uses the stored share when it is not 0. -/
theorem calculateFXVolumes_of_ne_zero (d : Data) (h : d.customerInfo.fxPercentOfCrossBorder ≠ 0) :
    (calculateFXVolumes d).total
        = (calculatePaymentBreakdown d).rails.crossBorder.value
            * (d.customerInfo.fxPercentOfCrossBorder / 100)
      ∧ (calculateFXVolumes d).tier1
        = (calculateFXVolumes d).total * (d.customerInfo.fxVolume.distribution.tier1Percent / 100)
      ∧ (calculateFXVolumes d).tier2
        = (calculateFXVolumes d).total * (d.customerInfo.fxVolume.distribution.tier2Percent / 100)
      ∧ (calculateFXVolumes d).tier3
        = (calculateFXVolumes d).total * (d.customerInfo.fxVolume.distribution.tier3Percent / 100) := by
  simp [calculateFXVolumes, h]

/-- Claim C6, evaluated at the failing input: with `fxPercentOfCrossBorder` = 0
on the default snapshot (cross-border rail value 18,000,000) the FX volume is
9,000,000, the volume of a 50 percent share, and not 0. -/
theorem calculateFXVolumes_zero_share :
    zeroFxShareSnapshot.customerInfo.fxPercentOfCrossBorder = 0
      ∧ (calculatePaymentBreakdown zeroFxShareSnapshot).rails.crossBorder.value = 18000000
      ∧ (calculateFXVolumes zeroFxShareSnapshot).total = 9000000
      ∧ (calculateFXVolumes zeroFxShareSnapshot).total
          ≠ (calculatePaymentBreakdown zeroFxShareSnapshot).rails.crossBorder.value
            * (zeroFxShareSnapshot.customerInfo.fxPercentOfCrossBorder / 100) := by
  norm_num [calculateFXVolumes, calculatePaymentBreakdown, zeroFxShareSnapshot, getDefaultData]

/-! ## The cost model -/

/-- Claim C7: `calculateProviderCosts` charges rails as a flat fee per rail-only
transaction: localRail = rails.local.count * localRailFee and crossBorderRail =
rails.crossBorder.count * crossBorderFee, the counts being the rail-only counts
of the breakdown (rounded shares of the rounded rail count, no card count
included), and the two figures do not depend on the payment value. -/
theorem calculateProviderCosts_flat_rail_fees (d : Data) (p : Provider) :
    (calculateProviderCosts d p).localRail
        = (calculatePaymentBreakdown d).rails.local_.count * (d.fees.get p).localRailFee
      ∧ (calculateProviderCosts d p).crossBorderRail
        = (calculatePaymentBreakdown d).rails.crossBorder.count * (d.fees.get p).crossBorderFee
      ∧ (calculatePaymentBreakdown d).rails.local_.count
        = mathRound ((mathRound (d.customerInfo.totalPaymentCount
              * (d.customerInfo.paymentMethodDistribution.railPercent / 100)) : ℚ)
            * (d.customerInfo.paymentTypeDistribution.localPercent / 100))
      ∧ (calculatePaymentBreakdown d).rails.crossBorder.count
        = (mathRound (d.customerInfo.totalPaymentCount
              * (d.customerInfo.paymentMethodDistribution.railPercent / 100)) : ℚ)
            - (calculatePaymentBreakdown d).rails.local_.count
      ∧ ∀ v : ℚ,
          (calculateProviderCosts
              { d with customerInfo := { d.customerInfo with totalPaymentValue := v } } p).localRail
            = (calculateProviderCosts d p).localRail
          ∧ (calculateProviderCosts
              { d with customerInfo := { d.customerInfo with totalPaymentValue := v } } p).crossBorderRail
            = (calculateProviderCosts d p).crossBorderRail := by
  refine ⟨rfl, rfl, rfl, rfl, fun v => ⟨rfl, rfl⟩⟩

/-- Claim C8: `calculateProviderCosts` returns total = localRail +
crossBorderRail + fx.total with fx.total the sum over the three tiers of
fxVolumes.tierN * fxMargins.tierN/100; the card rebate is not part of it: two
snapshots that differ only in the provider's cardRebate have the same total,
costPerTransaction and effectiveRate for that provider. -/
theorem calculateProviderCosts_total_excludes_rebate (d d' : Data) (p : Provider)
    (hc : d'.customerInfo = d.customerInfo)
    (hl : (d'.fees.get p).localRailFee = (d.fees.get p).localRailFee)
    (hx : (d'.fees.get p).crossBorderFee = (d.fees.get p).crossBorderFee)
    (hm : (d'.fees.get p).fxMargins = (d.fees.get p).fxMargins) :
    (calculateProviderCosts d p).total
        = (calculateProviderCosts d p).localRail + (calculateProviderCosts d p).crossBorderRail
            + (calculateProviderCosts d p).fx.total
      ∧ (calculateProviderCosts d p).fx.total
        = (calculateFXVolumes d).tier1 * ((d.fees.get p).fxMargins.tier1 / 100)
            + (calculateFXVolumes d).tier2 * ((d.fees.get p).fxMargins.tier2 / 100)
            + (calculateFXVolumes d).tier3 * ((d.fees.get p).fxMargins.tier3 / 100)
      ∧ (calculateProviderCosts d' p).total = (calculateProviderCosts d p).total
      ∧ (calculateProviderCosts d' p).costPerTransaction
        = (calculateProviderCosts d p).costPerTransaction
      ∧ (calculateProviderCosts d' p).effectiveRate = (calculateProviderCosts d p).effectiveRate := by
  refine ⟨rfl, rfl, ?_, ?_, ?_⟩ <;>
    simp only [calculateProviderCosts, calculateFXVolumes, calculatePaymentBreakdown, hc, hl, hx, hm]

/-- Witness of claim C8: the default snapshot against the one with the Tungsten
card rebate raised from 1.50 to 3. -/
theorem calculateProviderCosts_total_excludes_rebate_witness :
    (raisedRebateSnapshot.fees.get Provider.tungsten).cardRebate
        ≠ (getDefaultData.fees.get Provider.tungsten).cardRebate
      ∧ (calculateProviderCosts raisedRebateSnapshot Provider.tungsten).total
        = (calculateProviderCosts getDefaultData Provider.tungsten).total
      ∧ (calculateProviderCosts raisedRebateSnapshot Provider.tungsten).costPerTransaction
        = (calculateProviderCosts getDefaultData Provider.tungsten).costPerTransaction
      ∧ (calculateProviderCosts raisedRebateSnapshot Provider.tungsten).effectiveRate
        = (calculateProviderCosts getDefaultData Provider.tungsten).effectiveRate :=
  ⟨by norm_num [raisedRebateSnapshot, getDefaultData, Fees.get],
    (calculateProviderCosts_total_excludes_rebate getDefaultData raisedRebateSnapshot
      Provider.tungsten rfl rfl rfl rfl).2.2⟩

/-! ## Guarded ratios -/

/-- Rounding a non-negative number gives a non-negative integer. -/
theorem mathRound_nonneg (x : ℚ) (h : 0 ≤ x) : 0 ≤ mathRound x := by
  unfold mathRound
  exact Int.floor_nonneg.mpr (by linarith)

/-- Rounding never exceeds an integer bound of the number rounded. -/
theorem mathRound_le_of_le (x : ℚ) (m : ℤ) (h : x ≤ m) : mathRound x ≤ m := by
  unfold mathRound
  have hlt : ⌊x + 1 / 2⌋ < m + 1 := by
    rw [Int.floor_lt]
    push_cast
    linarith
  omega

/-- The rail-only counts of the breakdown are non-negative for inputs in range. -/
theorem rails_counts_nonneg (d : Data) (h : CustomerInfoInRange d.customerInfo) :
    0 ≤ (calculatePaymentBreakdown d).rails.local_.count
      ∧ 0 ≤ (calculatePaymentBreakdown d).rails.crossBorder.count := by
  obtain ⟨_, hc, hl, _, hr, _⟩ := h
  have hrc : 0 ≤ mathRound (d.customerInfo.totalPaymentCount
      * (d.customerInfo.paymentMethodDistribution.railPercent / 100)) :=
    mathRound_nonneg _ (mul_nonneg hc (div_nonneg hr.1 (by norm_num)))
  have hrcq : (0 : ℚ) ≤ (mathRound (d.customerInfo.totalPaymentCount
      * (d.customerInfo.paymentMethodDistribution.railPercent / 100)) : ℚ) := by
    exact_mod_cast hrc
  have hfrac : d.customerInfo.paymentTypeDistribution.localPercent / 100 ≤ 1 := by
    rw [div_le_one (by norm_num)]
    exact hl.2
  have hfrac0 : 0 ≤ d.customerInfo.paymentTypeDistribution.localPercent / 100 :=
    div_nonneg hl.1 (by norm_num)
  have hlc : 0 ≤ mathRound ((mathRound (d.customerInfo.totalPaymentCount
      * (d.customerInfo.paymentMethodDistribution.railPercent / 100)) : ℚ)
      * (d.customerInfo.paymentTypeDistribution.localPercent / 100)) :=
    mathRound_nonneg _ (mul_nonneg hrcq hfrac0)
  have hle : mathRound ((mathRound (d.customerInfo.totalPaymentCount
      * (d.customerInfo.paymentMethodDistribution.railPercent / 100)) : ℚ)
      * (d.customerInfo.paymentTypeDistribution.localPercent / 100))
      ≤ mathRound (d.customerInfo.totalPaymentCount
      * (d.customerInfo.paymentMethodDistribution.railPercent / 100)) :=
    mathRound_le_of_le _ _ (mul_le_of_le_one_right hrcq hfrac)
  simp only [calculatePaymentBreakdown]
  constructor
  · exact_mod_cast hlc
  · rw [sub_nonneg]
    exact_mod_cast hle

/-- The FX volumes are non-negative for inputs in range. -/
theorem fxVolumes_nonneg (d : Data) (h : CustomerInfoInRange d.customerInfo) :
    0 ≤ (calculateFXVolumes d).tier1 ∧ 0 ≤ (calculateFXVolumes d).tier2
      ∧ 0 ≤ (calculateFXVolumes d).tier3 := by
  obtain ⟨hv, _, _, hx, hr, _, hf, h1, h2, h3⟩ := h
  have h100 : (0 : ℚ) ≤ 100 := by norm_num
  have hfx : (0 : ℚ) ≤ (if d.customerInfo.fxPercentOfCrossBorder = 0 then 50
      else d.customerInfo.fxPercentOfCrossBorder) := by
    split_ifs
    · norm_num
    · exact hf.1
  have ht : 0 ≤ d.customerInfo.totalPaymentValue
      * (d.customerInfo.paymentMethodDistribution.railPercent / 100)
      * (d.customerInfo.paymentTypeDistribution.crossBorderPercent / 100)
      * ((if d.customerInfo.fxPercentOfCrossBorder = 0 then 50
          else d.customerInfo.fxPercentOfCrossBorder) / 100) :=
    mul_nonneg (mul_nonneg (mul_nonneg hv (div_nonneg hr.1 h100)) (div_nonneg hx.1 h100))
      (div_nonneg hfx h100)
  simp only [calculateFXVolumes, calculatePaymentBreakdown]
  exact ⟨mul_nonneg ht (div_nonneg h1.1 h100), mul_nonneg ht (div_nonneg h2.1 h100),
    mul_nonneg ht (div_nonneg h3.1 h100)⟩

/-- A provider's total cost is non-negative for inputs in range. -/
theorem providerCosts_total_nonneg (d : Data) (p : Provider)
    (h : CustomerInfoInRange d.customerInfo) (hf : FeeScheduleInRange (d.fees.get p)) :
    0 ≤ (calculateProviderCosts d p).total := by
  obtain ⟨hl, hc⟩ := rails_counts_nonneg d h
  obtain ⟨h1, h2, h3⟩ := fxVolumes_nonneg d h
  obtain ⟨f1, f2, m1, m2, m3, _⟩ := hf
  have h100 : (0 : ℚ) ≤ 100 := by norm_num
  simp only [calculateProviderCosts]
  exact add_nonneg (add_nonneg (mul_nonneg hl f1) (mul_nonneg hc f2))
    (add_nonneg (add_nonneg (mul_nonneg h1 (div_nonneg m1.1 h100))
      (mul_nonneg h2 (div_nonneg m2.1 h100))) (mul_nonneg h3 (div_nonneg m3.1 h100)))

/-- A provider's card rebate amount is non-negative for inputs in range. -/
theorem providerCosts_cardRebate_nonneg (d : Data) (p : Provider)
    (h : CustomerInfoInRange d.customerInfo) (hf : FeeScheduleInRange (d.fees.get p)) :
    0 ≤ (calculateProviderCosts d p).cardRebate := by
  obtain ⟨hv, _, _, _, _, hcp, _⟩ := h
  obtain ⟨_, _, _, _, _, hr⟩ := hf
  have h100 : (0 : ℚ) ≤ 100 := by norm_num
  simp only [calculateProviderCosts, calculatePaymentBreakdown]
  exact mul_nonneg (mul_nonneg hv (div_nonneg hcp.1 h100)) (div_nonneg hr.1 h100)

/-- A ratio guarded by a positivity test on a non-negative divisor: the
quotient when the divisor is not 0, and 0 otherwise; the division is finite. -/
theorem guarded_ratio (n x : ℚ) (hx : 0 ≤ x) :
    (if x > 0 then jsDiv n x else some 0) = (if x = 0 then some 0 else some (n / x)) := by
  by_cases h : x = 0
  · simp [h]
  · have hpos : 0 < x := lt_of_le_of_ne hx (Ne.symm h)
    simp [jsDiv, h, hpos]

/-- The guarded ratio scaled to a percentage. -/
theorem guarded_ratio_percent (n x : ℚ) (hx : 0 ≤ x) :
    (if x > 0 then (jsDiv n x).map (fun q => q * 100) else some 0)
      = (if x = 0 then some 0 else some (n / x * 100)) := by
  by_cases h : x = 0
  · simp [h]
  · have hpos : 0 < x := lt_of_le_of_ne hx (Ne.symm h)
    simp [jsDiv, h, hpos]

/-- Claim C9: every ratio the engine reports is guarded against a zero
denominator. For a snapshot with non-negative value and count (an integer
count included), non-negative fees and every percentage field in [0,100], each
ratio is a finite number, so no division by zero is evaluated:
costPerTransaction is total/totalPaymentCount when the count is not 0 and 0
when it is 0; effectiveRate is total/totalPaymentValue*100 when the value is
not 0 and 0 when it is 0; costs.savingsPercentage is
savings.total/current.total*100 when current.total is not 0 and 0 otherwise;
incentives.increasePercentage is differential/current rebate*100 when the
current rebate amount is not 0 and 0 otherwise. -/
theorem ratios_guarded_against_zero (d : Data) (hc : CustomerInfoInRange d.customerInfo)
    (_ht : FeeScheduleInRange d.fees.tungsten) (hp : FeeScheduleInRange d.fees.currentProvider) :
    (∀ p : Provider,
        (calculateProviderCosts d p).costPerTransaction
            = (if d.customerInfo.totalPaymentCount = 0 then some 0
                else some ((calculateProviderCosts d p).total / d.customerInfo.totalPaymentCount))
          ∧ (calculateProviderCosts d p).effectiveRate
            = (if d.customerInfo.totalPaymentValue = 0 then some 0
                else some ((calculateProviderCosts d p).total
                  / d.customerInfo.totalPaymentValue * 100)))
      ∧ (getResults d).costs.savingsPercentage
        = (if (getResults d).costs.current = 0 then some 0
            else some ((getResults d).costs.savings.total / (getResults d).costs.current * 100))
      ∧ (getResults d).incentives.increasePercentage
        = (if (getResults d).incentives.current = 0 then some 0
            else some ((getResults d).incentives.differential
              / (getResults d).incentives.current * 100)) := by
  refine ⟨fun p => ⟨?_, ?_⟩, ?_, ?_⟩
  · exact guarded_ratio _ _ hc.2.1
  · exact guarded_ratio_percent _ _ hc.1
  · exact guarded_ratio_percent _ _ (providerCosts_total_nonneg d Provider.currentProvider hc hp)
  · exact guarded_ratio_percent _ _
      (providerCosts_cardRebate_nonneg d Provider.currentProvider hc hp)

/-- The default snapshot is in range. -/
theorem getDefaultData_inRange :
    CustomerInfoInRange getDefaultData.customerInfo
      ∧ FeeScheduleInRange getDefaultData.fees.tungsten
      ∧ FeeScheduleInRange getDefaultData.fees.currentProvider := by
  norm_num [CustomerInfoInRange, FeeScheduleInRange, IsPercent, getDefaultData]

/-- Witness of claim C9: the snapshot with no payments and no value is in
range, and its four ratios are the finite number 0. -/
theorem ratios_guarded_against_zero_witness :
    CustomerInfoInRange zeroVolumeSnapshot.customerInfo
      ∧ FeeScheduleInRange zeroVolumeSnapshot.fees.tungsten
      ∧ FeeScheduleInRange zeroVolumeSnapshot.fees.currentProvider
      ∧ (calculateProviderCosts zeroVolumeSnapshot Provider.currentProvider).costPerTransaction
        = some 0
      ∧ (calculateProviderCosts zeroVolumeSnapshot Provider.currentProvider).effectiveRate
        = some 0 := by
  have hc : CustomerInfoInRange zeroVolumeSnapshot.customerInfo := by
    norm_num [CustomerInfoInRange, IsPercent, zeroVolumeSnapshot, getDefaultData]
  have ht : FeeScheduleInRange zeroVolumeSnapshot.fees.tungsten := getDefaultData_inRange.2.1
  have hp : FeeScheduleInRange zeroVolumeSnapshot.fees.currentProvider := getDefaultData_inRange.2.2
  have h := (ratios_guarded_against_zero zeroVolumeSnapshot hc ht hp).1 Provider.currentProvider
  refine ⟨hc, ht, hp, ?_, ?_⟩
  · rw [h.1]
    exact if_pos rfl
  · rw [h.2]
    exact if_pos rfl

/-- Counterexample to claim C10 as stated: on the default snapshot with
`totalPaymentCount` = 0 the current provider's effectiveRate is 0.11205, and on
the default snapshot with `totalPaymentValue` = 0 its costPerTransaction is
1.8; neither is 0. -/
theorem zero_input_ratios_not_both_zero :
    zeroCountSnapshot.customerInfo.totalPaymentCount = 0
      ∧ (getResults zeroCountSnapshot).detailedCosts.current.effectiveRate = some 0.11205
      ∧ (getResults zeroCountSnapshot).detailedCosts.current.effectiveRate ≠ some 0
      ∧ zeroValueSnapshot.customerInfo.totalPaymentValue = 0
      ∧ (getResults zeroValueSnapshot).detailedCosts.current.costPerTransaction = some 1.8
      ∧ (getResults zeroValueSnapshot).detailedCosts.current.costPerTransaction ≠ some 0 := by
  have r0 : mathRound (0 : ℚ) = 0 := by
    unfold mathRound
    rw [Int.floor_eq_iff]
    norm_num
  have r1 : mathRound (990000 : ℚ) = 990000 := by
    unfold mathRound
    rw [Int.floor_eq_iff]
    norm_num
  have r2 : mathRound (594000 : ℚ) = 594000 := by
    unfold mathRound
    rw [Int.floor_eq_iff]
    norm_num
  have e1 : (getResults zeroCountSnapshot).detailedCosts.current.effectiveRate = some 0.11205 := by
    norm_num [getResults, calculateSavings, calculateProviderCosts, calculateFXVolumes,
      calculatePaymentBreakdown, zeroCountSnapshot, getDefaultData, Fees.get, jsDiv, r0]
  have e2 : (getResults zeroValueSnapshot).detailedCosts.current.costPerTransaction = some 1.8 := by
    norm_num [getResults, calculateSavings, calculateProviderCosts, calculateFXVolumes,
      calculatePaymentBreakdown, zeroValueSnapshot, getDefaultData, Fees.get, jsDiv, r1, r2]
  refine ⟨rfl, e1, ?_, rfl, e2, ?_⟩
  · rw [e1]
    norm_num
  · rw [e2]
    norm_num

/-- Claim C10, amended: `getResults` returns costPerTransaction = 0 for both
providers when `totalPaymentCount` = 0, and effectiveRate = 0 for both
providers when `totalPaymentValue` = 0; so with both inputs 0 both figures are
0 for both providers. -/
theorem getResults_zero_inputs (d : Data) :
    (d.customerInfo.totalPaymentCount = 0 →
        (getResults d).detailedCosts.current.costPerTransaction = some 0
          ∧ (getResults d).detailedCosts.tungsten.costPerTransaction = some 0)
      ∧ (d.customerInfo.totalPaymentValue = 0 →
        (getResults d).detailedCosts.current.effectiveRate = some 0
          ∧ (getResults d).detailedCosts.tungsten.effectiveRate = some 0) := by
  constructor
  · intro h
    simp [getResults, calculateSavings, calculateProviderCosts, h]
  · intro h
    simp [getResults, calculateSavings, calculateProviderCosts, h]

/-- Witness of the amended claim C10: the snapshot with count and value both 0. -/
theorem getResults_zero_inputs_witness :
    zeroVolumeSnapshot.customerInfo.totalPaymentCount = 0
      ∧ zeroVolumeSnapshot.customerInfo.totalPaymentValue = 0
      ∧ (getResults zeroVolumeSnapshot).detailedCosts.current.costPerTransaction = some 0
      ∧ (getResults zeroVolumeSnapshot).detailedCosts.tungsten.costPerTransaction = some 0
      ∧ (getResults zeroVolumeSnapshot).detailedCosts.current.effectiveRate = some 0
      ∧ (getResults zeroVolumeSnapshot).detailedCosts.tungsten.effectiveRate = some 0 :=
  ⟨rfl, rfl, ((getResults_zero_inputs zeroVolumeSnapshot).1 rfl).1,
    ((getResults_zero_inputs zeroVolumeSnapshot).1 rfl).2,
    ((getResults_zero_inputs zeroVolumeSnapshot).2 rfl).1,
    ((getResults_zero_inputs zeroVolumeSnapshot).2 rfl).2⟩

/-! ## Savings and benefit -/

/-- Rounding a numeral gives the numeral. -/
theorem mathRound_ofNat (n : ℕ) [n.AtLeastTwo] :
    mathRound (OfNat.ofNat n : ℚ) = OfNat.ofNat n := by
  unfold mathRound
  rw [Int.floor_eq_iff]
  constructor
  · push_cast
    linarith
  · push_cast
    linarith

/-- The counts of the default snapshot: 990,000 rail payments, of which
594,000 local and 396,000 cross-border, and 110,000 card payments. -/
theorem default_breakdown_counts :
    (calculatePaymentBreakdown getDefaultData).method.rail.count = 990000
      ∧ (calculatePaymentBreakdown getDefaultData).method.card.count = 110000
      ∧ (calculatePaymentBreakdown getDefaultData).rails.local_.count = 594000
      ∧ (calculatePaymentBreakdown getDefaultData).rails.crossBorder.count = 396000 := by
  have r1 : mathRound (990000 : ℚ) = 990000 := mathRound_ofNat 990000
  have r2 : mathRound (594000 : ℚ) = 594000 := mathRound_ofNat 594000
  norm_num [calculatePaymentBreakdown, getDefaultData, r1, r2]

/-- The values of the default snapshot: the method split, the rail split and
the FX volumes by tier. -/
theorem default_breakdown_values :
    (calculatePaymentBreakdown getDefaultData).method.rail.value = 45000000
      ∧ (calculatePaymentBreakdown getDefaultData).method.card.value = 5000000
      ∧ (calculatePaymentBreakdown getDefaultData).rails.local_.value = 27000000
      ∧ (calculatePaymentBreakdown getDefaultData).rails.crossBorder.value = 18000000
      ∧ (calculateFXVolumes getDefaultData).total = 9000000
      ∧ (calculateFXVolumes getDefaultData).tier1 = 3600000
      ∧ (calculateFXVolumes getDefaultData).tier2 = 3150000
      ∧ (calculateFXVolumes getDefaultData).tier3 = 2250000 := by
  norm_num [calculateFXVolumes, calculatePaymentBreakdown, getDefaultData]

/-- The total benefit of a provider pair, as the sum of fee differences
weighted by the volumes, is negative when every volume is positive, every
Tungsten fee is higher and the Tungsten rebate is lower. -/
theorem weighted_differences_neg (lc cc v1 v2 v3 cv cl tl cx tx c1 t1 c2 t2 c3 t3 cr tr : ℚ)
    (hlc : 0 < lc) (hcc : 0 < cc) (hv1 : 0 < v1) (hv2 : 0 < v2) (hv3 : 0 < v3) (hcv : 0 < cv)
    (hl : cl < tl) (hx : cx < tx) (h1 : c1 < t1) (h2 : c2 < t2) (h3 : c3 < t3) (hr : tr < cr) :
    (lc * cl + cc * cx + (v1 * (c1 / 100) + v2 * (c2 / 100) + v3 * (c3 / 100)))
        - (lc * tl + cc * tx + (v1 * (t1 / 100) + v2 * (t2 / 100) + v3 * (t3 / 100)))
        + (cv * (tr / 100) - cv * (cr / 100)) < 0 := by
  have e1 := mul_lt_mul_of_pos_left hl hlc
  have e2 := mul_lt_mul_of_pos_left hx hcc
  have e3 := mul_lt_mul_of_pos_left h1 hv1
  have e4 := mul_lt_mul_of_pos_left h2 hv2
  have e5 := mul_lt_mul_of_pos_left h3 hv3
  have e6 := mul_lt_mul_of_pos_left hr hcv
  linarith

/-- Claim C11: `getResults` satisfies totalAnnualBenefit = costs.savings.total +
incentives.differential for every snapshot and fee schedule, where
incentives.differential is the Tungsten card rebate minus the current
provider's; the figure is not clamped: when every volume is positive, every
Tungsten fee is higher and the Tungsten rebate is lower, totalAnnualBenefit is
negative. -/
theorem totalAnnualBenefit_decomposition (d : Data) :
    (getResults d).totalAnnualBenefit
        = (getResults d).costs.savings.total + (getResults d).incentives.differential
      ∧ (getResults d).incentives.differential
        = (calculateProviderCosts d Provider.tungsten).cardRebate
            - (calculateProviderCosts d Provider.currentProvider).cardRebate
      ∧ (0 < (calculatePaymentBreakdown d).rails.local_.count →
          0 < (calculatePaymentBreakdown d).rails.crossBorder.count →
          0 < (calculateFXVolumes d).tier1 → 0 < (calculateFXVolumes d).tier2 →
          0 < (calculateFXVolumes d).tier3 →
          0 < (calculatePaymentBreakdown d).method.card.value →
          d.fees.currentProvider.localRailFee < d.fees.tungsten.localRailFee →
          d.fees.currentProvider.crossBorderFee < d.fees.tungsten.crossBorderFee →
          d.fees.currentProvider.fxMargins.tier1 < d.fees.tungsten.fxMargins.tier1 →
          d.fees.currentProvider.fxMargins.tier2 < d.fees.tungsten.fxMargins.tier2 →
          d.fees.currentProvider.fxMargins.tier3 < d.fees.tungsten.fxMargins.tier3 →
          d.fees.tungsten.cardRebate < d.fees.currentProvider.cardRebate →
          (getResults d).totalAnnualBenefit < 0) := by
  refine ⟨rfl, rfl, ?_⟩
  intro hlc hcc hv1 hv2 hv3 hcv hl hx h1 h2 h3 hr
  exact weighted_differences_neg _ _ _ _ _ _ _ _ _ _ _ _ _ _ _ _ _ _
    hlc hcc hv1 hv2 hv3 hcv hl hx h1 h2 h3 hr

/-- Witness of claim C11: with the default fee schedules exchanged, every
volume is positive, Tungsten is worse on each fee and on the rebate, and the
total annual benefit is negative. -/
theorem totalAnnualBenefit_decomposition_witness :
    (getResults swappedFeesSnapshot).totalAnnualBenefit < 0 := by
  have hb : calculatePaymentBreakdown swappedFeesSnapshot
      = calculatePaymentBreakdown getDefaultData := rfl
  have hf : calculateFXVolumes swappedFeesSnapshot = calculateFXVolumes getDefaultData := rfl
  obtain ⟨_, _, c3, c4⟩ := default_breakdown_counts
  obtain ⟨_, v2, _, _, _, v6, v7, v8⟩ := default_breakdown_values
  refine (totalAnnualBenefit_decomposition swappedFeesSnapshot).2.2 ?_ ?_ ?_ ?_ ?_ ?_ ?_ ?_ ?_ ?_ ?_ ?_
  · rw [hb, c3]; norm_num
  · rw [hb, c4]; norm_num
  · rw [hf, v6]; norm_num
  · rw [hf, v7]; norm_num
  · rw [hf, v8]; norm_num
  · rw [hb, v2]; norm_num
  all_goals norm_num [swappedFeesSnapshot, getDefaultData]

/-- Claim C12, amended: each entry of costs.savings (localRail, crossBorderRail,
rails, fx, total) is the current provider's figure minus Tungsten's figure for
that category, and over exact arithmetic the categories are additive:
savings.rails = savings.localRail + savings.crossBorderRail and savings.total =
savings.rails + savings.fx. -/
theorem costSavings_by_category (d : Data) :
    (getResults d).costs.savings.localRail
        = (calculateProviderCosts d Provider.currentProvider).localRail
            - (calculateProviderCosts d Provider.tungsten).localRail
      ∧ (getResults d).costs.savings.crossBorderRail
        = (calculateProviderCosts d Provider.currentProvider).crossBorderRail
            - (calculateProviderCosts d Provider.tungsten).crossBorderRail
      ∧ (getResults d).costs.savings.rails
        = (calculateProviderCosts d Provider.currentProvider).rails
            - (calculateProviderCosts d Provider.tungsten).rails
      ∧ (getResults d).costs.savings.fx
        = (calculateProviderCosts d Provider.currentProvider).fx.total
            - (calculateProviderCosts d Provider.tungsten).fx.total
      ∧ (getResults d).costs.savings.total
        = (calculateProviderCosts d Provider.currentProvider).total
            - (calculateProviderCosts d Provider.tungsten).total
      ∧ (getResults d).costs.savings.rails
        = (getResults d).costs.savings.localRail + (getResults d).costs.savings.crossBorderRail
      ∧ (getResults d).costs.savings.total
        = (getResults d).costs.savings.rails + (getResults d).costs.savings.fx := by
  refine ⟨rfl, rfl, rfl, rfl, rfl, ?_, ?_⟩
  · simp only [getResults, calculateSavings, calculateProviderCosts]
    ring
  · simp only [getResults, calculateSavings, calculateProviderCosts]
    ring

/-! ## The canonical fixture -/

/-- Claim C13: for the default snapshot `getResults` returns method.rail.value =
45,000,000, method.card.value = 5,000,000, rails.local.value = 27,000,000,
rails.crossBorder.value = 18,000,000 and fxVolumes.total = 9,000,000. -/
theorem getResults_default_values :
    (getResults getDefaultData).breakdown.method.rail.value = 45000000
      ∧ (getResults getDefaultData).breakdown.method.card.value = 5000000
      ∧ (getResults getDefaultData).breakdown.rails.local_.value = 27000000
      ∧ (getResults getDefaultData).breakdown.rails.crossBorder.value = 18000000
      ∧ (getResults getDefaultData).fxVolumes.total = 9000000 := by
  obtain ⟨v1, v2, v3, v4, v5, _⟩ := default_breakdown_values
  exact ⟨v1, v2, v3, v4, v5⟩

/-- Counterexample to claim C14 as stated: the current provider's rails cost on
the default snapshot is not 1,336,500, and the cross-border rail count is not
99,000. -/
theorem default_current_rails_not_1336500 :
    (calculateProviderCosts getDefaultData Provider.currentProvider).rails ≠ 1336500
      ∧ (calculatePaymentBreakdown getDefaultData).rails.local_.count ≠ 990000
      ∧ (calculatePaymentBreakdown getDefaultData).rails.crossBorder.count ≠ 99000 := by
  obtain ⟨_, _, c3, c4⟩ := default_breakdown_counts
  refine ⟨?_, ?_, ?_⟩
  · simp only [calculateProviderCosts, c3, c4]
    norm_num [getDefaultData, Fees.get]
  · rw [c3]
    norm_num
  · rw [c4]
    norm_num

/-- Claim C14, amended: for the default snapshot (current-provider fees
localRailFee = 1.00 and crossBorderFee = 3.50) the current provider's rails
cost is 1,980,000, being (594,000 * 1.00) + (396,000 * 3.50), the rail count
of 990,000 being split into 594,000 local and 396,000 cross-border. -/
theorem default_current_rails_cost :
    (calculateProviderCosts getDefaultData Provider.currentProvider).rails = 1980000
      ∧ (calculateProviderCosts getDefaultData Provider.currentProvider).localRail
        = 594000 * 1.00
      ∧ (calculateProviderCosts getDefaultData Provider.currentProvider).crossBorderRail
        = 396000 * 3.50
      ∧ (calculatePaymentBreakdown getDefaultData).method.rail.count = 990000
      ∧ (calculatePaymentBreakdown getDefaultData).rails.local_.count = 594000
      ∧ (calculatePaymentBreakdown getDefaultData).rails.crossBorder.count = 396000 := by
  obtain ⟨c1, _, c3, c4⟩ := default_breakdown_counts
  refine ⟨?_, ?_, ?_, c1, c3, c4⟩
  · simp only [calculateProviderCosts, c3, c4]
    norm_num [getDefaultData, Fees.get]
  · simp only [calculateProviderCosts, c3]
    norm_num [getDefaultData, Fees.get]
  · simp only [calculateProviderCosts, c4]
    norm_num [getDefaultData, Fees.get]

/-- Claim C15: from the distribution tier1 = 40, tier2 = 35, tier3 = 25,
`adjustFXTiers(1, 60)` yields tier1 = 60, tier2 = 35/60 * 40 = 70/3 and tier3 =
25/60 * 40 = 50/3, which sum to 100 within 0.01. -/
theorem adjustFXTiers_default_tier1_to_60 :
    getDefaultData.customerInfo.fxVolume.distribution
        = { tier1Percent := 40, tier2Percent := 35, tier3Percent := 25 }
      ∧ (adjustFXTiers getDefaultData 1 60).customerInfo.fxVolume.distribution
        = { tier1Percent := 60, tier2Percent := 35 / 60 * 40, tier3Percent := 25 / 60 * 40 }
      ∧ (35 / 60 * 40 : ℚ) = 70 / 3 ∧ (25 / 60 * 40 : ℚ) = 50 / 3
      ∧ |(adjustFXTiers getDefaultData 1 60).customerInfo.fxVolume.distribution.tier1Percent
          + (adjustFXTiers getDefaultData 1 60).customerInfo.fxVolume.distribution.tier2Percent
          + (adjustFXTiers getDefaultData 1 60).customerInfo.fxVolume.distribution.tier3Percent
          - 100| ≤ 0.01 := by
  have e : (adjustFXTiers getDefaultData 1 60).customerInfo.fxVolume.distribution
      = { tier1Percent := 60, tier2Percent := 35 / 60 * 40, tier3Percent := 25 / 60 * 40 } := by
    simp only [adjustFXTiers]
    rw [adjustDistribution_eq_reference _ _ _ (Or.inl rfl)]
    norm_num [referenceRedistribution, getDefaultData]
  refine ⟨rfl, e, by norm_num, by norm_num, ?_⟩
  rw [e]
  norm_num

/-! ## Currency conversion -/

/-- The rates of the engine are those of the specification, and are positive. -/
theorem exchangeRates_eq_reference (c : String) (h : c = "USD" ∨ c = "GBP" ∨ c = "EUR") :
    exchangeRates c = some (referenceRate c) ∧ 0 < referenceRate c := by
  rcases h with rfl | rfl | rfl <;> simp [exchangeRates, referenceRate] <;> norm_num

/-- A rate of the table is never 0. -/
theorem exchangeRates_ne_zero (c : String) (r : ℚ) (h : exchangeRates c = some r) : r ≠ 0 := by
  unfold exchangeRates at h
  split_ifs at h <;> simp at h <;> subst h <;> norm_num

/-- The conversion that `changeCurrency` performs between two different
currencies that both have a rate. -/
theorem changeCurrency_of_rates (d : Data) (newCurrency : String) (oldRate newRate : ℚ)
    (hne : d.customerInfo.currency ≠ newCurrency)
    (ho : exchangeRates d.customerInfo.currency = some oldRate)
    (hn : exchangeRates newCurrency = some newRate) :
    changeCurrency d newCurrency = some (convertSnapshot d newCurrency (newRate / oldRate)) := by
  have h0 : oldRate ≠ 0 := exchangeRates_ne_zero _ _ ho
  simp [changeCurrency, hne, ho, hn, jsDiv, h0]

/-- On a non-negative amount and factor, the conversion rounds the product to
2 decimals with halves away from zero. -/
theorem convertAmount_eq_roundHalfAway (x f : ℚ) (hx : 0 ≤ x) (hf : 0 ≤ f) :
    convertAmount x f = roundHalfAwayFromZero2 (x * f) := by
  unfold convertAmount roundHalfAwayFromZero2 mathRound
  rw [if_pos (mul_nonneg hx hf)]

/-- Claim C16, amended: over exact arithmetic, for two distinct currencies
among USD, GBP, EUR and a snapshot in the old one with non-negative monetary
fields, `changeCurrency(new)` replaces `totalPaymentValue` and each of the four
flat fees x by x * rate(new)/rate(old) rounded to 2 decimal places with halves
away from zero, with the rates USD 1.00, GBP 0.79, EUR 0.92, and sets the
currency to new. -/
theorem changeCurrency_converts (d : Data) (old new : String)
    (hold : old = "USD" ∨ old = "GBP" ∨ old = "EUR")
    (hnew : new = "USD" ∨ new = "GBP" ∨ new = "EUR")
    (hne : old ≠ new) (hcur : d.customerInfo.currency = old)
    (hv : 0 ≤ d.customerInfo.totalPaymentValue)
    (htl : 0 ≤ d.fees.tungsten.localRailFee) (htx : 0 ≤ d.fees.tungsten.crossBorderFee)
    (hcl : 0 ≤ d.fees.currentProvider.localRailFee)
    (hcx : 0 ≤ d.fees.currentProvider.crossBorderFee) :
    ∃ d' : Data, changeCurrency d new = some d'
      ∧ d'.customerInfo.totalPaymentValue
        = roundHalfAwayFromZero2
            (d.customerInfo.totalPaymentValue * referenceRate new / referenceRate old)
      ∧ d'.fees.tungsten.localRailFee
        = roundHalfAwayFromZero2
            (d.fees.tungsten.localRailFee * referenceRate new / referenceRate old)
      ∧ d'.fees.tungsten.crossBorderFee
        = roundHalfAwayFromZero2
            (d.fees.tungsten.crossBorderFee * referenceRate new / referenceRate old)
      ∧ d'.fees.currentProvider.localRailFee
        = roundHalfAwayFromZero2
            (d.fees.currentProvider.localRailFee * referenceRate new / referenceRate old)
      ∧ d'.fees.currentProvider.crossBorderFee
        = roundHalfAwayFromZero2
            (d.fees.currentProvider.crossBorderFee * referenceRate new / referenceRate old)
      ∧ d'.customerInfo.currency = new
      ∧ referenceRate "USD" = 1.00 ∧ referenceRate "GBP" = 0.79
      ∧ referenceRate "EUR" = 0.92 := by
  obtain ⟨ho, hopos⟩ := exchangeRates_eq_reference old hold
  obtain ⟨hn, hnpos⟩ := exchangeRates_eq_reference new hnew
  have hf : 0 ≤ referenceRate new / referenceRate old :=
    div_nonneg (le_of_lt hnpos) (le_of_lt hopos)
  subst hcur
  refine ⟨_, changeCurrency_of_rates d new _ _ hne ho hn, ?_, ?_, ?_, ?_, ?_, rfl, ?_, ?_, ?_⟩
  · simp only [convertSnapshot]
    rw [convertAmount_eq_roundHalfAway _ _ hv hf, mul_div_assoc]
  · simp only [convertSnapshot]
    rw [convertAmount_eq_roundHalfAway _ _ htl hf, mul_div_assoc]
  · simp only [convertSnapshot]
    rw [convertAmount_eq_roundHalfAway _ _ htx hf, mul_div_assoc]
  · simp only [convertSnapshot]
    rw [convertAmount_eq_roundHalfAway _ _ hcl hf, mul_div_assoc]
  · simp only [convertSnapshot]
    rw [convertAmount_eq_roundHalfAway _ _ hcx hf, mul_div_assoc]
  · simp [referenceRate]
    norm_num
  · simp [referenceRate]
    norm_num
  · simp [referenceRate]
    norm_num

/-- Witness of the amended claim C16: the default snapshot, in USD, converted to
GBP over exact arithmetic. -/
theorem changeCurrency_converts_witness :
    ∃ d' : Data, changeCurrency getDefaultData "GBP" = some d'
      ∧ d'.customerInfo.totalPaymentValue
        = roundHalfAwayFromZero2 (50000000 * referenceRate "GBP" / referenceRate "USD")
      ∧ d'.customerInfo.currency = "GBP" := by
  obtain ⟨d', h, hv, _, _, _, _, hc, _⟩ :=
    changeCurrency_converts getDefaultData "USD" "GBP" (Or.inl rfl) (Or.inr (Or.inl rfl))
      (by decide) rfl (by norm_num [getDefaultData]) (by norm_num [getDefaultData])
      (by norm_num [getDefaultData]) (by norm_num [getDefaultData])
      (by norm_num [getDefaultData])
  exact ⟨d', h, hv, hc⟩

/-- Claim C17: `changeCurrency` changes at most `totalPaymentValue`, the four
flat fees and the currency: `totalPaymentCount` and every percentage field
(fxMargins, cardRebate, the distribution percents, fxPercentOfCrossBorder) are
unchanged, and when the new currency is the current one the whole snapshot is
unchanged. A result is produced whenever both currencies have a rate. -/
theorem changeCurrency_frame (d : Data) (newCurrency : String) :
    (∀ d' : Data, changeCurrency d newCurrency = some d' →
        d'.customerInfo.totalPaymentCount = d.customerInfo.totalPaymentCount
          ∧ d'.customerInfo.paymentTypeDistribution = d.customerInfo.paymentTypeDistribution
          ∧ d'.customerInfo.paymentMethodDistribution = d.customerInfo.paymentMethodDistribution
          ∧ d'.customerInfo.fxPercentOfCrossBorder = d.customerInfo.fxPercentOfCrossBorder
          ∧ d'.customerInfo.fxVolume = d.customerInfo.fxVolume
          ∧ d'.fees.tungsten.fxMargins = d.fees.tungsten.fxMargins
          ∧ d'.fees.tungsten.cardRebate = d.fees.tungsten.cardRebate
          ∧ d'.fees.currentProvider.fxMargins = d.fees.currentProvider.fxMargins
          ∧ d'.fees.currentProvider.cardRebate = d.fees.currentProvider.cardRebate)
      ∧ (newCurrency = d.customerInfo.currency → changeCurrency d newCurrency = some d)
      ∧ ((exchangeRates d.customerInfo.currency).isSome → (exchangeRates newCurrency).isSome →
          (changeCurrency d newCurrency).isSome) := by
  refine ⟨?_, ?_, ?_⟩
  · intro d' h
    by_cases hc : d.customerInfo.currency = newCurrency
    · simp only [changeCurrency, hc, if_true, Option.some.injEq] at h
      subst h
      exact ⟨rfl, rfl, rfl, rfl, rfl, rfl, rfl, rfl, rfl⟩
    · simp only [changeCurrency, hc, if_false, Option.bind_eq_some, Option.map_eq_some'] at h
      obtain ⟨_, _, _, _, f, _, rfl⟩ := h
      exact ⟨rfl, rfl, rfl, rfl, rfl, rfl, rfl, rfl, rfl⟩
  · intro h
    simp [changeCurrency, h]
  · intro ho hn
    by_cases hc : d.customerInfo.currency = newCurrency
    · simp [changeCurrency, hc]
    · obtain ⟨ro, hro⟩ := Option.isSome_iff_exists.mp ho
      obtain ⟨rn, hrn⟩ := Option.isSome_iff_exists.mp hn
      rw [changeCurrency_of_rates d newCurrency ro rn hc hro hrn]
      rfl

/-- Witness of claim C17: converting the default snapshot to GBP produces a
snapshot with the same payment count and the same Tungsten card rebate. -/
theorem changeCurrency_frame_witness :
    ∃ d' : Data, changeCurrency getDefaultData "GBP" = some d'
      ∧ d'.customerInfo.totalPaymentCount = 1100000
      ∧ d'.fees.tungsten.cardRebate = 1.50 := by
  have h := changeCurrency_frame getDefaultData "GBP"
  have hs : (changeCurrency getDefaultData "GBP").isSome :=
    h.2.2 (by simp [exchangeRates, getDefaultData]) (by simp [exchangeRates])
  obtain ⟨d', hd'⟩ := Option.isSome_iff_exists.mp hs
  obtain ⟨h1, _, _, _, _, _, h7, _⟩ := h.1 d' hd'
  exact ⟨d', hd', h1, h7⟩

/-- Rounding moves a number by at most one half. -/
theorem mathRound_bounds (t : ℚ) : (mathRound t : ℚ) ≤ t + 1 / 2 ∧ t - 1 / 2 < (mathRound t : ℚ) := by
  unfold mathRound
  constructor
  · exact Int.floor_le _
  · have h := Int.lt_floor_add_one (t + 1 / 2)
    linarith

/-- Converting an amount at the factor 0.79/1.00 and back at the factor
1.00/0.79 returns it to within 0.02. -/
theorem convertAmount_round_trip (x : ℚ) :
    |convertAmount (convertAmount x (0.79 / 1.00)) (1.00 / 0.79) - x| ≤ 0.02 := by
  unfold convertAmount
  obtain ⟨a1, a2⟩ := mathRound_bounds (x * (0.79 / 1.00) * 100)
  obtain ⟨b1, b2⟩ :=
    mathRound_bounds ((mathRound (x * (0.79 / 1.00) * 100) : ℚ) / 100 * (1.00 / 0.79) * 100)
  rw [abs_le]
  constructor
  · norm_num at a1 a2 b1 b2 ⊢
    linarith
  · norm_num at a1 a2 b1 b2 ⊢
    linarith

/-- Claim C18: for a snapshot in USD, `changeCurrency('GBP')` followed by
`changeCurrency('USD')` returns `totalPaymentValue` and each of the four flat
fees to within 0.02 of its original value. -/
theorem changeCurrency_round_trip (d : Data) (h : d.customerInfo.currency = "USD") :
    ∃ d1 d2 : Data, changeCurrency d "GBP" = some d1 ∧ changeCurrency d1 "USD" = some d2
      ∧ |d2.customerInfo.totalPaymentValue - d.customerInfo.totalPaymentValue| ≤ 0.02
      ∧ |d2.fees.tungsten.localRailFee - d.fees.tungsten.localRailFee| ≤ 0.02
      ∧ |d2.fees.tungsten.crossBorderFee - d.fees.tungsten.crossBorderFee| ≤ 0.02
      ∧ |d2.fees.currentProvider.localRailFee - d.fees.currentProvider.localRailFee| ≤ 0.02
      ∧ |d2.fees.currentProvider.crossBorderFee - d.fees.currentProvider.crossBorderFee| ≤ 0.02
      ∧ d2.customerInfo.currency = "USD" := by
  have e1 : changeCurrency d "GBP" = some (convertSnapshot d "GBP" (0.79 / 1.00)) :=
    changeCurrency_of_rates d "GBP" 1.00 0.79 (by rw [h]; decide)
      (by rw [h]; simp [exchangeRates]) (by simp [exchangeRates])
  have e2 : changeCurrency (convertSnapshot d "GBP" (0.79 / 1.00)) "USD"
      = some (convertSnapshot (convertSnapshot d "GBP" (0.79 / 1.00)) "USD" (1.00 / 0.79)) :=
    changeCurrency_of_rates _ "USD" 0.79 1.00 (by simp [convertSnapshot])
      (by simp [convertSnapshot, exchangeRates]) (by simp [exchangeRates])
  exact ⟨_, _, e1, e2, convertAmount_round_trip _, convertAmount_round_trip _,
    convertAmount_round_trip _, convertAmount_round_trip _, convertAmount_round_trip _, rfl⟩

/-- Witness of claim C18: the round trip of the default snapshot, which is in
USD. -/
theorem changeCurrency_round_trip_witness :
    ∃ d1 d2 : Data, changeCurrency getDefaultData "GBP" = some d1
      ∧ changeCurrency d1 "USD" = some d2
      ∧ |d2.customerInfo.totalPaymentValue - 50000000| ≤ 0.02 := by
  obtain ⟨d1, d2, h1, h2, hv, _⟩ := changeCurrency_round_trip getDefaultData rfl
  exact ⟨d1, d2, h1, h2, hv⟩

/-! ## Validation -/

/-- Counterexample to claim C19 as stated: the default snapshot with
`localPercent` = 150 is reported valid, although that percentage is outside
[0,100] and the payment type distribution sums to 190. -/
theorem validate_accepts_out_of_range_type :
    (validate outOfRangeTypeSnapshot).valid = true
      ∧ outOfRangeTypeSnapshot.customerInfo.paymentTypeDistribution.localPercent = 150
      ∧ ¬ IsPercent outOfRangeTypeSnapshot.customerInfo.paymentTypeDistribution.localPercent
      ∧ ¬ (|outOfRangeTypeSnapshot.customerInfo.paymentTypeDistribution.localPercent
              + outOfRangeTypeSnapshot.customerInfo.paymentTypeDistribution.crossBorderPercent
              - 100| ≤ 0.01) := by
  refine ⟨?_, rfl, ?_, ?_⟩
  · norm_num [validate, outOfRangeTypeSnapshot, getDefaultData]
  · norm_num [IsPercent, outOfRangeTypeSnapshot, getDefaultData]
  · norm_num [outOfRangeTypeSnapshot, getDefaultData]

/-- On a typed snapshot, whose fields are finite numbers, a valid report means
that `totalPaymentValue` and `totalPaymentCount` are non-negative,
`fxPercentOfCrossBorder` lies in [0,100] and the three FX tier percentages sum
to 100 within 0.01. -/
theorem validate_sound (d : Data) (h : (validate d).valid = true) :
    0 ≤ d.customerInfo.totalPaymentValue ∧ 0 ≤ d.customerInfo.totalPaymentCount
      ∧ IsPercent d.customerInfo.fxPercentOfCrossBorder
      ∧ |d.customerInfo.fxVolume.distribution.tier1Percent
          + d.customerInfo.fxVolume.distribution.tier2Percent
          + d.customerInfo.fxVolume.distribution.tier3Percent - 100| ≤ 0.01 := by
  simp only [validate] at h
  split_ifs at h <;> simp at h
  have c1 : ¬ d.customerInfo.totalPaymentValue < 0 := by assumption
  have c2 : ¬ d.customerInfo.totalPaymentCount < 0 := by assumption
  have c3 : ¬ (d.customerInfo.fxPercentOfCrossBorder < 0
      ∨ d.customerInfo.fxPercentOfCrossBorder > 100) := by assumption
  have c4 : ¬ (|d.customerInfo.fxVolume.distribution.tier1Percent
      + d.customerInfo.fxVolume.distribution.tier2Percent
      + d.customerInfo.fxVolume.distribution.tier3Percent - 100| > 0.01) := by assumption
  exact ⟨not_lt.mp c1, not_lt.mp c2,
    ⟨not_lt.mp (fun hlt => c3 (Or.inl hlt)), not_lt.mp (fun hgt => c3 (Or.inr hgt))⟩,
    not_lt.mp c4⟩

/-- The default snapshot is reported valid and meets the four conditions. -/
theorem validate_sound_witness :
    (validate getDefaultData).valid = true
      ∧ 0 ≤ getDefaultData.customerInfo.totalPaymentValue
      ∧ IsPercent getDefaultData.customerInfo.fxPercentOfCrossBorder := by
  have hv : (validate getDefaultData).valid = true := by
    norm_num [validate, getDefaultData]
  have h := validate_sound getDefaultData hv
  exact ⟨hv, h.1, h.2.2.1⟩

/-! ## Fee updates -/

/-- The legacy names are remapped to the current field names. -/
theorem remapFeeKeys_legacy :
    remapFeeKeys (splitPath "localRail") = ["localRailFee"]
      ∧ remapFeeKeys (splitPath "localRailFee") = ["localRailFee"]
      ∧ remapFeeKeys (splitPath "crossBorder") = ["crossBorderFee"]
      ∧ remapFeeKeys (splitPath "crossBorderFee") = ["crossBorderFee"] := by
  decide

/-- Claim C20: for each provider p and value v, `updateFee(p, 'localRail', v)`
has the effect of `updateFee(p, 'localRailFee', v)` and
`updateFee(p, 'crossBorder', v)` that of `updateFee(p, 'crossBorderFee', v)`:
the named fee of p becomes v (0 when v is NaN), the key written is the current
field name and not the legacy one, and every other fee field of p, the other
provider and customerInfo are unchanged. -/
theorem updateFee_legacy_names (d : Data) (p : Provider) (v : Option ℚ) :
    updateFee d p "localRail" v = updateFee d p "localRailFee" v
      ∧ updateFee d p "crossBorder" v = updateFee d p "crossBorderFee" v
      ∧ updateFee d p "localRail" v
        = some { d with
            fees := d.fees.set p { d.fees.get p with localRailFee := v.getD 0 } }
      ∧ updateFee d p "crossBorder" v
        = some { d with
            fees := d.fees.set p { d.fees.get p with crossBorderFee := v.getD 0 } }
      ∧ remapFeeKeys (splitPath "localRail") = ["localRailFee"]
      ∧ remapFeeKeys (splitPath "crossBorder") = ["crossBorderFee"]
      ∧ (∀ d' : Data, updateFee d p "localRail" v = some d' →
          (d'.fees.get p).localRailFee = v.getD 0
            ∧ (d'.fees.get p).crossBorderFee = (d.fees.get p).crossBorderFee
            ∧ (d'.fees.get p).fxMargins = (d.fees.get p).fxMargins
            ∧ (d'.fees.get p).cardRebate = (d.fees.get p).cardRebate
            ∧ (∀ q : Provider, q ≠ p → d'.fees.get q = d.fees.get q)
            ∧ d'.customerInfo = d.customerInfo)
      ∧ (∀ d' : Data, updateFee d p "crossBorder" v = some d' →
          (d'.fees.get p).crossBorderFee = v.getD 0
            ∧ (d'.fees.get p).localRailFee = (d.fees.get p).localRailFee
            ∧ (d'.fees.get p).fxMargins = (d.fees.get p).fxMargins
            ∧ (d'.fees.get p).cardRebate = (d.fees.get p).cardRebate
            ∧ (∀ q : Provider, q ≠ p → d'.fees.get q = d.fees.get q)
            ∧ d'.customerInfo = d.customerInfo)
      ∧ (none : Option ℚ).getD 0 = 0 ∧ (∀ x : ℚ, (some x).getD 0 = x) := by
  obtain ⟨k1, k2, k3, k4⟩ := remapFeeKeys_legacy
  have e1 : updateFee d p "localRail" v
      = some { d with fees := d.fees.set p { d.fees.get p with localRailFee := v.getD 0 } } := by
    simp [updateFee, k1, assignFeePath]
  have e2 : updateFee d p "localRailFee" v
      = some { d with fees := d.fees.set p { d.fees.get p with localRailFee := v.getD 0 } } := by
    simp [updateFee, k2, assignFeePath]
  have e3 : updateFee d p "crossBorder" v
      = some { d with fees := d.fees.set p { d.fees.get p with crossBorderFee := v.getD 0 } } := by
    simp [updateFee, k3, assignFeePath]
  have e4 : updateFee d p "crossBorderFee" v
      = some { d with fees := d.fees.set p { d.fees.get p with crossBorderFee := v.getD 0 } } := by
    simp [updateFee, k4, assignFeePath]
  refine ⟨e1.trans e2.symm, e3.trans e4.symm, e1, e3, k1, k3, ?_, ?_, rfl, fun _ => rfl⟩
  · intro d' h
    rw [e1] at h
    cases h
    cases p
    · refine ⟨rfl, rfl, rfl, rfl, ?_, rfl⟩
      intro q hq
      cases q
      · exact absurd rfl hq
      · rfl
    · refine ⟨rfl, rfl, rfl, rfl, ?_, rfl⟩
      intro q hq
      cases q
      · rfl
      · exact absurd rfl hq
  · intro d' h
    rw [e3] at h
    cases h
    cases p
    · refine ⟨rfl, rfl, rfl, rfl, ?_, rfl⟩
      intro q hq
      cases q
      · exact absurd rfl hq
      · rfl
    · refine ⟨rfl, rfl, rfl, rfl, ?_, rfl⟩
      intro q hq
      cases q
      · rfl
      · exact absurd rfl hq

/-- Witness of claim C20: the Tungsten local rail fee of the default snapshot
set to 0.75 through the legacy name. -/
theorem updateFee_legacy_names_witness :
    ∃ d' : Data, updateFee getDefaultData Provider.tungsten "localRail" (some 0.75) = some d'
      ∧ (d'.fees.get Provider.tungsten).localRailFee = 0.75
      ∧ (d'.fees.get Provider.tungsten).crossBorderFee = 2.00
      ∧ d'.fees.get Provider.currentProvider = getDefaultData.fees.get Provider.currentProvider
      ∧ d'.customerInfo = getDefaultData.customerInfo := by
  have h := updateFee_legacy_names getDefaultData Provider.tungsten (some 0.75)
  obtain ⟨f1, f2, _, _, f5, f6⟩ := h.2.2.2.2.2.2.1 _ h.2.2.1
  exact ⟨_, h.2.2.1, f1, f2, f5 Provider.currentProvider (by decide), f6⟩

/-! ## Further properties of the distribution allocator -/

/-- The allocator is its proportional step followed by the residual
correction into slot 3. -/
theorem adjustDistribution_eq_steps (dist : FXDistribution) (k : ℕ) (v : ℚ) :
    adjustDistribution dist k v = residualCorrection 3 (proportionalStep dist k v) := by
  simp only [adjustDistribution, residualCorrection, proportionalStep, setTier, getTier]
  rfl

/-- The proportional step alone computes the reference redistribution. -/
theorem proportionalStep_eq_reference (dist : FXDistribution) (k : ℕ) (v : ℚ)
    (hk : k = 1 ∨ k = 2 ∨ k = 3) :
    proportionalStep dist k v = referenceRedistribution dist k v := by
  rcases hk with rfl | rfl | rfl
  · by_cases h : 0 < dist.tier2Percent + dist.tier3Percent <;>
      simp [proportionalStep, referenceRedistribution, setTier, getTier, h]
  · by_cases h : 0 < dist.tier1Percent + dist.tier3Percent <;>
      simp [proportionalStep, referenceRedistribution, setTier, getTier, h]
  · by_cases h : 0 < dist.tier1Percent + dist.tier2Percent <;>
      simp [proportionalStep, referenceRedistribution, setTier, getTier, h]

/-- The two shares of the reference redistribution add up to the remainder,
vanish with it, and are non-negative on non-negative inputs. -/
theorem shares_spec (a b r : ℚ) :
    ∃ x y : ℚ,
      (if a + b > 0 then (a / (a + b) * r, b / (a + b) * r) else (r / 2, r / 2)) = (x, y)
        ∧ x + y = r ∧ (r = 0 → x = 0 ∧ y = 0)
        ∧ (0 ≤ a → 0 ≤ b → 0 ≤ r → 0 ≤ x ∧ 0 ≤ y) := by
  by_cases h : 0 < a + b
  · refine ⟨a / (a + b) * r, b / (a + b) * r, by simp [h], proportional_shares_add a b r h, ?_, ?_⟩
    · intro hr
      simp [hr]
    · intro ha hb hr
      exact ⟨mul_nonneg (div_nonneg ha (le_of_lt h)) hr, mul_nonneg (div_nonneg hb (le_of_lt h)) hr⟩
  · refine ⟨r / 2, r / 2, by simp [h], by ring, ?_, ?_⟩
    · intro hr
      simp [hr]
    · intro _ _ hr
      exact ⟨by linarith, by linarith⟩

/-- Shares that already add up to a non-negative remainder, and vanish with
it, are kept by the redistribution. -/
theorem shares_fixed (x y r : ℚ) (hr : 0 ≤ r) (hsum : x + y = r) (h0 : r = 0 → x = 0 ∧ y = 0) :
    (if x + y > 0 then (x / (x + y) * r, y / (x + y) * r) else (r / 2, r / 2)) = (x, y) := by
  rw [hsum]
  by_cases hz : r = 0
  · obtain ⟨hx, hy⟩ := h0 hz
    simp [hz, hx, hy]
  · have hpos : 0 < r := lt_of_le_of_ne hr (Ne.symm hz)
    simp [hpos, hz]

/-- The reference redistribution is idempotent for a new value of at most 100. -/
theorem referenceRedistribution_idempotent (dist : FXDistribution) (k : ℕ) (v : ℚ)
    (hk : k = 1 ∨ k = 2 ∨ k = 3) (hv : v ≤ 100) :
    referenceRedistribution (referenceRedistribution dist k v) k v
      = referenceRedistribution dist k v := by
  have hr : (0 : ℚ) ≤ 100 - v := by linarith
  rcases hk with rfl | rfl | rfl
  · obtain ⟨x, y, e, hsum, h0, _⟩ := shares_spec dist.tier2Percent dist.tier3Percent (100 - v)
    have e1 : referenceRedistribution dist 1 v
        = { tier1Percent := v, tier2Percent := x, tier3Percent := y } := by
      simp [referenceRedistribution, e]
    rw [e1]
    simp [referenceRedistribution, shares_fixed x y (100 - v) hr hsum h0]
  · obtain ⟨x, y, e, hsum, h0, _⟩ := shares_spec dist.tier1Percent dist.tier3Percent (100 - v)
    have e1 : referenceRedistribution dist 2 v
        = { tier1Percent := x, tier2Percent := v, tier3Percent := y } := by
      simp [referenceRedistribution, e]
    rw [e1]
    simp [referenceRedistribution, shares_fixed x y (100 - v) hr hsum h0]
  · obtain ⟨x, y, e, hsum, h0, _⟩ := shares_spec dist.tier1Percent dist.tier2Percent (100 - v)
    have e1 : referenceRedistribution dist 3 v
        = { tier1Percent := x, tier2Percent := y, tier3Percent := v } := by
      simp [referenceRedistribution, e]
    rw [e1]
    simp [referenceRedistribution, shares_fixed x y (100 - v) hr hsum h0]

/-- Claim C23: over exact arithmetic, for a tier index k among 1, 2, 3, every v
and every current distribution, `adjustFXTiers(k, v)` leaves the three tiers
summing to exactly 100; the residual test fails on the total of the
proportional step, so the correction branch is not taken and the result is the
same whichever slot the residual would be added to. -/
theorem adjustFXTiers_sum_exact (d : Data) (k : ℕ) (v : ℚ) (hk : k = 1 ∨ k = 2 ∨ k = 3) :
    (adjustFXTiers d k v).customerInfo.fxVolume.distribution.tier1Percent
        + (adjustFXTiers d k v).customerInfo.fxVolume.distribution.tier2Percent
        + (adjustFXTiers d k v).customerInfo.fxVolume.distribution.tier3Percent = 100
      ∧ ¬ (|(proportionalStep d.customerInfo.fxVolume.distribution k v).tier1Percent
            + (proportionalStep d.customerInfo.fxVolume.distribution k v).tier2Percent
            + (proportionalStep d.customerInfo.fxVolume.distribution k v).tier3Percent
            - 100| > 0.01)
      ∧ (adjustFXTiers d k v).customerInfo.fxVolume.distribution
        = proportionalStep d.customerInfo.fxVolume.distribution k v
      ∧ ∀ slot : ℕ,
          residualCorrection slot (proportionalStep d.customerInfo.fxVolume.distribution k v)
            = (adjustFXTiers d k v).customerInfo.fxVolume.distribution := by
  have hsum : (proportionalStep d.customerInfo.fxVolume.distribution k v).tier1Percent
      + (proportionalStep d.customerInfo.fxVolume.distribution k v).tier2Percent
      + (proportionalStep d.customerInfo.fxVolume.distribution k v).tier3Percent = 100 := by
    rw [proportionalStep_eq_reference _ _ _ hk]
    exact referenceRedistribution_sum _ _ _
  have hg := residual_guard_false _ hsum
  have hres : ∀ slot : ℕ,
      residualCorrection slot (proportionalStep d.customerInfo.fxVolume.distribution k v)
        = proportionalStep d.customerInfo.fxVolume.distribution k v := by
    intro slot
    simp only [residualCorrection]
    rw [if_neg hg]
  have hadj : (adjustFXTiers d k v).customerInfo.fxVolume.distribution
      = proportionalStep d.customerInfo.fxVolume.distribution k v := by
    simp only [adjustFXTiers]
    rw [adjustDistribution_eq_steps, hres 3]
  refine ⟨?_, hg, hadj, ?_⟩
  · rw [hadj]
    exact hsum
  · intro slot
    rw [hadj]
    exact hres slot

/-- Witness of claim C23: tier 3 of the default snapshot moved to 250, a value
outside [0,100]. -/
theorem adjustFXTiers_sum_exact_witness :
    (adjustFXTiers getDefaultData 3 250).customerInfo.fxVolume.distribution.tier1Percent
        + (adjustFXTiers getDefaultData 3 250).customerInfo.fxVolume.distribution.tier2Percent
        + (adjustFXTiers getDefaultData 3 250).customerInfo.fxVolume.distribution.tier3Percent
      = 100 :=
  (adjustFXTiers_sum_exact getDefaultData 3 250 (Or.inr (Or.inr rfl))).1

/-- Claim C24, amended: over exact arithmetic `adjustFXTiers` is idempotent for
in-range values: for k among 1, 2, 3, every v of at most 100 and every current
distribution, calling `adjustFXTiers(k, v)` twice in a row leaves the same
distribution (and snapshot) as calling it once. -/
theorem adjustFXTiers_idempotent (d : Data) (k : ℕ) (v : ℚ) (hk : k = 1 ∨ k = 2 ∨ k = 3)
    (hv : v ≤ 100) :
    adjustFXTiers (adjustFXTiers d k v) k v = adjustFXTiers d k v := by
  have e : adjustDistribution (adjustDistribution d.customerInfo.fxVolume.distribution k v) k v
      = adjustDistribution d.customerInfo.fxVolume.distribution k v := by
    rw [adjustDistribution_eq_reference _ _ _ hk, adjustDistribution_eq_reference _ _ _ hk]
    exact referenceRedistribution_idempotent _ _ _ hk hv
  simp only [adjustFXTiers, e]

/-- Witness of the amended claim C24: tier 2 of the default snapshot moved to
10, twice, over exact arithmetic. -/
theorem adjustFXTiers_idempotent_witness :
    adjustFXTiers (adjustFXTiers getDefaultData 2 10) 2 10 = adjustFXTiers getDefaultData 2 10 :=
  adjustFXTiers_idempotent getDefaultData 2 10 (Or.inr (Or.inl rfl)) (by norm_num)

/-- Claim C25: `adjustFXTiers` keeps every tier a valid percentage: when the
three current tiers are non-negative and v is in [0,100], each of the three
tier percentages lies in [0,100] after `adjustFXTiers(k, v)`. -/
theorem adjustFXTiers_tiers_in_range (d : Data) (k : ℕ) (v : ℚ) (hk : k = 1 ∨ k = 2 ∨ k = 3)
    (hv0 : 0 ≤ v) (hv100 : v ≤ 100)
    (h1 : 0 ≤ d.customerInfo.fxVolume.distribution.tier1Percent)
    (h2 : 0 ≤ d.customerInfo.fxVolume.distribution.tier2Percent)
    (h3 : 0 ≤ d.customerInfo.fxVolume.distribution.tier3Percent) :
    IsPercent (adjustFXTiers d k v).customerInfo.fxVolume.distribution.tier1Percent
      ∧ IsPercent (adjustFXTiers d k v).customerInfo.fxVolume.distribution.tier2Percent
      ∧ IsPercent (adjustFXTiers d k v).customerInfo.fxVolume.distribution.tier3Percent := by
  have hr : (0 : ℚ) ≤ 100 - v := by linarith
  have hadj : (adjustFXTiers d k v).customerInfo.fxVolume.distribution
      = referenceRedistribution d.customerInfo.fxVolume.distribution k v := by
    simp only [adjustFXTiers]
    exact adjustDistribution_eq_reference _ _ _ hk
  rw [hadj]
  unfold IsPercent
  rcases hk with rfl | rfl | rfl
  · obtain ⟨x, y, e, hsum, _, hnn⟩ :=
      shares_spec d.customerInfo.fxVolume.distribution.tier2Percent
        d.customerInfo.fxVolume.distribution.tier3Percent (100 - v)
    obtain ⟨hx, hy⟩ := hnn h2 h3 hr
    have e1 : referenceRedistribution d.customerInfo.fxVolume.distribution 1 v
        = { tier1Percent := v, tier2Percent := x, tier3Percent := y } := by
      simp [referenceRedistribution, e]
    rw [e1]
    exact ⟨⟨hv0, hv100⟩, ⟨hx, by linarith⟩, ⟨hy, by linarith⟩⟩
  · obtain ⟨x, y, e, hsum, _, hnn⟩ :=
      shares_spec d.customerInfo.fxVolume.distribution.tier1Percent
        d.customerInfo.fxVolume.distribution.tier3Percent (100 - v)
    obtain ⟨hx, hy⟩ := hnn h1 h3 hr
    have e1 : referenceRedistribution d.customerInfo.fxVolume.distribution 2 v
        = { tier1Percent := x, tier2Percent := v, tier3Percent := y } := by
      simp [referenceRedistribution, e]
    rw [e1]
    exact ⟨⟨hx, by linarith⟩, ⟨hv0, hv100⟩, ⟨hy, by linarith⟩⟩
  · obtain ⟨x, y, e, hsum, _, hnn⟩ :=
      shares_spec d.customerInfo.fxVolume.distribution.tier1Percent
        d.customerInfo.fxVolume.distribution.tier2Percent (100 - v)
    obtain ⟨hx, hy⟩ := hnn h1 h2 hr
    have e1 : referenceRedistribution d.customerInfo.fxVolume.distribution 3 v
        = { tier1Percent := x, tier2Percent := y, tier3Percent := v } := by
      simp [referenceRedistribution, e]
    rw [e1]
    exact ⟨⟨hx, by linarith⟩, ⟨hy, by linarith⟩, ⟨hv0, hv100⟩⟩

/-- Witness of claim C25: tier 1 of the default snapshot moved to 100. -/
theorem adjustFXTiers_tiers_in_range_witness :
    IsPercent (adjustFXTiers getDefaultData 1 100).customerInfo.fxVolume.distribution.tier1Percent
      ∧ IsPercent
        (adjustFXTiers getDefaultData 1 100).customerInfo.fxVolume.distribution.tier2Percent
      ∧ IsPercent
        (adjustFXTiers getDefaultData 1 100).customerInfo.fxVolume.distribution.tier3Percent :=
  adjustFXTiers_tiers_in_range getDefaultData 1 100 (Or.inl rfl) (by norm_num) (by norm_num)
    (by norm_num [getDefaultData]) (by norm_num [getDefaultData]) (by norm_num [getDefaultData])

/-! ## Further properties of the payment breakdown -/

/-- A non-negative integer, seen as a rational, is a natural number. -/
theorem exists_nat_of_nonneg_int (z : ℤ) (h : 0 ≤ z) : ∃ m : ℕ, (z : ℚ) = (m : ℚ) := by
  refine ⟨z.toNat, ?_⟩
  rw [← Int.cast_natCast, Int.toNat_of_nonneg h]

/-- Claim C26: for a snapshot with a non-negative integer `totalPaymentCount`
and railPercent, localPercent in [0,100], every count of the breakdown is a
non-negative integer bounded by its parent: 0 <= method.rail.count <=
totalPaymentCount, method.card.count >= 0, 0 <= rails.local.count <=
method.rail.count and rails.crossBorder.count >= 0. -/
theorem breakdown_counts_bounded (d : Data) (n : ℕ)
    (hn : d.customerInfo.totalPaymentCount = n)
    (hr : IsPercent d.customerInfo.paymentMethodDistribution.railPercent)
    (hl : IsPercent d.customerInfo.paymentTypeDistribution.localPercent) :
    (∃ m : ℕ, (calculatePaymentBreakdown d).method.rail.count = m)
      ∧ (calculatePaymentBreakdown d).method.rail.count ≤ d.customerInfo.totalPaymentCount
      ∧ (∃ m : ℕ, (calculatePaymentBreakdown d).method.card.count = m)
      ∧ (∃ m : ℕ, (calculatePaymentBreakdown d).rails.local_.count = m)
      ∧ (calculatePaymentBreakdown d).rails.local_.count
        ≤ (calculatePaymentBreakdown d).method.rail.count
      ∧ (∃ m : ℕ, (calculatePaymentBreakdown d).rails.crossBorder.count = m)
      ∧ 0 ≤ (calculatePaymentBreakdown d).method.rail.count
      ∧ 0 ≤ (calculatePaymentBreakdown d).method.card.count
      ∧ 0 ≤ (calculatePaymentBreakdown d).rails.local_.count
      ∧ 0 ≤ (calculatePaymentBreakdown d).rails.crossBorder.count := by
  have hn0 : (0 : ℚ) ≤ (n : ℚ) := Nat.cast_nonneg n
  have hrf0 : 0 ≤ d.customerInfo.paymentMethodDistribution.railPercent / 100 :=
    div_nonneg hr.1 (by norm_num)
  have hrf1 : d.customerInfo.paymentMethodDistribution.railPercent / 100 ≤ 1 := by
    rw [div_le_one (by norm_num)]
    exact hr.2
  have hlf0 : 0 ≤ d.customerInfo.paymentTypeDistribution.localPercent / 100 :=
    div_nonneg hl.1 (by norm_num)
  have hlf1 : d.customerInfo.paymentTypeDistribution.localPercent / 100 ≤ 1 := by
    rw [div_le_one (by norm_num)]
    exact hl.2
  have z1 : 0 ≤ mathRound ((n : ℚ) * (d.customerInfo.paymentMethodDistribution.railPercent / 100)) :=
    mathRound_nonneg _ (mul_nonneg hn0 hrf0)
  have z1le : mathRound ((n : ℚ) * (d.customerInfo.paymentMethodDistribution.railPercent / 100))
      ≤ (n : ℤ) :=
    mathRound_le_of_le _ _ (by
      push_cast
      exact mul_le_of_le_one_right hn0 hrf1)
  have z1q : (0 : ℚ) ≤ (mathRound ((n : ℚ)
      * (d.customerInfo.paymentMethodDistribution.railPercent / 100)) : ℚ) := by
    exact_mod_cast z1
  have z2 : 0 ≤ mathRound ((mathRound ((n : ℚ)
      * (d.customerInfo.paymentMethodDistribution.railPercent / 100)) : ℚ)
      * (d.customerInfo.paymentTypeDistribution.localPercent / 100)) :=
    mathRound_nonneg _ (mul_nonneg z1q hlf0)
  have z2le : mathRound ((mathRound ((n : ℚ)
      * (d.customerInfo.paymentMethodDistribution.railPercent / 100)) : ℚ)
      * (d.customerInfo.paymentTypeDistribution.localPercent / 100))
      ≤ mathRound ((n : ℚ) * (d.customerInfo.paymentMethodDistribution.railPercent / 100)) :=
    mathRound_le_of_le _ _ (mul_le_of_le_one_right z1q hlf1)
  have c1 : (0 : ℤ) ≤ (n : ℤ) - mathRound ((n : ℚ)
      * (d.customerInfo.paymentMethodDistribution.railPercent / 100)) := by omega
  have c2 : (0 : ℤ) ≤ mathRound ((n : ℚ)
      * (d.customerInfo.paymentMethodDistribution.railPercent / 100))
      - mathRound ((mathRound ((n : ℚ)
        * (d.customerInfo.paymentMethodDistribution.railPercent / 100)) : ℚ)
        * (d.customerInfo.paymentTypeDistribution.localPercent / 100)) := by omega
  obtain ⟨m1, e1⟩ := exists_nat_of_nonneg_int _ z1
  obtain ⟨m2, e2⟩ := exists_nat_of_nonneg_int _ c1
  obtain ⟨m3, e3⟩ := exists_nat_of_nonneg_int _ z2
  obtain ⟨m4, e4⟩ := exists_nat_of_nonneg_int _ c2
  simp only [calculatePaymentBreakdown, hn]
  refine ⟨⟨m1, e1⟩, ?_, ⟨m2, ?_⟩, ⟨m3, e3⟩, ?_, ⟨m4, ?_⟩, z1q, ?_, ?_, ?_⟩
  · exact_mod_cast z1le
  · rw [← e2]
    push_cast
    ring
  · exact_mod_cast z2le
  · rw [← e4]
    push_cast
    ring
  · rw [sub_nonneg]
    exact_mod_cast z1le
  · exact_mod_cast z2
  · rw [sub_nonneg]
    exact_mod_cast z2le

/-- Witness of claim C26: the default snapshot, with 1,100,000 payments. -/
theorem breakdown_counts_bounded_witness :
    (calculatePaymentBreakdown getDefaultData).method.rail.count
        ≤ getDefaultData.customerInfo.totalPaymentCount
      ∧ (calculatePaymentBreakdown getDefaultData).rails.local_.count
        ≤ (calculatePaymentBreakdown getDefaultData).method.rail.count
      ∧ 0 ≤ (calculatePaymentBreakdown getDefaultData).rails.crossBorder.count := by
  have h := breakdown_counts_bounded getDefaultData 1100000
    (by norm_num [getDefaultData]) (by norm_num [IsPercent, getDefaultData])
    (by norm_num [IsPercent, getDefaultData])
  exact ⟨h.2.1, h.2.2.2.2.1, h.2.2.2.2.2.2.2.2.2⟩

/-- Claim C27: the display-only type split of `calculatePaymentBreakdown`
conserves counts: type.local.count + type.crossBorder.count =
totalPaymentCount, the cross-border share of the card count being the remainder
of its rounded local share. -/
theorem type_split_count_conservation (d : Data) :
    (calculatePaymentBreakdown d).type.local_.count
        + (calculatePaymentBreakdown d).type.crossBorder.count
      = d.customerInfo.totalPaymentCount
      ∧ (calculatePaymentBreakdown d).type.crossBorder.count
        = (calculatePaymentBreakdown d).rails.crossBorder.count
          + ((calculatePaymentBreakdown d).method.card.count
            - (mathRound ((calculatePaymentBreakdown d).method.card.count
                * (d.customerInfo.paymentTypeDistribution.localPercent / 100)) : ℚ)) := by
  refine ⟨?_, rfl⟩
  simp only [calculatePaymentBreakdown]
  ring

/-! ## Further properties of the savings -/

/-- A guarded percentage of a zero numerator is the finite number 0. -/
theorem guarded_ratio_percent_zero (x : ℚ) :
    (if x > 0 then (jsDiv (0 : ℚ) x).map (fun q => q * 100) else some 0) = some 0 := by
  by_cases h : x > 0
  · have hne : x ≠ 0 := ne_of_gt h
    simp [jsDiv, h, hne]
  · simp [h]

/-- Claim C28: when the two fee schedules are identical, `getResults` reports
zero for every costs.savings category, for costs.savingsPercentage, for
incentives.differential and incentives.increasePercentage, and for
totalAnnualBenefit, whatever customerInfo holds. -/
theorem identical_fees_no_savings (d : Data) (h : d.fees.tungsten = d.fees.currentProvider) :
    (getResults d).costs.savings.localRail = 0
      ∧ (getResults d).costs.savings.crossBorderRail = 0
      ∧ (getResults d).costs.savings.rails = 0
      ∧ (getResults d).costs.savings.fx = 0
      ∧ (getResults d).costs.savings.total = 0
      ∧ (getResults d).costs.savingsPercentage = some 0
      ∧ (getResults d).incentives.differential = 0
      ∧ (getResults d).incentives.increasePercentage = some 0
      ∧ (getResults d).totalAnnualBenefit = 0 := by
  have e : calculateProviderCosts d Provider.tungsten
      = calculateProviderCosts d Provider.currentProvider := by
    simp only [calculateProviderCosts, Fees.get, h]
  refine ⟨?_, ?_, ?_, ?_, ?_, ?_, ?_, ?_, ?_⟩
  · simp only [getResults, calculateSavings, e, sub_self]
  · simp only [getResults, calculateSavings, e, sub_self]
  · simp only [getResults, calculateSavings, e, sub_self]
  · simp only [getResults, calculateSavings, e, sub_self]
  · simp only [getResults, calculateSavings, e, sub_self]
  · simp only [getResults, calculateSavings, e, sub_self]
    exact guarded_ratio_percent_zero _
  · simp only [getResults, calculateSavings, e, sub_self]
  · simp only [getResults, calculateSavings, e, sub_self]
    exact guarded_ratio_percent_zero _
  · simp only [getResults, calculateSavings, e, sub_self, add_zero]

/-- Witness of claim C28: the default snapshot with both schedules equal to
the current provider's. -/
theorem identical_fees_no_savings_witness :
    (getResults identicalFeesSnapshot).costs.savings.total = 0
      ∧ (getResults identicalFeesSnapshot).costs.savingsPercentage = some 0
      ∧ (getResults identicalFeesSnapshot).totalAnnualBenefit = 0 := by
  have h := identical_fees_no_savings identicalFeesSnapshot rfl
  exact ⟨h.2.2.2.2.1, h.2.2.2.2.2.1, h.2.2.2.2.2.2.2.2⟩

/-- The benefit, as the sum of fee differences weighted by non-negative
volumes, does not grow when Tungsten's fees grow, its rebate shrinks, the
current provider's fees shrink or its rebate grows. -/
theorem weighted_differences_mono
    (lc cc v1 v2 v3 cv cl tl cx tx c1 t1 c2 t2 c3 t3 cr tr : ℚ)
    (cl' tl' cx' tx' c1' t1' c2' t2' c3' t3' cr' tr' : ℚ)
    (hlc : 0 ≤ lc) (hcc : 0 ≤ cc) (hv1 : 0 ≤ v1) (hv2 : 0 ≤ v2) (hv3 : 0 ≤ v3) (hcv : 0 ≤ cv)
    (htl : tl ≤ tl') (htx : tx ≤ tx') (ht1 : t1 ≤ t1') (ht2 : t2 ≤ t2') (ht3 : t3 ≤ t3')
    (htr : tr' ≤ tr)
    (hcl : cl' ≤ cl) (hcx : cx' ≤ cx) (hc1 : c1' ≤ c1) (hc2 : c2' ≤ c2) (hc3 : c3' ≤ c3)
    (hcr : cr ≤ cr') :
    (lc * cl' + cc * cx' + (v1 * (c1' / 100) + v2 * (c2' / 100) + v3 * (c3' / 100)))
        - (lc * tl' + cc * tx' + (v1 * (t1' / 100) + v2 * (t2' / 100) + v3 * (t3' / 100)))
        + (cv * (tr' / 100) - cv * (cr' / 100))
      ≤ (lc * cl + cc * cx + (v1 * (c1 / 100) + v2 * (c2 / 100) + v3 * (c3 / 100)))
        - (lc * tl + cc * tx + (v1 * (t1 / 100) + v2 * (t2 / 100) + v3 * (t3 / 100)))
        + (cv * (tr / 100) - cv * (cr / 100)) := by
  have a1 := mul_le_mul_of_nonneg_left htl hlc
  have a2 := mul_le_mul_of_nonneg_left htx hcc
  have a3 := mul_le_mul_of_nonneg_left ht1 hv1
  have a4 := mul_le_mul_of_nonneg_left ht2 hv2
  have a5 := mul_le_mul_of_nonneg_left ht3 hv3
  have a6 := mul_le_mul_of_nonneg_left htr hcv
  have b1 := mul_le_mul_of_nonneg_left hcl hlc
  have b2 := mul_le_mul_of_nonneg_left hcx hcc
  have b3 := mul_le_mul_of_nonneg_left hc1 hv1
  have b4 := mul_le_mul_of_nonneg_left hc2 hv2
  have b5 := mul_le_mul_of_nonneg_left hc3 hv3
  have b6 := mul_le_mul_of_nonneg_left hcr hcv
  linarith

/-- The card value of the breakdown is non-negative for inputs in range. -/
theorem card_value_nonneg (d : Data) (h : CustomerInfoInRange d.customerInfo) :
    0 ≤ (calculatePaymentBreakdown d).method.card.value := by
  obtain ⟨hv, _, _, _, _, hcp, _⟩ := h
  simp only [calculatePaymentBreakdown]
  exact mul_nonneg hv (div_nonneg hcp.1 (by norm_num))

/-- Claim C29: `totalAnnualBenefit` is monotone in the fee schedules. For a
snapshot with non-negative value and count and every customer percentage in
[0,100], a second snapshot with the same customer data whose Tungsten fees
(localRailFee, crossBorderFee, fxMargins tiers) are at least as high, whose
Tungsten cardRebate is at most as high, whose current-provider fees are at most
as high and whose current-provider cardRebate is at least as high has a
totalAnnualBenefit that is not larger. -/
theorem totalAnnualBenefit_monotone (d d' : Data) (hc : d'.customerInfo = d.customerInfo)
    (hr : CustomerInfoInRange d.customerInfo)
    (htl : d.fees.tungsten.localRailFee ≤ d'.fees.tungsten.localRailFee)
    (htx : d.fees.tungsten.crossBorderFee ≤ d'.fees.tungsten.crossBorderFee)
    (ht1 : d.fees.tungsten.fxMargins.tier1 ≤ d'.fees.tungsten.fxMargins.tier1)
    (ht2 : d.fees.tungsten.fxMargins.tier2 ≤ d'.fees.tungsten.fxMargins.tier2)
    (ht3 : d.fees.tungsten.fxMargins.tier3 ≤ d'.fees.tungsten.fxMargins.tier3)
    (htr : d'.fees.tungsten.cardRebate ≤ d.fees.tungsten.cardRebate)
    (hcl : d'.fees.currentProvider.localRailFee ≤ d.fees.currentProvider.localRailFee)
    (hcx : d'.fees.currentProvider.crossBorderFee ≤ d.fees.currentProvider.crossBorderFee)
    (hc1 : d'.fees.currentProvider.fxMargins.tier1 ≤ d.fees.currentProvider.fxMargins.tier1)
    (hc2 : d'.fees.currentProvider.fxMargins.tier2 ≤ d.fees.currentProvider.fxMargins.tier2)
    (hc3 : d'.fees.currentProvider.fxMargins.tier3 ≤ d.fees.currentProvider.fxMargins.tier3)
    (hcr : d.fees.currentProvider.cardRebate ≤ d'.fees.currentProvider.cardRebate) :
    (getResults d').totalAnnualBenefit ≤ (getResults d).totalAnnualBenefit := by
  have hb : calculatePaymentBreakdown d' = calculatePaymentBreakdown d := by
    simp only [calculatePaymentBreakdown, hc]
  have hf : calculateFXVolumes d' = calculateFXVolumes d := by
    simp only [calculateFXVolumes, hb, hc]
  obtain ⟨hlc, hcc⟩ := rails_counts_nonneg d hr
  obtain ⟨hv1, hv2, hv3⟩ := fxVolumes_nonneg d hr
  have hcv := card_value_nonneg d hr
  have key := weighted_differences_mono _ _ _ _ _ _
    d.fees.currentProvider.localRailFee d.fees.tungsten.localRailFee
    d.fees.currentProvider.crossBorderFee d.fees.tungsten.crossBorderFee
    d.fees.currentProvider.fxMargins.tier1 d.fees.tungsten.fxMargins.tier1
    d.fees.currentProvider.fxMargins.tier2 d.fees.tungsten.fxMargins.tier2
    d.fees.currentProvider.fxMargins.tier3 d.fees.tungsten.fxMargins.tier3
    d.fees.currentProvider.cardRebate d.fees.tungsten.cardRebate
    d'.fees.currentProvider.localRailFee d'.fees.tungsten.localRailFee
    d'.fees.currentProvider.crossBorderFee d'.fees.tungsten.crossBorderFee
    d'.fees.currentProvider.fxMargins.tier1 d'.fees.tungsten.fxMargins.tier1
    d'.fees.currentProvider.fxMargins.tier2 d'.fees.tungsten.fxMargins.tier2
    d'.fees.currentProvider.fxMargins.tier3 d'.fees.tungsten.fxMargins.tier3
    d'.fees.currentProvider.cardRebate d'.fees.tungsten.cardRebate
    hlc hcc hv1 hv2 hv3 hcv htl htx ht1 ht2 ht3 htr hcl hcx hc1 hc2 hc3 hcr
  simp only [getResults, calculateSavings, calculateProviderCosts, Fees.get, hb, hf]
  exact key

/-- Witness of claim C29: lowering the Tungsten card rebate of the snapshot
with the raised rebate back to the default does not raise the benefit. -/
theorem totalAnnualBenefit_monotone_witness :
    (getResults getDefaultData).totalAnnualBenefit
      ≤ (getResults raisedRebateSnapshot).totalAnnualBenefit := by
  refine totalAnnualBenefit_monotone raisedRebateSnapshot getDefaultData rfl ?_
    ?_ ?_ ?_ ?_ ?_ ?_ ?_ ?_ ?_ ?_ ?_ ?_
  · exact getDefaultData_inRange.1
  all_goals norm_num [raisedRebateSnapshot, getDefaultData]

/-- Claim C30: for the default snapshot and fee schedules `getResults` returns
costs.current = 2,036,025, costs.tungsten = 1,122,525, costs.savings.total =
913,500, incentives.differential = 25,000 and totalAnnualBenefit = 938,500. -/
theorem getResults_default_figures :
    (getResults getDefaultData).costs.current = 2036025
      ∧ (getResults getDefaultData).costs.tungsten = 1122525
      ∧ (getResults getDefaultData).costs.savings.total = 913500
      ∧ (getResults getDefaultData).incentives.differential = 25000
      ∧ (getResults getDefaultData).totalAnnualBenefit = 938500 := by
  obtain ⟨_, _, c3, c4⟩ := default_breakdown_counts
  obtain ⟨_, v2, _, _, _, v6, v7, v8⟩ := default_breakdown_values
  refine ⟨?_, ?_, ?_, ?_, ?_⟩ <;>
    simp only [getResults, calculateSavings, calculateProviderCosts, c3, c4, v2, v6, v7, v8] <;>
    norm_num [getDefaultData, Fees.get]

/-! ## Export and import -/

/-- The JSON copy of the object of a fee schedule is the object itself. -/
theorem cloneValue_feeSchedule (f : FeeSchedule) : cloneValue f.toJs = f.toJs := by
  simp [FeeSchedule.toJs, JsFields.ofList, cloneValue, cloneFields]

/-- The JSON copy of the object of the customer information is the object
itself. -/
theorem cloneValue_customerInfo (c : CustomerInfo) : cloneValue c.toJs = c.toJs := by
  simp [CustomerInfo.toJs, JsFields.ofList, cloneValue, cloneFields]

/-- The JSON copy of the object of a well-formed snapshot is the object itself. -/
theorem cloneValue_data (d : Data) : cloneValue d.toJs = d.toJs := by
  simp [Data.toJs, CustomerInfo.toJs, FeeSchedule.toJs, JsFields.ofList, cloneValue, cloneFields]

/-- The fee schedule read from the object of a fee schedule is that schedule. -/
theorem readFeeSchedule_toJs (f : FeeSchedule) : readFeeSchedule f.toJs = some f := by
  simp [readFeeSchedule, FeeSchedule.toJs, JsFields.ofList, JsValue.numField, JsValue.field,
    JsFields.lookup]

/-- The customer information read from its object is that information. -/
theorem readCustomerInfo_toJs (c : CustomerInfo) : readCustomerInfo c.toJs = some c := by
  simp [readCustomerInfo, CustomerInfo.toJs, JsFields.ofList, JsValue.numField,
    JsValue.strField, JsValue.field, JsFields.lookup]

/-- The snapshot read from the object of a well-formed snapshot is that
snapshot. -/
theorem readData_toJs (d : Data) : readData d.toJs = some d := by
  simp [readData, Data.toJs, JsFields.ofList, JsValue.field, JsFields.lookup,
    readCustomerInfo_toJs, readFeeSchedule_toJs]

/-- The JSON copy is not the identity on every value: a non-finite number
comes back as `null` and a property holding `undefined` is lost. -/
theorem jsonClone_lossy :
    jsonClone (JsValue.obj (JsFields.ofList
        [("totalPaymentValue", JsValue.nonFinite), ("currency", JsValue.undefined)]))
      = some (JsValue.obj (JsFields.ofList [("totalPaymentValue", JsValue.null)])) := by
  simp [jsonClone, cloneValue, cloneFields, JsFields.ofList]

/-- Claim C21: export and import round-trip. For a well-formed snapshot d,
`importData(d)` installs a live snapshot equal to d and `exportData()` then
returns a value equal to d; `importData(exportData())` leaves the live snapshot
unchanged, and the engine reads the same snapshot from it, so `getResults` is
unchanged. -/
theorem export_import_round_trip (d : Data) :
    importData d.toJs = some d.toJs
      ∧ (importData d.toJs).bind exportData = some d.toJs
      ∧ (exportData d.toJs).bind importData = some d.toJs
      ∧ liveAfterImport d.toJs d.toJs = d.toJs
      ∧ readData d.toJs = some d
      ∧ ((exportData d.toJs).bind importData).bind getResultsOfLive = some (getResults d) := by
  have hc : jsonClone d.toJs = some d.toJs := by
    have h := cloneValue_data d
    simp only [jsonClone, Data.toJs] at h ⊢
    rw [h]
  have hi : importData d.toJs = some d.toJs := hc
  have he : exportData d.toJs = some d.toJs := hc
  have hr := readData_toJs d
  refine ⟨hi, ?_, ?_, ?_, hr, ?_⟩
  · rw [hi]
    exact he
  · rw [he]
    exact hi
  · simp only [liveAfterImport, hi, Option.getD_some]
  · rw [he]
    simp only [Option.some_bind, hi, getResultsOfLive, hr, Option.map_some']

/-- Counterexample to claim C22 as stated: `importData` of an object without any
property raises no error and replaces the default live snapshot by that object,
from which the engine reads no snapshot; the same holds for an object whose
fees have no `tungsten` property. -/
theorem importData_installs_malformed :
    importData emptyImport = some emptyImport
      ∧ liveAfterImport getDefaultData.toJs emptyImport = emptyImport
      ∧ liveAfterImport getDefaultData.toJs emptyImport ≠ getDefaultData.toJs
      ∧ getResultsOfLive (liveAfterImport getDefaultData.toJs emptyImport) = none
      ∧ importData missingTungstenImport = some missingTungstenImport
      ∧ getResultsOfLive (liveAfterImport getDefaultData.toJs missingTungstenImport) = none := by
  have h1 : importData emptyImport = some emptyImport := by
    simp [importData, jsonClone, emptyImport, cloneValue, cloneFields]
  have h2 : liveAfterImport getDefaultData.toJs emptyImport = emptyImport := by
    simp [liveAfterImport, h1]
  have h3 : importData missingTungstenImport = some missingTungstenImport := by
    simp [importData, jsonClone, missingTungstenImport, cloneValue, cloneFields,
      JsFields.ofList, CustomerInfo.toJs, FeeSchedule.toJs]
  have h4 : liveAfterImport getDefaultData.toJs missingTungstenImport = missingTungstenImport := by
    simp [liveAfterImport, h3]
  refine ⟨h1, h2, ?_, ?_, h3, ?_⟩
  · rw [h2]
    simp [emptyImport, Data.toJs, JsFields.ofList]
  · rw [h2]
    simp [getResultsOfLive, readData, emptyImport, JsValue.field, JsFields.lookup]
  · rw [h4]
    have hu : readFeeSchedule JsValue.undefined = none := by
      simp [readFeeSchedule, JsValue.numField, JsValue.field]
    simp [getResultsOfLive, readData, missingTungstenImport, JsValue.field, JsFields.lookup,
      JsFields.ofList, readCustomerInfo_toJs, hu]

/-- Claim C22, amended: `importData` checks no field. It fails, leaving the
live snapshot unchanged, only on `undefined`, which has no JSON text; every
object, with or without the required fields, is installed as its JSON copy;
and a well-formed snapshot is installed as it is, the engine reading that
snapshot from it. -/
theorem importData_installs_copy :
    (∀ data : JsValue, importData data = none ↔ data = JsValue.undefined)
      ∧ (∀ live data : JsValue, importData data = none → liveAfterImport live data = live)
      ∧ (∀ live : JsValue, ∀ fields : JsFields,
          importData (JsValue.obj fields) = some (JsValue.obj (cloneFields fields))
            ∧ liveAfterImport live (JsValue.obj fields) = JsValue.obj (cloneFields fields))
      ∧ (∀ live : JsValue, ∀ d : Data,
          liveAfterImport live d.toJs = d.toJs ∧ getResultsOfLive d.toJs = some (getResults d)) := by
  refine ⟨?_, ?_, ?_, ?_⟩
  · intro data
    cases data <;> simp [importData, jsonClone]
  · intro live data h
    simp [liveAfterImport, h]
  · intro live fields
    simp [liveAfterImport, importData, jsonClone, cloneValue]
  · intro live d
    have hc : importData d.toJs = some d.toJs := by
      have h := cloneValue_data d
      simp only [importData, jsonClone, Data.toJs] at h ⊢
      rw [h]
    constructor
    · simp only [liveAfterImport, hc, Option.getD_some]
    · simp only [getResultsOfLive, readData_toJs, Option.map_some']

/-- Witness of the amended claim C22: importing `undefined` over the default
live snapshot fails and leaves the snapshot as it was. -/
theorem importData_installs_copy_witness :
    importData JsValue.undefined = none
      ∧ liveAfterImport getDefaultData.toJs JsValue.undefined = getDefaultData.toJs :=
  ⟨(importData_installs_copy.1 JsValue.undefined).mpr rfl,
    importData_installs_copy.2.1 getDefaultData.toJs JsValue.undefined
      ((importData_installs_copy.1 JsValue.undefined).mpr rfl)⟩

/-! ## Double-precision arithmetic -/

/-- Rounding to the nearest integer returns an integer less than one half
away. -/
theorem roundHalfEven_of_near (y : ℚ) (m : ℤ) (hl : (m : ℚ) - 1 / 2 < y)
    (hu : y < (m : ℚ) + 1 / 2) : roundHalfEven y = m := by
  unfold roundHalfEven
  by_cases h : (m : ℚ) ≤ y
  · have hf : ⌊y⌋ = m := by
      rw [Int.floor_eq_iff]
      exact ⟨h, by linarith⟩
    rw [hf, if_pos (by linarith)]
  · have hf : ⌊y⌋ = m - 1 := by
      rw [Int.floor_eq_iff]
      push_cast
      exact ⟨by linarith, by linarith⟩
    have h1 : ¬ (y - ((m - 1 : ℤ) : ℚ) < 1 / 2) := by
      push_cast
      linarith
    have h2 : 1 / 2 < y - ((m - 1 : ℤ) : ℚ) := by
      push_cast
      linarith
    rw [hf, if_neg h1, if_pos h2]
    ring

/-- Rounding a tie to the nearest integer returns the even neighbour. -/
theorem roundHalfEven_of_tie (y : ℚ) (m : ℤ) (h : y = (m : ℚ) + 1 / 2) :
    roundHalfEven y = if m % 2 = 0 then m else m + 1 := by
  have hf : ⌊y⌋ = m := by
    rw [Int.floor_eq_iff]
    exact ⟨by linarith, by linarith⟩
  have h1 : ¬ (y - (m : ℚ) < 1 / 2) := by linarith
  have h2 : ¬ (1 / 2 < y - (m : ℚ)) := by linarith
  unfold roundHalfEven
  rw [hf, if_neg h1, if_neg h2]

/-- The number 0 is a double. -/
theorem roundToDouble_zero : roundToDouble 0 = 0 := by
  simp [roundToDouble]

/-- The binary exponent of a positive rational between two consecutive powers
of 2. -/
theorem log_two_of_bounds (x : ℚ) (e : ℤ) (h1 : (2 : ℚ) ^ e ≤ x) (h2 : x < (2 : ℚ) ^ (e + 1)) :
    0 < x ∧ Int.log 2 |x| = e := by
  have hpos : (0 : ℚ) < x := lt_of_lt_of_le (zpow_pos (by norm_num) e) h1
  refine ⟨hpos, ?_⟩
  rw [abs_of_pos hpos]
  have a : e ≤ Int.log 2 x :=
    (Int.zpow_le_iff_le_log (by norm_num) hpos).mp (by exact_mod_cast h1)
  have b : Int.log 2 x < e + 1 :=
    (Int.lt_zpow_iff_log_lt (by norm_num) hpos).mp (by exact_mod_cast h2)
  omega

/-- The double nearest to a positive rational x with 2^e <= x < 2^(e+1) is
m * 2^(e-52) when x lies less than half a unit in the last place from it. -/
theorem roundToDouble_of_bounds (x : ℚ) (e m : ℤ) (h1 : (2 : ℚ) ^ e ≤ x)
    (h2 : x < (2 : ℚ) ^ (e + 1))
    (hl : ((m : ℚ) - 1 / 2) * (2 : ℚ) ^ (e - 52) < x)
    (hu : x < ((m : ℚ) + 1 / 2) * (2 : ℚ) ^ (e - 52)) :
    roundToDouble x = (m : ℚ) * (2 : ℚ) ^ (e - 52) := by
  obtain ⟨hpos, hlog⟩ := log_two_of_bounds x e h1 h2
  have hu0 : (0 : ℚ) < (2 : ℚ) ^ (e - 52) := zpow_pos (by norm_num) _
  unfold roundToDouble
  rw [if_neg (ne_of_gt hpos), hlog]
  rw [roundHalfEven_of_near (x / (2 : ℚ) ^ (e - 52)) m]
  · rw [lt_div_iff₀ hu0]
    exact hl
  · rw [div_lt_iff₀ hu0]
    exact hu

/-- The double nearest to a positive rational half-way between two doubles,
when the lower one has an even significand. -/
theorem roundToDouble_of_tie_even (x : ℚ) (e m : ℤ) (h1 : (2 : ℚ) ^ e ≤ x)
    (h2 : x < (2 : ℚ) ^ (e + 1)) (ht : x = ((m : ℚ) + 1 / 2) * (2 : ℚ) ^ (e - 52))
    (hm : m % 2 = 0) :
    roundToDouble x = (m : ℚ) * (2 : ℚ) ^ (e - 52) := by
  obtain ⟨hpos, hlog⟩ := log_two_of_bounds x e h1 h2
  have hu0 : (0 : ℚ) < (2 : ℚ) ^ (e - 52) := zpow_pos (by norm_num) _
  unfold roundToDouble
  rw [if_neg (ne_of_gt hpos), hlog]
  rw [roundHalfEven_of_tie (x / (2 : ℚ) ^ (e - 52)) m, if_pos hm]
  rw [div_eq_iff (ne_of_gt hu0)]
  exact ht

/-- The double nearest to a positive rational half-way between two doubles,
when the lower one has an odd significand. -/
theorem roundToDouble_of_tie_odd (x : ℚ) (e m : ℤ) (h1 : (2 : ℚ) ^ e ≤ x)
    (h2 : x < (2 : ℚ) ^ (e + 1)) (ht : x = ((m : ℚ) + 1 / 2) * (2 : ℚ) ^ (e - 52))
    (hm : m % 2 = 1) :
    roundToDouble x = ((m : ℚ) + 1) * (2 : ℚ) ^ (e - 52) := by
  obtain ⟨hpos, hlog⟩ := log_two_of_bounds x e h1 h2
  have hu0 : (0 : ℚ) < (2 : ℚ) ^ (e - 52) := zpow_pos (by norm_num) _
  have hm0 : ¬ (m % 2 = 0) := by omega
  unfold roundToDouble
  rw [if_neg (ne_of_gt hpos), hlog]
  rw [roundHalfEven_of_tie (x / (2 : ℚ) ^ (e - 52)) m, if_neg hm0]
  · push_cast
    ring
  · rw [div_eq_iff (ne_of_gt hu0)]
    exact ht

/-! ## The rounded methods without rounding -/

/-- The breakdown with exact arithmetic is the rounded breakdown with no
rounding. -/
theorem calculatePaymentBreakdownWith_id (d : Data) :
    calculatePaymentBreakdownWith id d = calculatePaymentBreakdown d := rfl

/-- The FX volumes with exact arithmetic are the rounded FX volumes with no
rounding. -/
theorem calculateFXVolumesWith_id (d : Data) :
    calculateFXVolumesWith id d = calculateFXVolumes d := rfl

/-- The provider costs with exact arithmetic are the rounded provider costs
with no rounding. -/
theorem calculateProviderCostsWith_id (d : Data) (p : Provider) :
    calculateProviderCostsWith id d p = calculateProviderCosts d p := by
  simp [calculateProviderCostsWith, calculateProviderCosts, calculatePaymentBreakdownWith_id,
    calculateFXVolumesWith_id]

/-- The savings with exact arithmetic are the rounded savings with no rounding. -/
theorem calculateSavingsWith_id (d : Data) : calculateSavingsWith id d = calculateSavings d := by
  simp [calculateSavingsWith, calculateSavings, calculateProviderCostsWith_id]

/-- The validation of the live object of a well-formed snapshot is the
validation of the snapshot. -/
theorem validateLive_toJs (d : Data) : validateLive d.toJs = some (validate d) := by
  have h1 : d.toJs.field "customerInfo" = some d.customerInfo.toJs := by
    simp [Data.toJs, JsFields.ofList, JsValue.field, JsFields.lookup]
  have h2 : (d.customerInfo.toJs.field "totalPaymentValue").bind JsValue.toNumber
      = some (JsNumber.finite d.customerInfo.totalPaymentValue) := by
    simp [CustomerInfo.toJs, JsFields.ofList, JsValue.field, JsFields.lookup, JsValue.toNumber]
  have h3 : (d.customerInfo.toJs.field "totalPaymentCount").bind JsValue.toNumber
      = some (JsNumber.finite d.customerInfo.totalPaymentCount) := by
    simp [CustomerInfo.toJs, JsFields.ofList, JsValue.field, JsFields.lookup, JsValue.toNumber]
  have h4 : (d.customerInfo.toJs.field "fxPercentOfCrossBorder").bind JsValue.toNumber
      = some (JsNumber.finite d.customerInfo.fxPercentOfCrossBorder) := by
    simp [CustomerInfo.toJs, JsFields.ofList, JsValue.field, JsFields.lookup, JsValue.toNumber]
  have h5 : d.customerInfo.toJs.field "fxVolume"
      = some (JsValue.obj (JsFields.ofList
        [("distribution", JsValue.obj (JsFields.ofList
          [("tier1Percent", JsValue.num d.customerInfo.fxVolume.distribution.tier1Percent),
           ("tier2Percent", JsValue.num d.customerInfo.fxVolume.distribution.tier2Percent),
           ("tier3Percent", JsValue.num d.customerInfo.fxVolume.distribution.tier3Percent)]))])) := by
    simp [CustomerInfo.toJs, JsFields.ofList, JsValue.field, JsFields.lookup]
  simp only [validateLive, h1, h2, h3, h4, h5, Option.some_bind]
  simp [validate, JsFields.ofList, JsValue.field, JsFields.lookup, JsValue.toNumber, JsNumber.lt,
    JsNumber.gt, JsNumber.add, JsNumber.absSubGt]

/-! ## The payment breakdown in double precision -/

/-- In the double precision of the engine the card value need not be the
remainder even when the two method percentages add up to 100: on 50,000,000
split 33 to 67 the card value is 33500000.000000004 and the remainder of the
total after the rail value is 33,500,000. -/
theorem card_value_not_remainder_in_doubles :
    (calculatePaymentBreakdownWith roundToDouble (roundFields roundToDouble oneThirdRailSnapshot)).method.card.value
        = 8992587776000001 / 268435456
      ∧ (calculatePaymentBreakdownWith roundToDouble (roundFields roundToDouble oneThirdRailSnapshot)).method.rail.value = 16500000
      ∧ roundToDouble ((roundFields roundToDouble oneThirdRailSnapshot).customerInfo.totalPaymentValue
          - (calculatePaymentBreakdownWith roundToDouble (roundFields roundToDouble oneThirdRailSnapshot)).method.rail.value) = 33500000
      ∧ (calculatePaymentBreakdownWith roundToDouble (roundFields roundToDouble oneThirdRailSnapshot)).method.card.value
        ≠ (roundFields roundToDouble oneThirdRailSnapshot).customerInfo.totalPaymentValue
          - (calculatePaymentBreakdownWith roundToDouble (roundFields roundToDouble oneThirdRailSnapshot)).method.rail.value := by
  have f1 : roundToDouble (50000000) = 50000000 := by
    rw [roundToDouble_of_bounds (50000000) (25) 6710886400000000 (by norm_num) (by norm_num)
      (by norm_num) (by norm_num)]
    norm_num
  have f2 : roundToDouble (33) = 33 := by
    rw [roundToDouble_of_bounds (33) (5) 4644337115725824 (by norm_num) (by norm_num)
      (by norm_num) (by norm_num)]
    norm_num
  have f3 : roundToDouble (67) = 67 := by
    rw [roundToDouble_of_bounds (67) (6) 4714705859903488 (by norm_num) (by norm_num)
      (by norm_num) (by norm_num)]
    norm_num
  have f4 : roundToDouble (33 / 100) = 5944751508129055 / 18014398509481984 := by
    rw [roundToDouble_of_bounds (33 / 100) (-2) 5944751508129055 (by norm_num) (by norm_num)
      (by norm_num) (by norm_num)]
    norm_num
  have f5 : roundToDouble (2322168557862912109375 / 140737488355328) = 16500000 := by
    rw [roundToDouble_of_bounds (2322168557862912109375 / 140737488355328) (23) 8858370048000000 (by norm_num) (by norm_num)
      (by norm_num) (by norm_num)]
    norm_num
  have f6 : roundToDouble (67 / 100) = 6034823500676465 / 9007199254740992 := by
    rw [roundToDouble_of_bounds (67 / 100) (-1) 6034823500676465 (by norm_num) (by norm_num)
      (by norm_num) (by norm_num)]
    norm_num
  have f7 : roundToDouble (2357352929951744140625 / 70368744177664) = 8992587776000001 / 268435456 := by
    rw [roundToDouble_of_bounds (2357352929951744140625 / 70368744177664) (24) 8992587776000001 (by norm_num) (by norm_num)
      (by norm_num) (by norm_num)]
    norm_num
  have f8 : roundToDouble (33500000) = 33500000 := by
    rw [roundToDouble_of_bounds (33500000) (24) 8992587776000000 (by norm_num) (by norm_num)
      (by norm_num) (by norm_num)]
    norm_num
  have hc : (calculatePaymentBreakdownWith roundToDouble (roundFields roundToDouble oneThirdRailSnapshot)).method.card.value
      = 8992587776000001 / 268435456 := by
    norm_num [calculatePaymentBreakdownWith, roundFields, roundFeeSchedule, oneThirdRailSnapshot, getDefaultData,
      f1, f2, f3, f4, f5, f6, f7, f8]
  have hr : (calculatePaymentBreakdownWith roundToDouble (roundFields roundToDouble oneThirdRailSnapshot)).method.rail.value = 16500000 := by
    norm_num [calculatePaymentBreakdownWith, roundFields, roundFeeSchedule, oneThirdRailSnapshot, getDefaultData,
      f1, f2, f3, f4, f5, f6, f7, f8]
  have ht : (roundFields roundToDouble oneThirdRailSnapshot).customerInfo.totalPaymentValue = 50000000 := by
    norm_num [roundFields, roundFeeSchedule, oneThirdRailSnapshot, getDefaultData, f1, f2, f3, f4, f5, f6, f7, f8]
  refine ⟨hc, hr, ?_, ?_⟩
  · rw [hr, ht]
    norm_num [f1, f2, f3, f4, f5, f6, f7, f8]
  · rw [hc, hr, ht]
    norm_num

/-! ## Savings in double precision -/

/-- Counterexample to claim C12 as stated, in the double precision of the
engine: for the default snapshot with a value of 1,234,567.89 in 4,321
payments, savings.rails = 3500.5 and savings.fx = 555.5555505000001, whose sum
is 4056.0555505 both exactly rounded and as a double, while savings.total =
4056.0555504999993. -/
theorem savings_total_not_additive_in_doubles :
    (calculateSavingsWith roundToDouble (roundFields roundToDouble decimalVolumeSnapshot)).costs.savings.rails = 7001 / 2
      ∧ (calculateSavingsWith roundToDouble (roundFields roundToDouble decimalVolumeSnapshot)).costs.savings.fx
        = 4886718301201975 / 8796093022208
      ∧ (calculateSavingsWith roundToDouble (roundFields roundToDouble decimalVolumeSnapshot)).costs.savings.total
        = 2229840120340067 / 549755813888
      ∧ (calculateSavingsWith roundToDouble (roundFields roundToDouble decimalVolumeSnapshot)).costs.savings.total
        ≠ (calculateSavingsWith roundToDouble (roundFields roundToDouble decimalVolumeSnapshot)).costs.savings.rails
          + (calculateSavingsWith roundToDouble (roundFields roundToDouble decimalVolumeSnapshot)).costs.savings.fx
      ∧ (calculateSavingsWith roundToDouble (roundFields roundToDouble decimalVolumeSnapshot)).costs.savings.total
        ≠ roundToDouble
          ((calculateSavingsWith roundToDouble (roundFields roundToDouble decimalVolumeSnapshot)).costs.savings.rails
            + (calculateSavingsWith roundToDouble (roundFields roundToDouble decimalVolumeSnapshot)).costs.savings.fx) := by
  have f1 : roundToDouble (123456789 / 100) = 5302428712241725 / 4294967296 := by
    rw [roundToDouble_of_bounds (123456789 / 100) (20) 5302428712241725 (by norm_num) (by norm_num)
      (by norm_num) (by norm_num)]
    norm_num
  have f2 : roundToDouble (4321) = 4321 := by
    rw [roundToDouble_of_bounds (4321) (12) 4750989743620096 (by norm_num) (by norm_num)
      (by norm_num) (by norm_num)]
    norm_num
  have f3 : roundToDouble (90) = 90 := by
    rw [roundToDouble_of_bounds (90) (6) 6333186975989760 (by norm_num) (by norm_num)
      (by norm_num) (by norm_num)]
    norm_num
  have f4 : roundToDouble (10) = 10 := by
    rw [roundToDouble_of_bounds (10) (3) 5629499534213120 (by norm_num) (by norm_num)
      (by norm_num) (by norm_num)]
    norm_num
  have f5 : roundToDouble (60) = 60 := by
    rw [roundToDouble_of_bounds (60) (5) 8444249301319680 (by norm_num) (by norm_num)
      (by norm_num) (by norm_num)]
    norm_num
  have f6 : roundToDouble (40) = 40 := by
    rw [roundToDouble_of_bounds (40) (5) 5629499534213120 (by norm_num) (by norm_num)
      (by norm_num) (by norm_num)]
    norm_num
  have f7 : roundToDouble (50) = 50 := by
    rw [roundToDouble_of_bounds (50) (5) 7036874417766400 (by norm_num) (by norm_num)
      (by norm_num) (by norm_num)]
    norm_num
  have f8 : roundToDouble (35) = 35 := by
    rw [roundToDouble_of_bounds (35) (5) 4925812092436480 (by norm_num) (by norm_num)
      (by norm_num) (by norm_num)]
    norm_num
  have f9 : roundToDouble (25) = 25 := by
    rw [roundToDouble_of_bounds (25) (4) 7036874417766400 (by norm_num) (by norm_num)
      (by norm_num) (by norm_num)]
    norm_num
  have f10 : roundToDouble (1 / 2) = 1 / 2 := by
    rw [roundToDouble_of_bounds (1 / 2) (-1) 4503599627370496 (by norm_num) (by norm_num)
      (by norm_num) (by norm_num)]
    norm_num
  have f11 : roundToDouble (2) = 2 := by
    rw [roundToDouble_of_bounds (2) (1) 4503599627370496 (by norm_num) (by norm_num)
      (by norm_num) (by norm_num)]
    norm_num
  have f12 : roundToDouble (7 / 20) = 3152519739159347 / 9007199254740992 := by
    rw [roundToDouble_of_bounds (7 / 20) (-2) 6305039478318694 (by norm_num) (by norm_num)
      (by norm_num) (by norm_num)]
    norm_num
  have f13 : roundToDouble (1 / 5) = 3602879701896397 / 18014398509481984 := by
    rw [roundToDouble_of_bounds (1 / 5) (-3) 7205759403792794 (by norm_num) (by norm_num)
      (by norm_num) (by norm_num)]
    norm_num
  have f14 : roundToDouble (3 / 2) = 3 / 2 := by
    rw [roundToDouble_of_bounds (3 / 2) (0) 6755399441055744 (by norm_num) (by norm_num)
      (by norm_num) (by norm_num)]
    norm_num
  have f15 : roundToDouble (1) = 1 := by
    rw [roundToDouble_of_bounds (1) (0) 4503599627370496 (by norm_num) (by norm_num)
      (by norm_num) (by norm_num)]
    norm_num
  have f16 : roundToDouble (7 / 2) = 7 / 2 := by
    rw [roundToDouble_of_bounds (7 / 2) (1) 7881299347898368 (by norm_num) (by norm_num)
      (by norm_num) (by norm_num)]
    norm_num
  have f17 : roundToDouble (3 / 4) = 3 / 4 := by
    rw [roundToDouble_of_bounds (3 / 4) (-1) 6755399441055744 (by norm_num) (by norm_num)
      (by norm_num) (by norm_num)]
    norm_num
  have f18 : roundToDouble (3 / 5) = 5404319552844595 / 9007199254740992 := by
    rw [roundToDouble_of_bounds (3 / 5) (-1) 5404319552844595 (by norm_num) (by norm_num)
      (by norm_num) (by norm_num)]
    norm_num
  have f19 : roundToDouble (9 / 20) = 8106479329266893 / 18014398509481984 := by
    rw [roundToDouble_of_bounds (9 / 20) (-2) 8106479329266893 (by norm_num) (by norm_num)
      (by norm_num) (by norm_num)]
    norm_num
  have f20 : roundToDouble (9 / 10) = 8106479329266893 / 9007199254740992 := by
    rw [roundToDouble_of_bounds (9 / 10) (-1) 8106479329266893 (by norm_num) (by norm_num)
      (by norm_num) (by norm_num)]
    norm_num
  have f21 : roundToDouble (42984028750698814070098855710425 / 38685626227668133590597632) = 4772185841017553 / 4294967296 := by
    rw [roundToDouble_of_bounds (42984028750698814070098855710425 / 38685626227668133590597632) (20) 4772185841017553 (by norm_num) (by norm_num)
      (by norm_num) (by norm_num)]
    norm_num
  have f22 : roundToDouble (1 / 10) = 3602879701896397 / 36028797018963968 := by
    rw [roundToDouble_of_bounds (1 / 10) (-4) 7205759403792794 (by norm_num) (by norm_num)
      (by norm_num) (by norm_num)]
    norm_num
  have f23 : roundToDouble (19104012778088362398091570564825 / 154742504910672534362390528) = 1060485742448345 / 8589934592 := by
    rw [roundToDouble_of_bounds (19104012778088362398091570564825 / 154742504910672534362390528) (16) 8483885939586760 (by norm_num) (by norm_num)
      (by norm_num) (by norm_num)]
    norm_num
  have f24 : roundToDouble (35028097181762244653 / 9007199254740992) = 8551781538516173 / 2199023255552 := by
    rw [roundToDouble_of_bounds (35028097181762244653 / 9007199254740992) (11) 8551781538516173 (by norm_num) (by norm_num)
      (by norm_num) (by norm_num)]
    norm_num
  have f25 : roundToDouble (432) = 432 := by
    rw [roundToDouble_of_bounds (432) (8) 7599824371187712 (by norm_num) (by norm_num)
      (by norm_num) (by norm_num)]
    norm_num
  have f26 : roundToDouble (25790417250419289553490476176035 / 38685626227668133590597632) = 5726623009221063 / 8589934592 := by
    rw [roundToDouble_of_bounds (25790417250419289553490476176035 / 38685626227668133590597632) (19) 5726623009221063 (by norm_num) (by norm_num)
      (by norm_num) (by norm_num)]
    norm_num
  have f27 : roundToDouble (2 / 5) = 3602879701896397 / 9007199254740992 := by
    rw [roundToDouble_of_bounds (2 / 5) (-2) 7205759403792794 (by norm_num) (by norm_num)
      (by norm_num) (by norm_num)]
    norm_num
  have f28 : roundToDouble (17193611500279527959722264456541 / 38685626227668133590597632) = 7635497345628085 / 17179869184 := by
    rw [roundToDouble_of_bounds (17193611500279527959722264456541 / 38685626227668133590597632) (18) 7635497345628085 (by norm_num) (by norm_num)
      (by norm_num) (by norm_num)]
    norm_num
  have f29 : roundToDouble (21017398741012629955 / 9007199254740992) = 5131200864505037 / 2199023255552 := by
    rw [roundToDouble_of_bounds (21017398741012629955 / 9007199254740992) (11) 5131200864505037 (by norm_num) (by norm_num)
      (by norm_num) (by norm_num)]
    norm_num
  have f30 : roundToDouble (1556) = 1556 := by
    rw [roundToDouble_of_bounds (1556) (10) 6843360371277824 (by norm_num) (by norm_num)
      (by norm_num) (by norm_num)]
    norm_num
  have f31 : roundToDouble (7635497345628085 / 34359738368) = 7635497345628085 / 34359738368 := by
    rw [roundToDouble_of_bounds (7635497345628085 / 34359738368) (17) 7635497345628085 (by norm_num) (by norm_num)
      (by norm_num) (by norm_num)]
    norm_num
  have f32 : roundToDouble (27509778400447245456131563509745 / 309485009821345068724781056) = 1527099469125617 / 17179869184 := by
    rw [roundToDouble_of_bounds (27509778400447245456131563509745 / 309485009821345068724781056) (16) 6108397876502468 (by norm_num) (by norm_num)
      (by norm_num) (by norm_num)]
    norm_num
  have f33 : roundToDouble (24071056100391336910803613460495 / 309485009821345068724781056) = 5344848141939659 / 68719476736 := by
    rw [roundToDouble_of_bounds (24071056100391336910803613460495 / 309485009821345068724781056) (16) 5344848141939659 (by norm_num) (by norm_num)
      (by norm_num) (by norm_num)]
    norm_num
  have f34 : roundToDouble (1 / 4) = 1 / 4 := by
    rw [roundToDouble_of_bounds (1 / 4) (-2) 4503599627370496 (by norm_num) (by norm_num)
      (by norm_num) (by norm_num)]
    norm_num
  have f35 : roundToDouble (7635497345628085 / 137438953472) = 7635497345628085 / 137438953472 := by
    rw [roundToDouble_of_bounds (7635497345628085 / 137438953472) (15) 7635497345628085 (by norm_num) (by norm_num)
      (by norm_num) (by norm_num)]
    norm_num
  have f36 : roundToDouble (2333) = 2333 := by
    rw [roundToDouble_of_bounds (2333) (11) 5130321255202816 (by norm_num) (by norm_num)
      (by norm_num) (by norm_num)]
    norm_num
  have f37 : roundToDouble (5446) = 5446 := by
    rw [roundToDouble_of_bounds (5446) (12) 5987940324868096 (by norm_num) (by norm_num)
      (by norm_num) (by norm_num)]
    norm_num
  have f38 : roundToDouble (7779) = 7779 := by
    rw [roundToDouble_of_bounds (7779) (12) 8553100952469504 (by norm_num) (by norm_num)
      (by norm_num) (by norm_num)]
    norm_num
  have f39 : roundToDouble (3 / 400) = 1080863910568919 / 144115188075855872 := by
    rw [roundToDouble_of_bounds (3 / 400) (-8) 8646911284551352 (by norm_num) (by norm_num)
      (by norm_num) (by norm_num)]
    norm_num
  have f40 : roundToDouble (1650586704026834574657946898023 / 2475880078570760549798248448) = 5864061961442369 / 8796093022208 := by
    rw [roundToDouble_of_bounds (1650586704026834574657946898023 / 2475880078570760549798248448) (9) 5864061961442369 (by norm_num) (by norm_num)
      (by norm_num) (by norm_num)]
    norm_num
  have f41 : roundToDouble (1080863910568919 / 180143985094819840) = 3458764513820541 / 576460752303423488 := by
    rw [roundToDouble_of_bounds (1080863910568919 / 180143985094819840) (-8) 6917529027641082 (by norm_num) (by norm_num)
      (by norm_num) (by norm_num)]
    norm_num
  have f42 : roundToDouble (18486571085100546575756376735519 / 39614081257132168796771975168) = 2052421686504829 / 4398046511104 := by
    rw [roundToDouble_of_bounds (18486571085100546575756376735519 / 39614081257132168796771975168) (8) 8209686746019316 (by norm_num) (by norm_num)
      (by norm_num) (by norm_num)]
    norm_num
  have f43 : roundToDouble (8106479329266893 / 1801439850948198400) = 1297036692682703 / 288230376151711744 := by
    rw [roundToDouble_of_bounds (8106479329266893 / 1801439850948198400) (-8) 5188146770730812 (by norm_num) (by norm_num)
      (by norm_num) (by norm_num)]
    norm_num
  have f44 : roundToDouble (9903520224161008975047150513755 / 39614081257132168796771975168) = 8796092942163555 / 35184372088832 := by
    rw [roundToDouble_of_bounds (9903520224161008975047150513755 / 39614081257132168796771975168) (7) 8796092942163555 (by norm_num) (by norm_num)
      (by norm_num) (by norm_num)]
    norm_num
  have f45 : roundToDouble (9968905334452027 / 8796093022208) = 2492226333613007 / 2199023255552 := by
    rw [roundToDouble_of_tie_odd (9968905334452027 / 8796093022208) (10) 4984452667226013 (by norm_num) (by norm_num)
      (by norm_num) (by decide)]
    norm_num
  have f46 : roundToDouble (48671714279971667 / 35184372088832) = 3041982142498229 / 2199023255552 := by
    rw [roundToDouble_of_bounds (48671714279971667 / 35184372088832) (10) 6083964284996458 (by norm_num) (by norm_num)
      (by norm_num) (by norm_num)]
    norm_num
  have f47 : roundToDouble (20148184047437237 / 2199023255552) = 5037046011859309 / 549755813888 := by
    rw [roundToDouble_of_bounds (20148184047437237 / 2199023255552) (13) 5037046011859309 (by norm_num) (by norm_num)
      (by norm_num) (by norm_num)]
    norm_num
  have f48 : roundToDouble (2333 / 2) = 2333 / 2 := by
    rw [roundToDouble_of_bounds (2333 / 2) (10) 5130321255202816 (by norm_num) (by norm_num)
      (by norm_num) (by norm_num)]
    norm_num
  have f49 : roundToDouble (3112) = 3112 := by
    rw [roundToDouble_of_bounds (3112) (11) 6843360371277824 (by norm_num) (by norm_num)
      (by norm_num) (by norm_num)]
    norm_num
  have f50 : roundToDouble (8557 / 2) = 8557 / 2 := by
    rw [roundToDouble_of_bounds (8557 / 2) (12) 4704260499439616 (by norm_num) (by norm_num)
      (by norm_num) (by norm_num)]
    norm_num
  have f51 : roundToDouble (1 / 200) = 5764607523034235 / 1152921504606846976 := by
    rw [roundToDouble_of_bounds (1 / 200) (-8) 5764607523034235 (by norm_num) (by norm_num)
      (by norm_num) (by norm_num)]
    norm_num
  have f52 : roundToDouble (8803129088143118240542206497995 / 19807040628566084398385987584) = 7818749281923159 / 17592186044416 := by
    rw [roundToDouble_of_bounds (8803129088143118240542206497995 / 19807040628566084398385987584) (8) 7818749281923159 (by norm_num) (by norm_num)
      (by norm_num) (by norm_num)]
    norm_num
  have f53 : roundToDouble (3152519739159347 / 900719925474099200) = 1008806316530991 / 288230376151711744 := by
    rw [roundToDouble_of_bounds (3152519739159347 / 900719925474099200) (-9) 8070450532247928 (by norm_num) (by norm_num)
      (by norm_num) (by norm_num)]
    norm_num
  have f54 : roundToDouble (5391916566487658749822925472069 / 19807040628566084398385987584) = 2394491967588967 / 8796093022208 := by
    rw [roundToDouble_of_bounds (5391916566487658749822925472069 / 19807040628566084398385987584) (8) 4788983935177934 (by norm_num) (by norm_num)
      (by norm_num) (by norm_num)]
    norm_num
  have f55 : roundToDouble (3602879701896397 / 1801439850948198400) = 1152921504606847 / 576460752303423488 := by
    rw [roundToDouble_of_bounds (3602879701896397 / 1801439850948198400) (-9) 4611686018427388 (by norm_num) (by norm_num)
      (by norm_num) (by norm_num)]
    norm_num
  have f56 : roundToDouble (8803129088143118240542206497995 / 79228162514264337593543950336) = 7818749281923159 / 70368744177664 := by
    rw [roundToDouble_of_bounds (8803129088143118240542206497995 / 79228162514264337593543950336) (6) 7818749281923159 (by norm_num) (by norm_num)
      (by norm_num) (by norm_num)]
    norm_num
  have f57 : roundToDouble (12607733217101093 / 17592186044416) = 3151933304275273 / 4398046511104 := by
    rw [roundToDouble_of_tie_even (12607733217101093 / 17592186044416) (9) 6303866608550546 (by norm_num) (by norm_num)
      (by norm_num) (by decide)]
    norm_num
  have f58 : roundToDouble (58249682150327527 / 70368744177664) = 7281210268790941 / 8796093022208 := by
    rw [roundToDouble_of_bounds (58249682150327527 / 70368744177664) (9) 7281210268790941 (by norm_num) (by norm_num)
      (by norm_num) (by norm_num)]
    norm_num
  have f59 : roundToDouble (44915294264307869 / 8796093022208) = 1403602945759621 / 274877906944 := by
    rw [roundToDouble_of_bounds (44915294264307869 / 8796093022208) (12) 5614411783038484 (by norm_num) (by norm_num)
      (by norm_num) (by norm_num)]
    norm_num
  have f60 : roundToDouble (7001 / 2) = 7001 / 2 := by
    rw [roundToDouble_of_bounds (7001 / 2) (11) 7697680906059776 (by norm_num) (by norm_num)
      (by norm_num) (by norm_num)]
    norm_num
  have f61 : roundToDouble (4886718301201975 / 8796093022208) = 4886718301201975 / 8796093022208 := by
    rw [roundToDouble_of_bounds (4886718301201975 / 8796093022208) (9) 4886718301201975 (by norm_num) (by norm_num)
      (by norm_num) (by norm_num)]
    norm_num
  have f62 : roundToDouble (2229840120340067 / 549755813888) = 2229840120340067 / 549755813888 := by
    rw [roundToDouble_of_bounds (2229840120340067 / 549755813888) (11) 8919360481360268 (by norm_num) (by norm_num)
      (by norm_num) (by norm_num)]
    norm_num
  have r1 : mathRound (8551781538516173 / 2199023255552) = 3889 := by
    unfold mathRound
    rw [Int.floor_eq_iff]
    norm_num
  have r2 : mathRound (5131200864505037 / 2199023255552) = 2333 := by
    unfold mathRound
    rw [Int.floor_eq_iff]
    norm_num
  have g1 : roundToDouble (35677441925441079 / 8796093022208) = 4459680240680135 / 1099511627776 := by
    rw [roundToDouble_of_bounds (35677441925441079 / 8796093022208) (11) 8919360481360270 (by norm_num) (by norm_num)
      (by norm_num) (by norm_num)]
    norm_num
  have hlc : (calculatePaymentBreakdownWith roundToDouble (roundFields roundToDouble decimalVolumeSnapshot)).rails.local_.count
      = 2333 := by
    norm_num [calculatePaymentBreakdownWith, roundFields, roundFeeSchedule, decimalVolumeSnapshot, getDefaultData, Fees.get,
    f1, f2, f3, f4, f5, f6, f7, f8, f9, f10, f11, f12, f13, f14, f15, f16, f17, f18, f19,
    f20, f21, f22, f23, f24, f25, f26, f27, f28, f29, f30, f31, f32, f33, f34, f35, f36,
    f37, f38, f39, f40, f41, f42, f43, f44, f45, f46, f47, f48, f49, f50, f51, f52, f53,
    f54, f55, f56, f57, f58, f59, f60, f61, f62, r1, r2]
  have hcc : (calculatePaymentBreakdownWith roundToDouble (roundFields roundToDouble decimalVolumeSnapshot)).rails.crossBorder.count
      = 1556 := by
    norm_num [calculatePaymentBreakdownWith, roundFields, roundFeeSchedule, decimalVolumeSnapshot, getDefaultData, Fees.get,
    f1, f2, f3, f4, f5, f6, f7, f8, f9, f10, f11, f12, f13, f14, f15, f16, f17, f18, f19,
    f20, f21, f22, f23, f24, f25, f26, f27, f28, f29, f30, f31, f32, f33, f34, f35, f36,
    f37, f38, f39, f40, f41, f42, f43, f44, f45, f46, f47, f48, f49, f50, f51, f52, f53,
    f54, f55, f56, f57, f58, f59, f60, f61, f62, r1, r2]
  have hcb : (calculatePaymentBreakdownWith roundToDouble (roundFields roundToDouble decimalVolumeSnapshot)).rails.crossBorder.value
      = 7635497345628085 / 17179869184 := by
    norm_num [calculatePaymentBreakdownWith, roundFields, roundFeeSchedule, decimalVolumeSnapshot, getDefaultData, Fees.get,
    f1, f2, f3, f4, f5, f6, f7, f8, f9, f10, f11, f12, f13, f14, f15, f16, f17, f18, f19,
    f20, f21, f22, f23, f24, f25, f26, f27, f28, f29, f30, f31, f32, f33, f34, f35, f36,
    f37, f38, f39, f40, f41, f42, f43, f44, f45, f46, f47, f48, f49, f50, f51, f52, f53,
    f54, f55, f56, f57, f58, f59, f60, f61, f62, r1, r2]
  have hv1 : (calculateFXVolumesWith roundToDouble (roundFields roundToDouble decimalVolumeSnapshot)).tier1 = 1527099469125617 / 17179869184 := by
    simp only [calculateFXVolumesWith, hcb]
    norm_num [roundFields, roundFeeSchedule, decimalVolumeSnapshot, getDefaultData, Fees.get,
    f1, f2, f3, f4, f5, f6, f7, f8, f9, f10, f11, f12, f13, f14, f15, f16, f17, f18, f19,
    f20, f21, f22, f23, f24, f25, f26, f27, f28, f29, f30, f31, f32, f33, f34, f35, f36,
    f37, f38, f39, f40, f41, f42, f43, f44, f45, f46, f47, f48, f49, f50, f51, f52, f53,
    f54, f55, f56, f57, f58, f59, f60, f61, f62, r1, r2]
  have hv2 : (calculateFXVolumesWith roundToDouble (roundFields roundToDouble decimalVolumeSnapshot)).tier2 = 5344848141939659 / 68719476736 := by
    simp only [calculateFXVolumesWith, hcb]
    norm_num [roundFields, roundFeeSchedule, decimalVolumeSnapshot, getDefaultData, Fees.get,
    f1, f2, f3, f4, f5, f6, f7, f8, f9, f10, f11, f12, f13, f14, f15, f16, f17, f18, f19,
    f20, f21, f22, f23, f24, f25, f26, f27, f28, f29, f30, f31, f32, f33, f34, f35, f36,
    f37, f38, f39, f40, f41, f42, f43, f44, f45, f46, f47, f48, f49, f50, f51, f52, f53,
    f54, f55, f56, f57, f58, f59, f60, f61, f62, r1, r2]
  have hv3 : (calculateFXVolumesWith roundToDouble (roundFields roundToDouble decimalVolumeSnapshot)).tier3 = 7635497345628085 / 137438953472 := by
    simp only [calculateFXVolumesWith, hcb]
    norm_num [roundFields, roundFeeSchedule, decimalVolumeSnapshot, getDefaultData, Fees.get,
    f1, f2, f3, f4, f5, f6, f7, f8, f9, f10, f11, f12, f13, f14, f15, f16, f17, f18, f19,
    f20, f21, f22, f23, f24, f25, f26, f27, f28, f29, f30, f31, f32, f33, f34, f35, f36,
    f37, f38, f39, f40, f41, f42, f43, f44, f45, f46, f47, f48, f49, f50, f51, f52, f53,
    f54, f55, f56, f57, f58, f59, f60, f61, f62, r1, r2]
  have hcr : (calculateProviderCostsWith roundToDouble (roundFields roundToDouble decimalVolumeSnapshot) Provider.currentProvider).rails
      = 7779 := by
    simp only [calculateProviderCostsWith, hlc, hcc]
    norm_num [roundFields, roundFeeSchedule, decimalVolumeSnapshot, getDefaultData, Fees.get,
    f1, f2, f3, f4, f5, f6, f7, f8, f9, f10, f11, f12, f13, f14, f15, f16, f17, f18, f19,
    f20, f21, f22, f23, f24, f25, f26, f27, f28, f29, f30, f31, f32, f33, f34, f35, f36,
    f37, f38, f39, f40, f41, f42, f43, f44, f45, f46, f47, f48, f49, f50, f51, f52, f53,
    f54, f55, f56, f57, f58, f59, f60, f61, f62, r1, r2]
  have hcf : (calculateProviderCostsWith roundToDouble (roundFields roundToDouble decimalVolumeSnapshot) Provider.currentProvider).fx.total
      = 3041982142498229 / 2199023255552 := by
    simp only [calculateProviderCostsWith, hv1, hv2, hv3]
    norm_num [roundFields, roundFeeSchedule, decimalVolumeSnapshot, getDefaultData, Fees.get,
    f1, f2, f3, f4, f5, f6, f7, f8, f9, f10, f11, f12, f13, f14, f15, f16, f17, f18, f19,
    f20, f21, f22, f23, f24, f25, f26, f27, f28, f29, f30, f31, f32, f33, f34, f35, f36,
    f37, f38, f39, f40, f41, f42, f43, f44, f45, f46, f47, f48, f49, f50, f51, f52, f53,
    f54, f55, f56, f57, f58, f59, f60, f61, f62, r1, r2]
  have hct : (calculateProviderCostsWith roundToDouble (roundFields roundToDouble decimalVolumeSnapshot) Provider.currentProvider).total
      = 5037046011859309 / 549755813888 := by
    have e : (calculateProviderCostsWith roundToDouble (roundFields roundToDouble decimalVolumeSnapshot) Provider.currentProvider).total
        = roundToDouble
          ((calculateProviderCostsWith roundToDouble (roundFields roundToDouble decimalVolumeSnapshot) Provider.currentProvider).rails
            + (calculateProviderCostsWith roundToDouble (roundFields roundToDouble decimalVolumeSnapshot)
                Provider.currentProvider).fx.total) := rfl
    rw [e, hcr, hcf]
    norm_num [    f1, f2, f3, f4, f5, f6, f7, f8, f9, f10, f11, f12, f13, f14, f15, f16, f17, f18, f19,
    f20, f21, f22, f23, f24, f25, f26, f27, f28, f29, f30, f31, f32, f33, f34, f35, f36,
    f37, f38, f39, f40, f41, f42, f43, f44, f45, f46, f47, f48, f49, f50, f51, f52, f53,
    f54, f55, f56, f57, f58, f59, f60, f61, f62, r1, r2]
  have htr : (calculateProviderCostsWith roundToDouble (roundFields roundToDouble decimalVolumeSnapshot) Provider.tungsten).rails
      = 8557 / 2 := by
    simp only [calculateProviderCostsWith, hlc, hcc]
    norm_num [roundFields, roundFeeSchedule, decimalVolumeSnapshot, getDefaultData, Fees.get,
    f1, f2, f3, f4, f5, f6, f7, f8, f9, f10, f11, f12, f13, f14, f15, f16, f17, f18, f19,
    f20, f21, f22, f23, f24, f25, f26, f27, f28, f29, f30, f31, f32, f33, f34, f35, f36,
    f37, f38, f39, f40, f41, f42, f43, f44, f45, f46, f47, f48, f49, f50, f51, f52, f53,
    f54, f55, f56, f57, f58, f59, f60, f61, f62, r1, r2]
  have htf : (calculateProviderCostsWith roundToDouble (roundFields roundToDouble decimalVolumeSnapshot) Provider.tungsten).fx.total
      = 7281210268790941 / 8796093022208 := by
    simp only [calculateProviderCostsWith, hv1, hv2, hv3]
    norm_num [roundFields, roundFeeSchedule, decimalVolumeSnapshot, getDefaultData, Fees.get,
    f1, f2, f3, f4, f5, f6, f7, f8, f9, f10, f11, f12, f13, f14, f15, f16, f17, f18, f19,
    f20, f21, f22, f23, f24, f25, f26, f27, f28, f29, f30, f31, f32, f33, f34, f35, f36,
    f37, f38, f39, f40, f41, f42, f43, f44, f45, f46, f47, f48, f49, f50, f51, f52, f53,
    f54, f55, f56, f57, f58, f59, f60, f61, f62, r1, r2]
  have htt : (calculateProviderCostsWith roundToDouble (roundFields roundToDouble decimalVolumeSnapshot) Provider.tungsten).total
      = 1403602945759621 / 274877906944 := by
    have e : (calculateProviderCostsWith roundToDouble (roundFields roundToDouble decimalVolumeSnapshot) Provider.tungsten).total
        = roundToDouble
          ((calculateProviderCostsWith roundToDouble (roundFields roundToDouble decimalVolumeSnapshot) Provider.tungsten).rails
            + (calculateProviderCostsWith roundToDouble (roundFields roundToDouble decimalVolumeSnapshot) Provider.tungsten).fx.total) := rfl
    rw [e, htr, htf]
    norm_num [    f1, f2, f3, f4, f5, f6, f7, f8, f9, f10, f11, f12, f13, f14, f15, f16, f17, f18, f19,
    f20, f21, f22, f23, f24, f25, f26, f27, f28, f29, f30, f31, f32, f33, f34, f35, f36,
    f37, f38, f39, f40, f41, f42, f43, f44, f45, f46, f47, f48, f49, f50, f51, f52, f53,
    f54, f55, f56, f57, f58, f59, f60, f61, f62, r1, r2]
  have sr : (calculateSavingsWith roundToDouble (roundFields roundToDouble decimalVolumeSnapshot)).costs.savings.rails = 7001 / 2 := by
    simp only [calculateSavingsWith, hcr, htr]
    norm_num [    f1, f2, f3, f4, f5, f6, f7, f8, f9, f10, f11, f12, f13, f14, f15, f16, f17, f18, f19,
    f20, f21, f22, f23, f24, f25, f26, f27, f28, f29, f30, f31, f32, f33, f34, f35, f36,
    f37, f38, f39, f40, f41, f42, f43, f44, f45, f46, f47, f48, f49, f50, f51, f52, f53,
    f54, f55, f56, f57, f58, f59, f60, f61, f62, r1, r2]
  have sf : (calculateSavingsWith roundToDouble (roundFields roundToDouble decimalVolumeSnapshot)).costs.savings.fx
      = 4886718301201975 / 8796093022208 := by
    simp only [calculateSavingsWith, hcf, htf]
    norm_num [    f1, f2, f3, f4, f5, f6, f7, f8, f9, f10, f11, f12, f13, f14, f15, f16, f17, f18, f19,
    f20, f21, f22, f23, f24, f25, f26, f27, f28, f29, f30, f31, f32, f33, f34, f35, f36,
    f37, f38, f39, f40, f41, f42, f43, f44, f45, f46, f47, f48, f49, f50, f51, f52, f53,
    f54, f55, f56, f57, f58, f59, f60, f61, f62, r1, r2]
  have st : (calculateSavingsWith roundToDouble (roundFields roundToDouble decimalVolumeSnapshot)).costs.savings.total
      = 2229840120340067 / 549755813888 := by
    simp only [calculateSavingsWith, hct, htt]
    norm_num [    f1, f2, f3, f4, f5, f6, f7, f8, f9, f10, f11, f12, f13, f14, f15, f16, f17, f18, f19,
    f20, f21, f22, f23, f24, f25, f26, f27, f28, f29, f30, f31, f32, f33, f34, f35, f36,
    f37, f38, f39, f40, f41, f42, f43, f44, f45, f46, f47, f48, f49, f50, f51, f52, f53,
    f54, f55, f56, f57, f58, f59, f60, f61, f62, r1, r2]
  refine ⟨sr, sf, st, ?_, ?_⟩
  · rw [sr, sf, st]
    norm_num
  · rw [sr, sf, st]
    norm_num [g1]

/-! ## Currency conversion in double precision -/

/-- The conversion with exact arithmetic is the rounded conversion with no
rounding. -/
theorem changeCurrencyWith_id (d : Data) (newCurrency : String) :
    changeCurrencyWith id d newCurrency = changeCurrency d newCurrency := rfl

/-- Counterexample to claim C16 as stated, in the double precision of the
engine: converting 2.46875 from GBP to USD, the exact product
2.46875 * 1.00 / 0.79 * 100 is the tie 312.5, which rounds away from zero to
3.13, while the double product is 312.49999999999994 and the engine stores
3.12. -/
theorem changeCurrency_below_tie_in_doubles :
    sterlingSnapshot.customerInfo.currency = "GBP"
      ∧ sterlingSnapshot.customerInfo.totalPaymentValue = 2.46875
      ∧ roundHalfAwayFromZero2
          (sterlingSnapshot.customerInfo.totalPaymentValue * referenceRate "USD"
            / referenceRate "GBP") = 3.13
      ∧ (∃ d' : Data, changeCurrencyWith roundToDouble sterlingSnapshot "USD" = some d'
          ∧ d'.customerInfo.totalPaymentValue = roundToDouble 3.12
          ∧ d'.customerInfo.totalPaymentValue = 3512807709348987 / 1125899906842624
          ∧ d'.customerInfo.totalPaymentValue ≠ roundToDouble 3.13
          ∧ d'.customerInfo.totalPaymentValue ≠ 3.13) := by
  have f1 : roundToDouble (1) = 1 := by
    rw [roundToDouble_of_bounds (1) (0) 4503599627370496 (by norm_num) (by norm_num)
      (by norm_num) (by norm_num)]
    norm_num
  have f2 : roundToDouble (79 / 100) = 889460926405673 / 1125899906842624 := by
    rw [roundToDouble_of_bounds (79 / 100) (-1) 7115687411245384 (by norm_num) (by norm_num)
      (by norm_num) (by norm_num)]
    norm_num
  have f3 : roundToDouble (1125899906842624 / 889460926405673) = 5700759021987969 / 4503599627370496 := by
    rw [roundToDouble_of_bounds (1125899906842624 / 889460926405673) (0) 5700759021987969 (by norm_num) (by norm_num)
      (by norm_num) (by norm_num)]
    norm_num
  have f4 : roundToDouble (450359962737049551 / 144115188075855872) = 7036874417766399 / 2251799813685248 := by
    rw [roundToDouble_of_bounds (450359962737049551 / 144115188075855872) (1) 7036874417766399 (by norm_num) (by norm_num)
      (by norm_num) (by norm_num)]
    norm_num
  have f5 : roundToDouble (175921860444159975 / 562949953421312) = 5497558138879999 / 17592186044416 := by
    rw [roundToDouble_of_bounds (175921860444159975 / 562949953421312) (8) 5497558138879999 (by norm_num) (by norm_num)
      (by norm_num) (by norm_num)]
    norm_num
  have f6 : roundToDouble (78 / 25) = 3512807709348987 / 1125899906842624 := by
    rw [roundToDouble_of_bounds (78 / 25) (1) 7025615418697974 (by norm_num) (by norm_num)
      (by norm_num) (by norm_num)]
    norm_num
  have r1 : mathRound (5497558138879999 / 17592186044416) = 312 := by
    unfold mathRound
    rw [Int.floor_eq_iff]
    norm_num
  have g1 : roundToDouble (313 / 100) = 3524066708417413 / 1125899906842624 := by
    rw [roundToDouble_of_bounds (313 / 100) (1) 7048133416834826 (by norm_num) (by norm_num)
      (by norm_num) (by norm_num)]
    norm_num
  have hv : sterlingSnapshot.customerInfo.totalPaymentValue = 2.46875 := rfl
  have hc : sterlingSnapshot.customerInfo.currency = "GBP" := rfl
  have hg : exchangeRatesWith roundToDouble "GBP" = some (889460926405673 / 1125899906842624) := by
    simp [exchangeRatesWith]
    norm_num [f2]
  have hu : exchangeRatesWith roundToDouble "USD" = some 1 := by
    simp [exchangeRatesWith]
    norm_num [f1]
  have hcall : changeCurrencyWith roundToDouble sterlingSnapshot "USD"
      = some (convertSnapshotWith roundToDouble sterlingSnapshot "USD" (5700759021987969 / 4503599627370496)) := by
    have hne' : ¬ (("GBP" : String) = "USD") := by decide
    simp only [changeCurrencyWith, hc, hg, hu, Option.some_bind, if_neg hne']
    norm_num [jsDiv, f3]
  have hval : convertAmountWith roundToDouble 2.46875 (5700759021987969 / 4503599627370496) = 3512807709348987 / 1125899906842624 := by
    norm_num [convertAmountWith, f1, f2, f3, f4, f5, f6, r1]
  have hexact : roundHalfAwayFromZero2
      (sterlingSnapshot.customerInfo.totalPaymentValue * referenceRate "USD"
        / referenceRate "GBP") = 3.13 := by
    rw [hv]
    simp [referenceRate, roundHalfAwayFromZero2]
    norm_num
  refine ⟨hc, hv, hexact, _, hcall, ?_, ?_, ?_, ?_⟩
  · simp only [convertSnapshotWith, hv, hval]
    norm_num [f1, f2, f3, f4, f5, f6, r1]
  · simp only [convertSnapshotWith, hv, hval]
  · simp only [convertSnapshotWith, hv, hval]
    norm_num [g1]
  · simp only [convertSnapshotWith, hv, hval]
    norm_num

/-! ## The allocator in double precision -/

/-- The allocator with exact arithmetic is the rounded allocator with no
rounding. -/
theorem adjustDistributionWith_id (dist : FXDistribution) (k : ℕ) (v : ℚ) :
    adjustDistributionWith id dist k v = adjustDistribution dist k v := rfl

/-- Counterexample to claim C24 as stated, in the double precision of the
engine: from 40/35/25, `adjustFXTiers(1, 38)` gives tier3 =
3635718449179307 / 2^47 (25.833333333333336); the same call again gives
tier3 = 7271436898358613 / 2^48 (25.833333333333332), another distribution. -/
theorem adjustFXTiers_not_idempotent_in_doubles :
    (adjustFXTiersWith roundToDouble getDefaultData 1 38).customerInfo.fxVolume.distribution
        = { tier1Percent := 38, tier2Percent := 2545002914425515 / 70368744177664
            tier3Percent := 3635718449179307 / 140737488355328 }
      ∧ (adjustFXTiersWith roundToDouble (adjustFXTiersWith roundToDouble getDefaultData 1 38)
            1 38).customerInfo.fxVolume.distribution
        = { tier1Percent := 38, tier2Percent := 2545002914425515 / 70368744177664
            tier3Percent := 7271436898358613 / 281474976710656 }
      ∧ adjustFXTiersWith roundToDouble (adjustFXTiersWith roundToDouble getDefaultData 1 38) 1 38
        ≠ adjustFXTiersWith roundToDouble getDefaultData 1 38 := by
  have e1 : adjustDistributionWith roundToDouble
      { tier1Percent := 40, tier2Percent := 35, tier3Percent := 25 } 1 38
      = { tier1Percent := 38, tier2Percent := 2545002914425515 / 70368744177664
          tier3Percent := 3635718449179307 / 140737488355328 } := by
    have f1 : roundToDouble (62) = 62 := by
      rw [roundToDouble_of_bounds (62) (5) 8725724278030336 (by norm_num) (by norm_num)
        (by norm_num) (by norm_num)]
      norm_num
    have f2 : roundToDouble (60) = 60 := by
      rw [roundToDouble_of_bounds (60) (5) 8444249301319680 (by norm_num) (by norm_num)
        (by norm_num) (by norm_num)]
      norm_num
    have f3 : roundToDouble (7 / 12) = 5254199565265579 / 9007199254740992 := by
      rw [roundToDouble_of_bounds (7 / 12) (-1) 5254199565265579 (by norm_num) (by norm_num)
        (by norm_num) (by norm_num)]
      norm_num
    have f4 : roundToDouble (162880186523232949 / 4503599627370496) = 2545002914425515 / 70368744177664 := by
      rw [roundToDouble_of_bounds (162880186523232949 / 4503599627370496) (5) 5090005828851030 (by norm_num) (by norm_num)
        (by norm_num) (by norm_num)]
      norm_num
    have f5 : roundToDouble (5 / 12) = 7505999378950827 / 18014398509481984 := by
      rw [roundToDouble_of_bounds (5 / 12) (-2) 7505999378950827 (by norm_num) (by norm_num)
        (by norm_num) (by norm_num)]
      norm_num
    have f6 : roundToDouble (232685980747475637 / 9007199254740992) = 3635718449179307 / 140737488355328 := by
      rw [roundToDouble_of_bounds (232685980747475637 / 9007199254740992) (4) 7271436898358614 (by norm_num) (by norm_num)
        (by norm_num) (by norm_num)]
      norm_num
    have f7 : roundToDouble (5219015193176747 / 70368744177664) = 5219015193176747 / 70368744177664 := by
      rw [roundToDouble_of_bounds (5219015193176747 / 70368744177664) (6) 5219015193176747 (by norm_num) (by norm_num)
        (by norm_num) (by norm_num)]
      norm_num
    have f8 : roundToDouble (14073748835532801 / 140737488355328) = 100 := by
      rw [roundToDouble_of_tie_even (14073748835532801 / 140737488355328) (6) 7036874417766400 (by norm_num) (by norm_num)
        (by norm_num) (by decide)]
      norm_num
    have f9 : roundToDouble 0 = 0 := roundToDouble_zero
    have f10 : roundToDouble (1 / 100) = 5764607523034235 / 576460752303423488 := by
      rw [roundToDouble_of_bounds (1 / 100) (-7) 5764607523034235 (by norm_num) (by norm_num)
        (by norm_num) (by norm_num)]
      norm_num
    norm_num [adjustDistributionWith, setTier, getTier,
      f1, f2, f3, f4, f5, f6, f7, f8, f9, f10]
  have e2 : adjustDistributionWith roundToDouble
      { tier1Percent := 38, tier2Percent := 2545002914425515 / 70368744177664
        tier3Percent := 3635718449179307 / 140737488355328 } 1 38
      = { tier1Percent := 38, tier2Percent := 2545002914425515 / 70368744177664
          tier3Percent := 7271436898358613 / 281474976710656 } := by
    have f1 : roundToDouble (62) = 62 := by
      rw [roundToDouble_of_bounds (62) (5) 8725724278030336 (by norm_num) (by norm_num)
        (by norm_num) (by norm_num)]
      norm_num
    have f2 : roundToDouble (8725724278030337 / 140737488355328) = 8725724278030337 / 140737488355328 := by
      rw [roundToDouble_of_bounds (8725724278030337 / 140737488355328) (5) 8725724278030337 (by norm_num) (by norm_num)
        (by norm_num) (by norm_num)]
      norm_num
    have f3 : roundToDouble (5090005828851030 / 8725724278030337) = 5254199565265579 / 9007199254740992 := by
      rw [roundToDouble_of_bounds (5090005828851030 / 8725724278030337) (-1) 5254199565265579 (by norm_num) (by norm_num)
        (by norm_num) (by norm_num)]
      norm_num
    have f4 : roundToDouble (162880186523232949 / 4503599627370496) = 2545002914425515 / 70368744177664 := by
      rw [roundToDouble_of_bounds (162880186523232949 / 4503599627370496) (5) 5090005828851030 (by norm_num) (by norm_num)
        (by norm_num) (by norm_num)]
      norm_num
    have f5 : roundToDouble (3635718449179307 / 8725724278030337) = 3752999689475413 / 9007199254740992 := by
      rw [roundToDouble_of_bounds (3635718449179307 / 8725724278030337) (-2) 7505999378950826 (by norm_num) (by norm_num)
        (by norm_num) (by norm_num)]
      norm_num
    have f6 : roundToDouble (116342990373737803 / 4503599627370496) = 7271436898358613 / 281474976710656 := by
      rw [roundToDouble_of_bounds (116342990373737803 / 4503599627370496) (4) 7271436898358613 (by norm_num) (by norm_num)
        (by norm_num) (by norm_num)]
      norm_num
    have f7 : roundToDouble (5219015193176747 / 70368744177664) = 5219015193176747 / 70368744177664 := by
      rw [roundToDouble_of_bounds (5219015193176747 / 70368744177664) (6) 5219015193176747 (by norm_num) (by norm_num)
        (by norm_num) (by norm_num)]
      norm_num
    have f8 : roundToDouble (28147497671065601 / 281474976710656) = 100 := by
      rw [roundToDouble_of_bounds (28147497671065601 / 281474976710656) (6) 7036874417766400 (by norm_num) (by norm_num)
        (by norm_num) (by norm_num)]
      norm_num
    have f9 : roundToDouble 0 = 0 := roundToDouble_zero
    have f10 : roundToDouble (1 / 100) = 5764607523034235 / 576460752303423488 := by
      rw [roundToDouble_of_bounds (1 / 100) (-7) 5764607523034235 (by norm_num) (by norm_num)
        (by norm_num) (by norm_num)]
      norm_num
    norm_num [adjustDistributionWith, setTier, getTier,
      f1, f2, f3, f4, f5, f6, f7, f8, f9, f10]
  have a1 : (adjustFXTiersWith roundToDouble getDefaultData 1 38).customerInfo.fxVolume.distribution
      = { tier1Percent := 38, tier2Percent := 2545002914425515 / 70368744177664
          tier3Percent := 3635718449179307 / 140737488355328 } := e1
  have a2 : (adjustFXTiersWith roundToDouble (adjustFXTiersWith roundToDouble getDefaultData 1 38)
      1 38).customerInfo.fxVolume.distribution
      = { tier1Percent := 38, tier2Percent := 2545002914425515 / 70368744177664
          tier3Percent := 7271436898358613 / 281474976710656 } := by
    have e1' : adjustDistributionWith roundToDouble
        getDefaultData.customerInfo.fxVolume.distribution 1 38
        = { tier1Percent := 38, tier2Percent := 2545002914425515 / 70368744177664
            tier3Percent := 3635718449179307 / 140737488355328 } := e1
    simp only [adjustFXTiersWith]
    rw [e1', e2]
  refine ⟨a1, a2, ?_⟩
  intro h
  have h3 := congrArg (fun x => x.customerInfo.fxVolume.distribution.tier3Percent) h
  simp only [a1, a2] at h3
  norm_num at h3

/-! ## Validation of the live object -/

/-- A snapshot with missing fields passes every test of `validate()`: without
`totalPaymentValue`, without `fxPercentOfCrossBorder` and without
`tier3Percent` the live object is reported valid, although the engine reads no
snapshot from it. -/
theorem validateLive_accepts_missing_fields :
    validateLive legacyImport = some { valid := true, errors := [] }
      ∧ importData legacyImport = some legacyImport
      ∧ readData legacyImport = none := by
  have h1 : legacyImport.field "customerInfo"
      = some (JsValue.obj (JsFields.ofList
        [("currency", JsValue.str "USD"),
         ("totalPaymentCount", JsValue.num 1100000),
         ("fxVolume", JsValue.obj (JsFields.ofList
            [("distribution", JsValue.obj (JsFields.ofList
              [("tier1Percent", JsValue.num 40),
               ("tier2Percent", JsValue.num 35)]))]))])) := by
    simp [legacyImport, JsFields.ofList, JsValue.field, JsFields.lookup]
  have hc : cloneValue legacyImport = legacyImport := by
    simp only [legacyImport, JsFields.ofList, cloneValue, cloneFields, cloneValue_feeSchedule]
    simp [FeeSchedule.toJs, cloneValue, cloneFields, JsFields.ofList]
  refine ⟨?_, ?_, ?_⟩
  · simp only [validateLive, h1, Option.some_bind]
    simp [JsFields.ofList, JsValue.field, JsFields.lookup, JsValue.toNumber, JsNumber.lt,
      JsNumber.gt, JsNumber.add, JsNumber.absSubGt]
  · have hobj : jsonClone legacyImport = some (cloneValue legacyImport) := rfl
    simp only [importData, hobj, hc]
  · simp only [readData, h1, Option.some_bind]
    have hci : readCustomerInfo (JsValue.obj (JsFields.ofList
        [("currency", JsValue.str "USD"),
         ("totalPaymentCount", JsValue.num 1100000),
         ("fxVolume", JsValue.obj (JsFields.ofList
            [("distribution", JsValue.obj (JsFields.ofList
              [("tier1Percent", JsValue.num 40),
               ("tier2Percent", JsValue.num 35)]))]))])) = none := by
      simp [readCustomerInfo, JsFields.ofList, JsValue.field, JsFields.lookup, JsValue.strField,
        JsValue.numField]
    simp only [hci, Option.none_bind]

/-- Claim C19, amended: on a snapshot whose fields are finite numbers (the live
object of a typed snapshot), whenever `validate()` returns valid = true,
`totalPaymentValue` and `totalPaymentCount` are non-negative,
`fxPercentOfCrossBorder` lies in [0,100] and the three FX tier percentages sum
to 100 within 0.01, the sum being exact. -/
theorem validateLive_sound (d : Data) (r : ValidationResult)
    (hr : validateLive d.toJs = some r) (hv : r.valid = true) :
    0 ≤ d.customerInfo.totalPaymentValue ∧ 0 ≤ d.customerInfo.totalPaymentCount
      ∧ IsPercent d.customerInfo.fxPercentOfCrossBorder
      ∧ |d.customerInfo.fxVolume.distribution.tier1Percent
          + d.customerInfo.fxVolume.distribution.tier2Percent
          + d.customerInfo.fxVolume.distribution.tier3Percent - 100| ≤ 0.01 := by
  rw [validateLive_toJs] at hr
  cases hr
  exact validate_sound d hv

/-- Witness of the amended claim C19: the live object of the default snapshot
is reported valid. -/
theorem validateLive_sound_witness :
    validateLive getDefaultData.toJs = some (validate getDefaultData)
      ∧ (validate getDefaultData).valid = true
      ∧ 0 ≤ getDefaultData.customerInfo.totalPaymentValue
      ∧ IsPercent getDefaultData.customerInfo.fxPercentOfCrossBorder := by
  have hv : (validate getDefaultData).valid = true := by
    norm_num [validate, getDefaultData]
  have h := validateLive_sound getDefaultData (validate getDefaultData)
    (validateLive_toJs getDefaultData) hv
  exact ⟨validateLive_toJs getDefaultData, hv, h.1, h.2.2.1⟩

end ROICalculator
